import Mathlib

/-!
# FlutterGestP backend: social feed and engagement counters

A shallow embedding of the social-interaction part of
src/backend/server.js: the Mongoose collections are lists of records, a
request handler is a pure function from the store (and the request
parameters) to the new store and the response.

* ObjectIds are natural numbers, timestamps are natural numbers.
* A collection is a list in insertion order; findOne returns the first
  match, save rewrites the document that was found.
* A handler returns the HTTP status and body as a value of Result.
* The handlers of the like and comment routes read req.userId; they take
  that value as an optional id, none being undefined, and the routes are
  the handlers behind authMiddleware.
-/

namespace FlutterGestP

/-! ## Data model (server.js lines 83-205) -/

/-- User documents (userSchema), reduced to the fields the feed projects
and authMiddleware reads. -/
structure User where
  _id : Nat
  name : String
  email : String
  profilePhoto : String
  role : String
  status : String
  tokens : List String
  deriving DecidableEq, Repr

/-- Article documents (articleSchema). -/
structure Article where
  _id : Nat
  title : String
  content : String
  summary : String
  published : Bool
  tags : List String
  authorId : Nat
  createdAt : Nat
  deriving DecidableEq, Repr

/-- Media documents (mediaSchema); type is one of image, video, audio,
document. -/
structure Media where
  _id : Nat
  title : String
  description : String
  url : String
  mimetype : String
  type : String
  tags : List String
  uploadedBy : Nat
  isPublic : Bool
  usageCount : Nat
  createdAt : Nat
  deriving DecidableEq, Repr

/-- Like documents (likeSchema). -/
structure Like where
  userId : Nat
  targetType : String
  targetId : Nat
  isActive : Bool
  deriving DecidableEq, Repr

/-- Comment documents (commentSchema). -/
structure Comment where
  _id : Nat
  content : String
  authorId : Nat
  targetType : String
  targetId : Nat
  parentCommentId : Option Nat
  isEdited : Bool
  editedAt : Option Nat
  isDeleted : Bool
  deletedAt : Option Nat
  likesCount : Nat
  repliesCount : Nat
  createdAt : Nat
  deriving DecidableEq, Repr

/-- ContentStats documents (contentStatsSchema), the counter cache. -/
structure ContentStats where
  contentType : String
  contentId : Nat
  likesCount : Nat
  commentsCount : Nat
  viewsCount : Nat
  sharesCount : Nat
  deriving DecidableEq, Repr

/-- The database: one list per collection. -/
structure Store where
  users : List User
  articles : List Article
  medias : List Media
  likes : List Like
  comments : List Comment
  contentStats : List ContentStats
  deriving DecidableEq, Repr

/-- What a handler sends back: res.json(body) with status 200 or 201, or
res.status(code).json(error). -/
inductive Result (α : Type) where
  | ok (status : Nat) (body : α)
  | error (status : Nat) (message : String)
  deriving DecidableEq, Repr

/-- Status code of a response. -/
def Result.status {α : Type} : Result α → Nat
  | .ok c _ => c
  | .error c _ => c

/-- Whether the handler answered with its success response. -/
def Result.isOk {α : Type} : Result α → Bool
  | .ok _ _ => true
  | .error _ _ => false

/-! ## Collection primitives -/

/-- Rewrite the first document that satisfies p (findOne followed by
save, or findOneAndUpdate / findByIdAndUpdate). -/
def updateFirst {α : Type} (p : α → Bool) (f : α → α) : List α → List α
  | [] => []
  | x :: xs => if p x then f x :: xs else x :: updateFirst p f xs

/-- The filter (userId, targetType, targetId) of Like.findOne in POST
/api/likes. -/
def likeMatches (userId : Nat) (targetType : String) (targetId : Nat) (l : Like) : Bool :=
  decide (l.userId = userId) && decide (l.targetType = targetType) && decide (l.targetId = targetId)

/-- Like.countDocuments with targetType, targetId and isActive true. -/
def countLikes (likes : List Like) (targetType : String) (targetId : Nat) : Nat :=
  likes.countP (fun l => decide (l.targetType = targetType) && decide (l.targetId = targetId) && l.isActive)

/-- Comment.countDocuments with targetType, targetId and isDeleted false. -/
def countComments (comments : List Comment) (targetType : String) (targetId : Nat) : Nat :=
  comments.countP (fun c => decide (c.targetType = targetType) && decide (c.targetId = targetId) && !c.isDeleted)

/-- The filter (contentType, contentId) on the ContentStats collection. -/
def statsMatches (contentType : String) (contentId : Nat) (e : ContentStats) : Bool :=
  decide (e.contentType = contentType) && decide (e.contentId = contentId)

/-- ContentStats.findOneAndUpdate with upsert: the first entry for the key
gets the two counts; without one a new entry is inserted, the other
counters taking their schema default 0. -/
def upsertStats (cs : List ContentStats) (targetType : String) (targetId : Nat)
    (likesCount commentsCount : Nat) : List ContentStats :=
  if cs.any (statsMatches targetType targetId) then
    updateFirst (statsMatches targetType targetId)
      (fun e => { e with likesCount := likesCount, commentsCount := commentsCount }) cs
  else
    cs ++ [{ contentType := targetType, contentId := targetId,
             likesCount := likesCount, commentsCount := commentsCount,
             viewsCount := 0, sharesCount := 0 }]

/-- The function updateContentStats (server.js 3771-3802): recount the
active likes and the non-deleted comments of the target and upsert the
entry. -/
def updateContentStats (s : Store) (targetType : String) (targetId : Nat) : Store :=
  let likesCount := countLikes s.likes targetType targetId
  let commentsCount := countComments s.comments targetType targetId
  { s with contentStats := upsertStats s.contentStats targetType targetId likesCount commentsCount }

/-! ## POST /api/likes (server.js 3107-3183) -/

/-- Body of the success response of POST /api/likes. -/
structure LikeResponse where
  message : String
  action : String
  likesCount : Nat
  isLiked : Bool
  deriving DecidableEq, Repr

/-- The existence check of POST /api/likes (lines 3120-3132): findById in
the collection named by targetType. -/
def likeTargetExists (s : Store) (targetType : String) (targetId : Nat) : Bool :=
  if targetType = "article" then s.articles.any (fun a => decide (a._id = targetId))
  else if targetType = "media" then s.medias.any (fun m => decide (m._id = targetId))
  else if targetType = "comment" then s.comments.any (fun c => decide (c._id = targetId))
  else false

/-- The like toggle of lines 3134-3158: flip the record found, or create
an active one. Returns the new collection and the action. -/
def toggleLikeRecord (likes : List Like) (userId : Nat) (targetType : String) (targetId : Nat) :
    List Like × String :=
  match likes.find? (likeMatches userId targetType targetId) with
  | some existingLike =>
    (updateFirst (likeMatches userId targetType targetId)
        (fun l => { l with isActive := !l.isActive }) likes,
      if !existingLike.isActive then "liked" else "unliked")
  | none =>
    (likes ++ [{ userId := userId, targetType := targetType, targetId := targetId,
                 isActive := true }], "liked")

/-- The handler of POST /api/likes. userId is the value of req.userId that
line 3110 reads, none when the property is undefined; targetType and
targetId are the body fields, none when absent. With an undefined userId
the filter of Like.findOne asks for a record without a userId, which the
collection does not hold (the field is required, line 157), so Like.create
runs and its validation rejects the missing userId: the catch answers 500
and nothing is written. -/
def toggleLike (s : Store) (userId : Option Nat) (targetType : Option String)
    (targetId : Option Nat) : Store × Result LikeResponse :=
  match targetType, targetId with
  | some tt, some tid =>
    if tt = "" then (s, .error 400 "targetType et targetId sont requis")
    else if !(["article", "media", "comment"].contains tt) then
      (s, .error 400 "targetType invalide")
    else if !(likeTargetExists s tt tid) then (s, .error 404 "Contenu non trouvé")
    else
      match userId with
      | none => (s, .error 500 "Like validation failed: userId: Path userId is required.")
      | some uid =>
        let toggled := toggleLikeRecord s.likes uid tt tid
        let s1 := { s with likes := toggled.1 }
        let s2 := updateContentStats s1 tt tid
        let likesCount := countLikes s2.likes tt tid
        (s2, .ok 200 { message := "Contenu " ++ toggled.2, action := toggled.2,
                       likesCount := likesCount, isLiked := decide (toggled.2 = "liked") })
  | _, _ => (s, .error 400 "targetType et targetId sont requis")

/-! ## POST /api/comments (server.js 3269-3340) -/

/-- The existence check of POST /api/comments (lines 3286-3296): an
article when targetType is article, a media otherwise. -/
def commentTargetExists (s : Store) (targetType : String) (targetId : Nat) : Bool :=
  if targetType = "article" then s.articles.any (fun a => decide (a._id = targetId))
  else s.medias.any (fun m => decide (m._id = targetId))

/-- Comment.findById. -/
def findCommentById (comments : List Comment) (commentId : Nat) : Option Comment :=
  comments.find? (fun c => decide (c._id = commentId))

/-- The property length of a JavaScript string: its number of UTF-16 code
units, two for a character outside the basic plane. -/
def jsLength (text : String) : Nat :=
  (text.toList.map (fun c => if c.toNat < 65536 then 1 else 2)).sum

/-- The document Comment.create inserts (lines 3307-3313), the other
fields taking their schema defaults. -/
def newComment (authorId : Nat) (content targetType : String) (targetId : Nat)
    (parentCommentId : Option Nat) (newId now : Nat) : Comment :=
  { _id := newId, content := content, authorId := authorId, targetType := targetType,
    targetId := targetId, parentCommentId := parentCommentId, isEdited := false,
    editedAt := none, isDeleted := false, deletedAt := none, likesCount := 0,
    repliesCount := 0, createdAt := now }

/-- Lines 3318-3324: for a reply, findByIdAndUpdate on the parent with
$inc repliesCount 1. -/
def bumpReplies (comments : List Comment) (parentCommentId : Option Nat) : List Comment :=
  match parentCommentId with
  | some pid =>
    updateFirst (fun c => decide (c._id = pid))
      (fun c => { c with repliesCount := c.repliesCount + 1 }) comments
  | none => comments

/-- The handler of POST /api/comments. authorId is the value of
req.userId that line 3272 reads, none when the property is undefined. The
body fields are none when absent; newId is the ObjectId generated for the
new document and now the clock. With an undefined authorId the validation
of Comment.create rejects the document (authorId is required, line 173):
the catch answers 500 and nothing is written. An id that is already taken
is the duplicate-key failure of the store (500). -/
def createComment (s : Store) (authorId : Option Nat) (content : Option String)
    (targetType : Option String) (targetId : Option Nat) (parentCommentId : Option Nat)
    (newId now : Nat) : Store × Result (Option Comment) :=
  match content, targetType, targetId with
  | some text, some tt, some tid =>
    if text = "" || tt = "" then (s, .error 400 "Contenu, targetType et targetId sont requis")
    else if !(["article", "media"].contains tt) then (s, .error 400 "targetType invalide")
    else if jsLength text > 1000 then
      (s, .error 400 "Commentaire trop long (max 1000 caractères)")
    else if !(commentTargetExists s tt tid) then (s, .error 404 "Contenu non trouvé")
    else if (match parentCommentId with
        | some pid => (findCommentById s.comments pid).isNone
        | none => false) then
      (s, .error 404 "Commentaire parent non trouvé")
    else
      match authorId with
      | none =>
        (s, .error 500 "Comment validation failed: authorId: Path authorId is required.")
      | some aid =>
        if s.comments.any (fun c => decide (c._id = newId)) then
          (s, .error 500 "E11000 duplicate key error")
        else
          let comment := newComment aid text tt tid parentCommentId newId now
          let s1 := { s with comments := s.comments ++ [comment] }
          let s2 := updateContentStats s1 tt tid
          let s3 := { s2 with comments := bumpReplies s2.comments parentCommentId }
          (s3, .ok 201 (findCommentById s3.comments newId))
  | _, _, _ => (s, .error 400 "Contenu, targetType et targetId sont requis")

/-! ## DELETE /api/comments/:commentId (server.js 3469-3496) -/

/-- Lines 3483-3485: set isDeleted and deletedAt on the comment found and
save it. -/
def markDeleted (comments : List Comment) (commentId now : Nat) : List Comment :=
  updateFirst (fun c => decide (c._id = commentId))
    (fun c => { c with isDeleted := true, deletedAt := some now }) comments

/-- The handler of DELETE /api/comments/:commentId. userId is the value of
req.userId that line 3472 reads, none when the property is undefined; line
3479 compares it with the author id in its string form, and undefined
differs from every string. When they agree: a soft delete, then the
recount of the target of the comment. -/
def deleteComment (s : Store) (userId : Option Nat) (commentId : Nat) (now : Nat) :
    Store × Result String :=
  match findCommentById s.comments commentId with
  | none => (s, .error 404 "Commentaire non trouvé")
  | some comment =>
    if userId ≠ some comment.authorId then
      (s, .error 403 "Vous ne pouvez supprimer que vos propres commentaires")
    else
      let s1 := { s with comments := markDeleted s.comments commentId now }
      let s2 := updateContentStats s1 comment.targetType comment.targetId
      (s2, .ok 200 "Commentaire supprimé")

/-! ## Sequences of engagement mutations -/

/-- One call of a handler of the Like/Comment service, with the value of
req.userId it runs on. -/
inductive Op where
  | like (userId : Option Nat) (targetType : Option String) (targetId : Option Nat)
  | comment (authorId : Option Nat) (content : Option String) (targetType : Option String)
      (targetId : Option Nat) (parentCommentId : Option Nat) (newId now : Nat)
  | remove (userId : Option Nat) (commentId : Nat) (now : Nat)
  deriving DecidableEq, Repr

/-- The value of req.userId a call runs on. -/
def Op.userId : Op → Option Nat
  | .like u _ _ => u
  | .comment a _ _ _ _ _ _ => a
  | .remove u _ _ => u

/-- Run one call: the new store and whether the call succeeded. -/
def Op.apply (s : Store) : Op → Store × Bool
  | .like u tt tid => let r := toggleLike s u tt tid; (r.1, r.2.isOk)
  | .comment a c tt tid p newId now =>
    let r := createComment s a c tt tid p newId now; (r.1, r.2.isOk)
  | .remove u cid now => let r := deleteComment s u cid now; (r.1, r.2.isOk)

/-- The target (kind, id) a call works on in store s: the one named in the
body for a like or a comment, the target of the comment for a delete. -/
def Op.target (s : Store) : Op → Option (String × Nat)
  | .like _ tt tid => match tt, tid with
    | some k, some i => some (k, i)
    | _, _ => none
  | .comment _ _ tt tid _ _ _ => match tt, tid with
    | some k, some i => some (k, i)
    | _, _ => none
  | .remove _ cid _ => (findCommentById s.comments cid).map (fun c => (c.targetType, c.targetId))

/-- Run a sequence of calls, successful or failing: the final store and
the targets of the calls that succeeded. -/
def runTouched (s : Store) : List Op → Store × List (String × Nat)
  | [] => (s, [])
  | op :: ops =>
    let r := op.apply s
    let rest := runTouched r.1 ops
    (rest.1, (if r.2 then (op.target s).toList else []) ++ rest.2)

/-- Whether the engagement collections are empty. -/
def Store.engagementEmpty (s : Store) : Prop :=
  s.likes = [] ∧ s.comments = [] ∧ s.contentStats = []


/-! ## authMiddleware (server.js 208-249) -/

/-- The part of an Express request the handlers use: token is the
Authorization header with its Bearer mark removed, user and userId are the
properties req.user and req.userId. -/
structure Request where
  token : Option String
  user : Option User
  userId : Option Nat
  deriving DecidableEq, Repr

/-- A request as it arrives from the HTTP layer: nothing has set req.user
or req.userId yet. -/
def incomingRequest (token : Option String) : Request :=
  { token := token, user := none, userId := none }

/-- Outcome of a middleware: it calls next() on the request, or answers. -/
inductive MiddlewareResult where
  | next (req : Request)
  | respond (status : Nat) (message : String)
  deriving DecidableEq, Repr

/-- The middleware authMiddleware. The parameter jwtVerify stands for
jwt.verify with the server secret: the decoded id, or none when it
throws. -/
def authMiddleware (users : List User) (jwtVerify : String → Option Nat) (req : Request) :
    MiddlewareResult :=
  match req.token with
  | none => .respond 401 "Access denied"
  | some token =>
    if token = "" then .respond 401 "Access denied"
    else
      match jwtVerify token with
      | none => .respond 401 "Invalid token"
      | some decodedId =>
        match users.find? (fun u => decide (u._id = decodedId)) with
        | none => .respond 401 "User not found"
        | some user =>
          if !(user.tokens.any (fun t => decide (t = token))) then
            .respond 401 "Token expired or invalid"
          else if user.status = "blocked" then
            .respond 403 "Compte bloqué. Contactez l administrateur."
          else if user.status = "suspended" then
            .respond 403 "Compte suspendu. Contactez l administrateur."
          else .next { req with user := some user }

/-- The first statement of the core handlers (lines 2121, 2174, 3110, 3272,
3472, 3502): const userId = req.userId. -/
def handlerUserId (req : Request) : Option Nat :=
  req.userId

/-! ## The like and comment routes as registered -/

/-- The route POST /api/likes (line 3107): authMiddleware, then the handler
on the request the middleware passed on. -/
def postLikes (s : Store) (jwtVerify : String → Option Nat) (token : Option String)
    (targetType : Option String) (targetId : Option Nat) : Store × Result LikeResponse :=
  match authMiddleware s.users jwtVerify (incomingRequest token) with
  | .respond status message => (s, .error status message)
  | .next req => toggleLike s (handlerUserId req) targetType targetId

/-- The route POST /api/comments (line 3269): authMiddleware, then the
handler. -/
def postComments (s : Store) (jwtVerify : String → Option Nat) (token : Option String)
    (content targetType : Option String) (targetId parentCommentId : Option Nat)
    (newId now : Nat) : Store × Result (Option Comment) :=
  match authMiddleware s.users jwtVerify (incomingRequest token) with
  | .respond status message => (s, .error status message)
  | .next req =>
    createComment s (handlerUserId req) content targetType targetId parentCommentId newId now

/-- The route DELETE /api/comments/:commentId (line 3469): authMiddleware,
then the handler. -/
def deleteComments (s : Store) (jwtVerify : String → Option Nat) (token : Option String)
    (commentId now : Nat) : Store × Result String :=
  match authMiddleware s.users jwtVerify (incomingRequest token) with
  | .respond status message => (s, .error status message)
  | .next req => deleteComment s (handlerUserId req) commentId now

/-! ## Feed items -/

/-- Author fields projected into a feed item. -/
structure FeedAuthor where
  _id : Nat
  name : String
  email : String
  profilePhoto : String
  role : String
  deriving DecidableEq, Repr

/-- A document produced by the feed aggregation pipelines, without its
payload fields (summary, content, tags, url, mimetype). The field type is
the literal article for an article of the social feed and the media
category (image, video, audio, document) for a media; feedType is the
literal the pipeline adds, absent on the articles of the social feed. -/
structure FeedDoc where
  _id : Nat
  title : String
  createdAt : Nat
  type : Option String
  feedType : Option String
  author : Option FeedAuthor
  likesCount : Nat
  commentsCount : Nat
  viewsCount : Nat
  deriving DecidableEq, Repr

/-- A feed document with the like state of the viewer. -/
structure FeedItem extends FeedDoc where
  isLiked : Bool
  deriving DecidableEq, Repr

/-- The projection of the author fields. -/
def projectAuthor (u : User) : FeedAuthor :=
  { _id := u._id, name := u.name, email := u.email, profilePhoto := u.profilePhoto,
    role := u.role }

/-- The stage $lookup from users followed by $unwind: one pair per user
whose _id is the reference; a document without one is dropped. -/
def lookupUnwind {α : Type} (users : List User) (ref : α → Nat) (docs : List α) :
    List (α × User) :=
  docs.flatMap (fun d => (users.filter (fun u => decide (u._id = ref d))).map (fun u => (d, u)))

/-- The stage $lookup from contentstats: the entries whose contentId is the
document id and whose contentType is the literal of the pipeline. -/
def lookupStats (cs : List ContentStats) (contentType : String) (contentId : Nat) :
    List ContentStats :=
  cs.filter (fun e => decide (e.contentId = contentId) && decide (e.contentType = contentType))

/-- The expression $ifNull [ $arrayElemAt [xs, 0], 0 ]. -/
def firstOrZero (xs : List Nat) : Nat :=
  xs.head?.getD 0

/-- The order of a sort by createdAt descending: a may stand before b. -/
def newerFirst (a b : FeedDoc) : Prop :=
  b.createdAt ≤ a.createdAt

instance newerFirstDecidable : DecidableRel newerFirst :=
  fun a b => inferInstanceAs (Decidable (b.createdAt ≤ a.createdAt))

instance newerFirstTotal : IsTotal FeedDoc newerFirst :=
  ⟨fun a b => Nat.le_total b.createdAt a.createdAt⟩

instance newerFirstTrans : IsTrans FeedDoc newerFirst :=
  ⟨fun _ _ _ hab hbc => Nat.le_trans hbc hab⟩

/-- Sort by createdAt descending (the stage $sort with createdAt -1 and
the Array sort with the comparator on the dates): a stable sort. -/
def sortByCreatedAtDesc (docs : List FeedDoc) : List FeedDoc :=
  docs.insertionSort newerFirst

/-- Math.ceil(a / b) for natural a and positive b. -/
def ceilDiv (a b : Nat) : Nat :=
  (a + b - 1) / b

/-! ## GET /api/feed/social (server.js 1982-2156) -/

/-- The $project stage of the article pipeline (lines 2027-2045). -/
def projectSocialArticle (cs : List ContentStats) (a : Article) (u : User) : FeedDoc :=
  let stats := lookupStats cs "article" a._id
  { _id := a._id, title := a.title, createdAt := a.createdAt, type := some "article",
    feedType := none, author := some (projectAuthor u),
    likesCount := firstOrZero (stats.map (fun e => e.likesCount)),
    commentsCount := firstOrZero (stats.map (fun e => e.commentsCount)),
    viewsCount := firstOrZero (stats.map (fun e => e.viewsCount)) }

/-- The article pipeline of the social feed (lines 1992-2052). -/
def socialArticles (s : Store) (limitNum : Nat) : List FeedDoc :=
  let joined := lookupUnwind s.users (fun a : Article => a.authorId) s.articles
  let matched := joined.filter (fun p => p.1.published)
  let projected := matched.map (fun p => projectSocialArticle s.contentStats p.1 p.2)
  (sortByCreatedAtDesc projected).take (ceilDiv limitNum 2)

/-- The $project stage of the media pipeline (lines 2087-2106). -/
def projectSocialMedia (cs : List ContentStats) (m : Media) (u : User) : FeedDoc :=
  let stats := lookupStats cs "media" m._id
  { _id := m._id, title := m.title, createdAt := m.createdAt, type := some m.type,
    feedType := some "media", author := some (projectAuthor u),
    likesCount := firstOrZero (stats.map (fun e => e.likesCount)),
    commentsCount := firstOrZero (stats.map (fun e => e.commentsCount)),
    viewsCount := firstOrZero (stats.map (fun e => e.viewsCount)) }

/-- The media pipeline of the social feed (lines 2055-2113). -/
def socialMedias (s : Store) (limitNum : Nat) : List FeedDoc :=
  let joined := lookupUnwind s.users (fun m : Media => m.uploadedBy) s.medias
  let projected := joined.map (fun p => projectSocialMedia s.contentStats p.1 p.2)
  (sortByCreatedAtDesc projected).take (ceilDiv limitNum 2)

/-- The JavaScript expression a || b on optional strings: the empty string
and the absent value are falsy. -/
def jsOr (a b : Option String) : Option String :=
  match a with
  | some x => if x = "" then b else some x
  | none => b

/-- The filter of the Like.findOne of line 2124 and of the likes lookups:
an active like of the viewer on the target. -/
def activeLikeMatches (userId : Nat) (targetType : String) (targetId : Nat) (l : Like) : Bool :=
  decide (l.userId = userId) && decide (l.targetType = targetType) &&
    decide (l.targetId = targetId) && l.isActive

/-- The loop of lines 2120-2131 for one item: the kind of the like looked
up is read from item.type || item.feedType. -/
def annotateLiked (likes : List Like) (userId : Nat) (item : FeedDoc) : FeedItem :=
  let targetType := jsOr item.type item.feedType
  let queryType := if targetType = some "media" then "media" else "article"
  { toFeedDoc := item,
    isLiked := (likes.find? (activeLikeMatches userId queryType item._id)).isSome }

/-- The pagination block of a feed response. -/
structure Pagination where
  page : Nat
  limit : Nat
  total : Nat
  pages : Nat
  deriving DecidableEq, Repr

/-- Body of the response of GET /api/feed/social. -/
structure SocialFeedResponse where
  feed : List FeedItem
  pagination : Pagination
  statsArticles : Nat
  statsMedias : Nat
  deriving DecidableEq, Repr

/-- The handler of GET /api/feed/social for the viewer id it read from the
request and the parsed page and limit. A limit of 0 makes the $limit stage
0, which the store rejects (500). The value skip of line 1989 is computed
and never used. -/
def socialFeed (s : Store) (userId : Nat) (page limitNum : Nat) : Result SocialFeedResponse :=
  if limitNum = 0 then .error 500 "the limit must be positive"
  else
    let _skip := (page - 1) * limitNum
    let articles := socialArticles s limitNum
    let medias := socialMedias s limitNum
    let combinedFeed := (sortByCreatedAtDesc (articles ++ medias)).take limitNum
    let feed := combinedFeed.map (annotateLiked s.likes userId)
    let totalArticles := s.articles.countP (fun a => a.published)
    let totalMedias := s.medias.length
    let total := totalArticles + totalMedias
    .ok 200 { feed := feed,
              pagination := { page := page, limit := limitNum, total := total,
                              pages := ceilDiv total limitNum },
              statsArticles := articles.length, statsMedias := medias.length }

/-- The feed list of a response, empty for an error. -/
def feedOf (r : Result SocialFeedResponse) : List FeedItem :=
  match r with
  | .ok _ body => body.feed
  | .error _ _ => []

/-- The kind of a feed item: media when the pipeline tagged it with
feedType media, article otherwise. -/
def FeedDoc.kind (d : FeedDoc) : String :=
  if d.feedType = some "media" then "media" else "article"

/-! ## Predicates of the specification -/

/-- The key (contentType, contentId) of a counter-cache entry. -/
def statsKey (e : ContentStats) : String × Nat :=
  (e.contentType, e.contentId)

/-- An entry agrees with a direct recount of the likes and comments. -/
def StatsOkAt (likes : List Like) (comments : List Comment) (e : ContentStats) : Prop :=
  e.likesCount = countLikes likes e.contentType e.contentId ∧
    e.commentsCount = countComments comments e.contentType e.contentId

/-- Counter-cache invariant: one entry per key, each agreeing with a
direct recount. -/
def StatsInv (s : Store) : Prop :=
  (s.contentStats.map statsKey).Nodup ∧ ∀ e ∈ s.contentStats, StatsOkAt s.likes s.comments e

/-- The store has a counter-cache entry for the key. -/
def HasEntry (s : Store) (t : String × Nat) : Prop :=
  ∃ e ∈ s.contentStats, statsKey e = t

/-! ## Worked examples -/

/-- A user for the worked examples. -/
def demoUser : User :=
  { _id := 7, name := "Awa", email := "awa@example.org", profilePhoto := "", role := "user",
    status := "active", tokens := ["tok"] }

/-- A published article for the worked examples. -/
def demoArticle : Article :=
  { _id := 1, title := "A", content := "body", summary := "", published := true, tags := [],
    authorId := 7, createdAt := 10 }

/-- A public media for the worked examples, newer than the article. -/
def demoMedia : Media :=
  { _id := 2, title := "M", description := "", url := "/uploads/m.png",
    mimetype := "image/png", type := "image", tags := [], uploadedBy := 7, isPublic := true,
    usageCount := 0, createdAt := 20 }

/-- A store with one user, one article, one media and no engagement. -/
def demoStore : Store :=
  { users := [demoUser], articles := [demoArticle], medias := [demoMedia], likes := [],
    comments := [], contentStats := [] }

/-- A like, a comment, a reply, another like and the deletion of the
reply, as the handlers run them behind authMiddleware: req.userId is
undefined in each. -/
def demoOps : List Op :=
  [.like none (some "article") (some 1),
   .comment none (some "hello") (some "article") (some 1) none 100 30,
   .comment none (some "reply") (some "article") (some 1) (some 100) 101 31,
   .like none (some "media") (some 2),
   .remove none 101 32]

/-! ## Like state and repeated toggles -/

/-- The triple (userId, targetType, targetId) of the unique index of the
Like collection (line 164). -/
def likeKey (l : Like) : Nat × String × Nat :=
  (l.userId, l.targetType, l.targetId)

/-- At most one Like record per (userId, targetType, targetId). -/
def LikeUnique (likes : List Like) : Prop :=
  (likes.map likeKey).Nodup

/-- The effective like state of a user on a target: a Like record of the
user for the target exists with isActive true. -/
def isLikedBy (likes : List Like) (userId : Nat) (targetType : String) (targetId : Nat) : Bool :=
  likes.any (activeLikeMatches userId targetType targetId)

/-- The store after n consecutive toggleLike calls on one target, run on
the same value of req.userId, that all succeed; none as soon as one
fails. -/
def toggleTimes (s : Store) (userId : Option Nat) (targetType : String) (targetId : Nat) :
    Nat → Option Store
  | 0 => some s
  | n + 1 =>
    let r := toggleLike s userId (some targetType) (some targetId)
    if r.2.isOk then toggleTimes r.1 userId targetType targetId n else none

/-- The store after a sequence of toggleLike calls, each given by its value
of req.userId and its body, whether they succeed or fail. -/
def runToggles (s : Store) : List (Option Nat × Option String × Option Nat) → Store
  | [] => s
  | call :: calls => runToggles (toggleLike s call.1 call.2.1 call.2.2).1 calls

/-! ## Stores for the feed examples -/

/-- The demo store after user 7 liked the media 2: one active Like record
(7, media, 2). -/
def likedMediaStore : Store :=
  { demoStore with likes := [{ userId := 7, targetType := "media", targetId := 2,
                               isActive := true }] }

/-- A store whose only content is one published article of an existing
author. -/
def oneArticleStore : Store :=
  { demoStore with medias := [] }

/-- A media that its uploader marked private. -/
def privateMedia : Media :=
  { demoMedia with _id := 3, title := "private", isPublic := false, createdAt := 30 }

/-- A store whose only media is private. -/
def privateMediaStore : Store :=
  { demoStore with medias := [privateMedia] }

/-- The demo store with counter-cache entries: one for the article 1, and
one of the other kind (media) under the same id 1. -/
def statsStore : Store :=
  { demoStore with
    contentStats := [{ contentType := "media", contentId := 1, likesCount := 9,
                       commentsCount := 9, viewsCount := 9, sharesCount := 0 },
                     { contentType := "article", contentId := 1, likesCount := 1,
                       commentsCount := 2, viewsCount := 3, sharesCount := 0 }] }

/-- The feed item of the article 1 in statsStore. -/
def statsFeedItem : FeedItem :=
  { _id := 1, title := "A", createdAt := 10, type := some "article", feedType := none,
    author := some (projectAuthor demoUser), likesCount := 1, commentsCount := 2,
    viewsCount := 3, isLiked := false }

/-! ## Query parameters: parseInt and the defaults -/

/-- White space that parseInt skips at the start of its argument. -/
def isJsBlank (c : Char) : Bool :=
  [9, 10, 11, 12, 13, 32, 160, 5760, 8232, 8233, 8239, 8287, 12288, 65279].contains c.toNat ||
    (8192 ≤ c.toNat && c.toNat ≤ 8202)

/-- The value of a character as a digit in the radix, if it is one. -/
def digitValue (radix : Nat) (c : Char) : Option Nat :=
  let n := c.toNat
  let v :=
    if 48 ≤ n ∧ n ≤ 57 then some (n - 48)
    else if 97 ≤ n ∧ n ≤ 122 then some (n - 87)
    else if 65 ≤ n ∧ n ≤ 90 then some (n - 55)
    else none
  match v with
  | some d => if d < radix then some d else none
  | none => none

/-- The number written by the longest prefix of digits, none when the
prefix is empty. -/
def readDigits (radix : Nat) : List Char → Option Nat → Option Nat
  | [], acc => acc
  | c :: cs, acc =>
    match digitValue radix c with
    | some d => readDigits radix cs (some (acc.getD 0 * radix + d))
    | none => acc

/-- A number as parseInt returns it: NaN, a finite double of integer value
(the sign of a zero is not kept), or an infinity. -/
inductive JsNumber where
  | nan
  | finite (value : Int)
  | infinity (negative : Bool)
  deriving DecidableEq, Repr

/-- The number of binary digits of n, counted in at most fuel steps (n
steps are enough). -/
def binaryDigits : Nat → Nat → Nat
  | 0, _ => 0
  | fuel + 1, n => if n = 0 then 0 else binaryDigits fuel (n / 2) + 1

/-- The Number value of a natural number: the number itself below 2^53,
otherwise the nearest double (53 binary digits), a tie going to the even
mantissa; none stands for Infinity, reached when the rounded value has
more than 1024 binary digits. -/
def roundToDouble (n : Nat) : Option Nat :=
  if n < 2 ^ 53 then some n
  else
    let e := binaryDigits n n - 53
    let q := n / 2 ^ e
    let r := n % 2 ^ e
    let up := decide (2 ^ (e - 1) < r) || (decide (r = 2 ^ (e - 1)) && decide (q % 2 = 1))
    let v := (if up then q + 1 else q) * 2 ^ e
    if binaryDigits v v ≤ 1024 then some v else none

/-- What parseInt without a radix reads in a string: after the leading
white space, an optional sign (true for a minus), an optional 0x mark for
radix 16, then the longest prefix of digits as a natural number, none when
there is no digit. -/
def readInteger (text : String) : Bool × Option Nat :=
  let cs := text.toList.dropWhile isJsBlank
  let signed : Bool × List Char :=
    match cs with
    | c :: rest => if c.toNat = 45 then (true, rest) else if c.toNat = 43 then (false, rest)
      else (false, cs)
    | [] => (false, cs)
  let based : Nat × List Char :=
    match signed.2 with
    | c :: d :: rest =>
      if c.toNat = 48 ∧ (d.toNat = 120 ∨ d.toNat = 88) then (16, rest) else (10, signed.2)
    | _ => (10, signed.2)
  (signed.1, readDigits based.1 based.2 none)

/-- The JavaScript function parseInt without a radix on a string: NaN when
no digit is read, otherwise the Number value of the signed integer
read. -/
def parseInt (text : String) : JsNumber :=
  match readInteger text with
  | (_, none) => .nan
  | (negative, some n) =>
    match roundToDouble n with
    | some v => .finite (if negative then -(Int.ofNat v) else Int.ofNat v)
    | none => .infinity negative

/-- A numeric query parameter after the destructuring default and
parseInt: the default when the parameter is absent. -/
def queryInt (param : Option String) (dflt : Int) : JsNumber :=
  match param with
  | none => .finite dflt
  | some v => parseInt v

/-- A number as JSON.stringify prints it in a response: null (none) for
NaN and for an infinity. -/
def JsNumber.toJson : JsNumber → Option Int
  | .finite v => some v
  | _ => none

/-- Whether a parsed limit is non-numeric or non-positive. -/
def JsNumber.invalidLimit : JsNumber → Bool
  | .nan => true
  | .finite v => decide (v ≤ 0)
  | .infinity negative => negative

/-- The value of a $limit stage written Math.ceil(limitNum * num / den),
the ratio taken over the exact rationals: none when the store rejects the
stage, which wants a positive integer that fits in 64 bits. -/
def limitStage (num den : Nat) (limitNum : JsNumber) : Option Nat :=
  match limitNum with
  | .finite v =>
    if 0 < v ∧ ceilDiv (num * v.toNat) den < 2 ^ 63 then some (ceilDiv (num * v.toNat) den)
    else none
  | _ => none

/-- The value Math.ceil(total / limitNum) as JSON prints it: null for NaN
and for an infinity, which is what a limit of NaN or 0 gives. -/
def jsPages (total : Nat) (limitNum : JsNumber) : Option Int :=
  match limitNum with
  | .nan => none
  | .infinity _ => some 0
  | .finite v =>
    if v = 0 then none
    else if 0 < v then some (Int.ofNat (ceilDiv total v.toNat))
    else some (-(Int.ofNat (total / (-v).toNat)))

/-- The comparison a * b < n of two parsed numbers with a count (line
2353); a count is below 2^53, so the rounding of the product does not
change the outcome. -/
def jsProductLess (a b : JsNumber) (n : Nat) : Bool :=
  match a, b with
  | .finite x, .finite y => decide (x * y < Int.ofNat n)
  | .finite x, .infinity negative => decide (x ≠ 0) && (decide (x < 0) != negative)
  | .infinity negative, .finite y => decide (y ≠ 0) && (decide (y < 0) != negative)
  | .infinity n1, .infinity n2 => n1 != n2
  | _, _ => false

/-! ## GET /api/feed/unified (server.js 2159-2371) -/

/-- The search filter of the unified feed on an article: a case-insensitive
regular expression test on title, content and tags (an article has no
description). The parameter regexTest stands for the $regex operator. -/
def articleSearchMatches (regexTest : String → String → Bool) (search : String) (a : Article) :
    Bool :=
  search = "" || regexTest search a.title || regexTest search a.content ||
    a.tags.any (regexTest search)

/-- The search filter of the unified feed on a media: title, description
and tags (a media has no content). -/
def mediaSearchMatches (regexTest : String → String → Bool) (search : String) (m : Media) :
    Bool :=
  search = "" || regexTest search m.title || regexTest search m.description ||
    m.tags.any (regexTest search)

/-- The stage $lookup from users followed by $unwind with
preserveNullAndEmptyArrays: a document without a user is kept. -/
def lookupUnwindPreserve {α : Type} (users : List User) (ref : α → Nat) (docs : List α) :
    List (α × Option User) :=
  docs.flatMap (fun d =>
    match users.filter (fun u => decide (u._id = ref d)) with
    | [] => [(d, none)]
    | us => us.map (fun u => (d, some u)))

/-- The $project stage of the article pipeline of the unified feed. -/
def projectUnifiedArticle (s : Store) (userId : Nat) (a : Article) (u : Option User) : FeedItem :=
  let stats := lookupStats s.contentStats "article" a._id
  let userLike := s.likes.filter (activeLikeMatches userId "article" a._id)
  { _id := a._id, title := a.title, createdAt := a.createdAt, type := none,
    feedType := some "article", author := u.map projectAuthor,
    likesCount := firstOrZero (stats.map (fun e => e.likesCount)),
    commentsCount := firstOrZero (stats.map (fun e => e.commentsCount)),
    viewsCount := firstOrZero (stats.map (fun e => e.viewsCount)),
    isLiked := decide (userLike.length > 0) }

/-- The $project stage of the media pipeline of the unified feed; its
viewsCount is the usageCount of the media. -/
def projectUnifiedMedia (s : Store) (userId : Nat) (m : Media) (u : Option User) : FeedItem :=
  let stats := lookupStats s.contentStats "media" m._id
  let userLike := s.likes.filter (activeLikeMatches userId "media" m._id)
  { _id := m._id, title := m.title, createdAt := m.createdAt, type := some m.type,
    feedType := some "media", author := u.map projectAuthor,
    likesCount := firstOrZero (stats.map (fun e => e.likesCount)),
    commentsCount := firstOrZero (stats.map (fun e => e.commentsCount)),
    viewsCount := m.usageCount,
    isLiked := decide (userLike.length > 0) }

/-- Sort feed items by createdAt descending (stable). -/
def sortItemsByCreatedAtDesc (items : List FeedItem) : List FeedItem :=
  items.insertionSort (fun a b => newerFirst a.toFeedDoc b.toFeedDoc)

/-- The pagination block of the unified feed as JSON prints it: page,
limit and pages are null (none) when they are NaN or an infinity. -/
structure UnifiedPagination where
  page : Option Int
  limit : Option Int
  total : Nat
  pages : Option Int
  hasMore : Bool
  deriving DecidableEq, Repr

/-- Body of the response of GET /api/feed/unified. -/
structure UnifiedFeedResponse where
  articles : List FeedItem
  medias : List FeedItem
  blogs : List FeedItem
  pagination : UnifiedPagination
  totalArticles : Nat
  totalMedias : Nat
  deriving DecidableEq, Repr

/-- The handler of GET /api/feed/unified for the viewer id it read from
the request and the page and limit as parseInt returned them. The flags
are the query strings includeArticles and includeMedia. A search that is
not empty is compiled by new RegExp (line 2182) while the filter is built,
before any query: regexValid tells whether new RegExp accepts the pattern,
and one it throws on ends in 500; the $regex operators of the store are
taken to accept what new RegExp accepts. A pipeline runs only for an
included kind, with the stage $limit
Math.ceil(limitNum * 0.4) or Math.ceil(limitNum * 0.5); a stage the store
rejects ends in 500. The value skip of line 2173 is computed and never
used. -/
def unifiedFeed (regexValid : String → Bool) (regexTest : String → String → Bool) (s : Store)
    (userId : Nat) (page limitNum : JsNumber) (search includeMedia includeArticles : String) :
    Result UnifiedFeedResponse :=
  if search ≠ "" ∧ regexValid search = false then .error 500 "Invalid regular expression"
  else if includeArticles = "true" ∧ limitStage 2 5 limitNum = none then
    .error 500 "invalid argument to $limit stage"
  else if includeMedia = "true" ∧ limitStage 1 2 limitNum = none then
    .error 500 "invalid argument to $limit stage"
  else
    let articles :=
      if includeArticles = "true" then
        let matched := s.articles.filter
          (fun a => a.published && articleSearchMatches regexTest search a)
        let joined := lookupUnwindPreserve s.users (fun a : Article => a.authorId) matched
        let projected := joined.map (fun p => projectUnifiedArticle s userId p.1 p.2)
        (sortItemsByCreatedAtDesc projected).take ((limitStage 2 5 limitNum).getD 0)
      else []
    let medias :=
      if includeMedia = "true" then
        let matched := s.medias.filter (fun m => mediaSearchMatches regexTest search m)
        let joined := lookupUnwindPreserve s.users (fun m : Media => m.uploadedBy) matched
        let projected := joined.map (fun p => projectUnifiedMedia s userId p.1 p.2)
        (sortItemsByCreatedAtDesc projected).take ((limitStage 1 2 limitNum).getD 0)
      else []
    let totalArticles :=
      if includeArticles = "true" then
        s.articles.countP (fun a => a.published && articleSearchMatches regexTest search a)
      else 0
    let totalMedias :=
      if includeMedia = "true" then
        s.medias.countP (fun m => mediaSearchMatches regexTest search m)
      else 0
    let totalItems := totalArticles + totalMedias
    .ok 200 { articles := articles, medias := medias, blogs := [],
              pagination := { page := page.toJson, limit := limitNum.toJson,
                              total := totalItems, pages := jsPages totalItems limitNum,
                              hasMore := jsProductLess page limitNum totalItems },
              totalArticles := totalArticles, totalMedias := totalMedias }

/-- The pagination block with the page as JSON prints it: null (none) for
NaN and for an infinity. -/
structure QueryPagination where
  page : Option Int
  limit : Nat
  total : Nat
  pages : Nat
  deriving DecidableEq, Repr

/-- Body of the response of GET /api/feed/social at the level of the
query string. -/
structure SocialFeedReply where
  feed : List FeedItem
  pagination : QueryPagination
  statsArticles : Nat
  statsMedias : Nat
  deriving DecidableEq, Repr

/-- The handler of GET /api/feed/social from its query parameters (lines
1984-1989): page defaults to 1 and limit to 10 when absent, both go
through parseInt. The limit reaches the stage $limit Math.ceil(limitNum /
2) of both pipelines: the store rejects it (500) when the limit is NaN, an
infinity, zero or negative, or too large for 64 bits. The page is only
echoed. -/
def socialFeedQuery (s : Store) (userId : Nat) (page limit : Option String) :
    Result SocialFeedReply :=
  match queryInt limit 10 with
  | .finite limitNum =>
    if limitStage 1 2 (.finite limitNum) = none then
      .error 500 "invalid argument to $limit stage"
    else
      match socialFeed s userId 1 limitNum.toNat with
      | .ok status body =>
        .ok status { feed := body.feed,
                     pagination := { page := (queryInt page 1).toJson,
                                     limit := body.pagination.limit,
                                     total := body.pagination.total,
                                     pages := body.pagination.pages },
                     statsArticles := body.statsArticles, statsMedias := body.statsMedias }
      | .error status message => .error status message
  | _ => .error 500 "invalid argument to $limit stage"

/-- The handler of GET /api/feed/unified from its query parameters (lines
2161-2174): page defaults to 1, limit to 20, search to the empty string
and the include flags to true; page and limit go through parseInt. -/
def unifiedFeedQuery (regexValid : String → Bool) (regexTest : String → String → Bool)
    (s : Store) (userId : Nat) (page limit search includeMedia includeArticles : Option String) :
    Result UnifiedFeedResponse :=
  unifiedFeed regexValid regexTest s userId (queryInt page 1) (queryInt limit 20)
    (search.getD "") (includeMedia.getD "true") (includeArticles.getD "true")

/-! ## GET /api/comments/:targetType/:targetId (server.js 3343-3426) -/

/-- A comment as projected by the listing, with the like state of the
viewer. -/
structure CommentItem where
  _id : Nat
  content : String
  isEdited : Bool
  editedAt : Option Nat
  likesCount : Nat
  repliesCount : Nat
  createdAt : Nat
  parentCommentId : Option Nat
  author : FeedAuthor
  isLiked : Bool
  deriving DecidableEq, Repr

/-- The matchCondition of lines 3351-3361: the target, isDeleted false and
the parent, which is null when parentId is absent, empty or the string
null. -/
def commentMatches (targetType : String) (targetId : Nat) (parentId : Option Nat)
    (c : Comment) : Bool :=
  decide (c.targetType = targetType) && decide (c.targetId = targetId) && !c.isDeleted &&
    decide (c.parentCommentId = parentId)

/-- The $project stage of the listing and the like lookup of lines
3397-3407. -/
def projectComment (likes : List Like) (userId : Nat) (c : Comment) (u : User) : CommentItem :=
  { _id := c._id, content := c.content, isEdited := c.isEdited, editedAt := c.editedAt,
    likesCount := c.likesCount, repliesCount := c.repliesCount, createdAt := c.createdAt,
    parentCommentId := c.parentCommentId, author := projectAuthor u,
    isLiked := (likes.find? (activeLikeMatches userId "comment" c._id)).isSome }

/-- Body of the response of the comment listing. -/
structure CommentsResponse where
  comments : List CommentItem
  totalComments : Nat
  pagination : QueryPagination
  deriving DecidableEq, Repr

/-- The handler of GET /api/comments/:targetType/:targetId for the viewer
id it read from the request. page defaults to 1 and limit to 20; a skip
that is NaN, an infinity or negative, or a limit that is NaN, an infinity
or not positive, is rejected by the store (500). -/
def getComments (s : Store) (userId : Nat) (targetType : String) (targetId : Nat)
    (page limit : Option String) (parentId : Option Nat) : Result CommentsResponse :=
  match queryInt page 1, queryInt limit 20 with
  | .finite pageNum, .finite limitNum =>
    if (pageNum - 1) * limitNum < 0 then .error 500 "invalid argument to $skip stage"
    else if limitNum ≤ 0 then .error 500 "the limit must be positive"
    else
      let skip := ((pageNum - 1) * limitNum).toNat
      let matched := s.comments.filter (commentMatches targetType targetId parentId)
      let joined := lookupUnwind s.users (fun c : Comment => c.authorId) matched
      let projected := joined.map (fun p => projectComment s.likes userId p.1 p.2)
      let sorted := projected.insertionSort (fun a b => b.createdAt ≤ a.createdAt)
      let comments := (sorted.drop skip).take limitNum.toNat
      let totalComments := s.comments.countP (commentMatches targetType targetId parentId)
      .ok 200 { comments := comments, totalComments := totalComments,
                pagination := { page := some pageNum, limit := limitNum.toNat,
                                total := totalComments,
                                pages := ceilDiv totalComments limitNum.toNat } }
  | _, _ => .error 500 "invalid argument to $skip stage"

/-! ## GET /api/stats/:targetType/:targetId (server.js 3499-3551) -/

/-- Body of the response of the stats read: the entry and the like state
of the viewer. -/
structure StatsResponse where
  stats : ContentStats
  isLiked : Bool
  deriving DecidableEq, Repr

/-- The handler of GET /api/stats/:targetType/:targetId for the viewer id
it read from the request: the entry found, or a new entry with a recount
of likes and comments. ContentStats.create validates the enum of
contentType, so a kind other than article or media ends in 500. -/
def getStats (s : Store) (userId : Nat) (targetType : String) (targetId : Nat) :
    Store × Result StatsResponse :=
  let isLiked := (s.likes.find? (activeLikeMatches userId targetType targetId)).isSome
  match s.contentStats.find? (statsMatches targetType targetId) with
  | some stats => (s, .ok 200 { stats := stats, isLiked := isLiked })
  | none =>
    if !(["article", "media"].contains targetType) then
      (s, .error 500 "ContentStats validation failed: contentType")
    else
      let stats : ContentStats :=
        { contentType := targetType, contentId := targetId,
          likesCount := countLikes s.likes targetType targetId,
          commentsCount := countComments s.comments targetType targetId,
          viewsCount := 0, sharesCount := 0 }
      ({ s with contentStats := s.contentStats ++ [stats] },
        .ok 200 { stats := stats, isLiked := isLiked })

/-- A comment text of exactly 1000 characters. -/
def thousandChars : String :=
  String.mk (List.replicate 1000 (Char.ofNat 97))

/-- A comment of user 7 on the demo article. -/
def demoComment : Comment :=
  newComment 7 "hello" "article" 1 none 100 30

/-- The demo comment after its soft deletion at time 40. -/
def deletedComment : Comment :=
  { demoComment with isDeleted := true, deletedAt := some 40 }

/-- The demo store with the demo comment and its counter-cache entry. -/
def commentedStore : Store :=
  { demoStore with
    comments := [demoComment],
    contentStats := [{ contentType := "article", contentId := 1, likesCount := 0,
                       commentsCount := 1, viewsCount := 0, sharesCount := 0 }] }

/-- The demo store after the soft deletion of the demo comment. -/
def deletedCommentStore : Store :=
  { demoStore with
    comments := [deletedComment],
    contentStats := [{ contentType := "article", contentId := 1, likesCount := 0,
                       commentsCount := 0, viewsCount := 0, sharesCount := 0 }] }

/-! ## The recount under a store failure -/

/-- The function updateContentStats when a store call inside its try block
may throw: the catch logs the error and returns, nothing is raised and
nothing is written (the upsert is the last statement of the block). -/
def updateContentStatsF (fails : Bool) (s : Store) (targetType : String) (targetId : Nat) :
    Store :=
  if fails then s else updateContentStats s targetType targetId

/-- The handler of POST /api/likes where the recount of line 3161 may
fail. -/
def toggleLikeF (statsFails : Bool) (s : Store) (userId : Option Nat)
    (targetType : Option String) (targetId : Option Nat) : Store × Result LikeResponse :=
  match targetType, targetId with
  | some tt, some tid =>
    if tt = "" then (s, .error 400 "targetType et targetId sont requis")
    else if !(["article", "media", "comment"].contains tt) then
      (s, .error 400 "targetType invalide")
    else if !(likeTargetExists s tt tid) then (s, .error 404 "Contenu non trouvé")
    else
      match userId with
      | none => (s, .error 500 "Like validation failed: userId: Path userId is required.")
      | some uid =>
        let toggled := toggleLikeRecord s.likes uid tt tid
        let s1 := { s with likes := toggled.1 }
        let s2 := updateContentStatsF statsFails s1 tt tid
        let likesCount := countLikes s2.likes tt tid
        (s2, .ok 200 { message := "Contenu " ++ toggled.2, action := toggled.2,
                       likesCount := likesCount, isLiked := decide (toggled.2 = "liked") })
  | _, _ => (s, .error 400 "targetType et targetId sont requis")

/-- The handler of POST /api/comments where the recount of line 3316 may
fail. -/
def createCommentF (statsFails : Bool) (s : Store) (authorId : Option Nat)
    (content : Option String) (targetType : Option String) (targetId : Option Nat)
    (parentCommentId : Option Nat) (newId now : Nat) : Store × Result (Option Comment) :=
  match content, targetType, targetId with
  | some text, some tt, some tid =>
    if text = "" || tt = "" then (s, .error 400 "Contenu, targetType et targetId sont requis")
    else if !(["article", "media"].contains tt) then (s, .error 400 "targetType invalide")
    else if jsLength text > 1000 then
      (s, .error 400 "Commentaire trop long (max 1000 caractères)")
    else if !(commentTargetExists s tt tid) then (s, .error 404 "Contenu non trouvé")
    else if (match parentCommentId with
        | some pid => (findCommentById s.comments pid).isNone
        | none => false) then
      (s, .error 404 "Commentaire parent non trouvé")
    else
      match authorId with
      | none =>
        (s, .error 500 "Comment validation failed: authorId: Path authorId is required.")
      | some aid =>
        if s.comments.any (fun c => decide (c._id = newId)) then
          (s, .error 500 "E11000 duplicate key error")
        else
          let comment := newComment aid text tt tid parentCommentId newId now
          let s1 := { s with comments := s.comments ++ [comment] }
          let s2 := updateContentStatsF statsFails s1 tt tid
          let s3 := { s2 with comments := bumpReplies s2.comments parentCommentId }
          (s3, .ok 201 (findCommentById s3.comments newId))
  | _, _, _ => (s, .error 400 "Contenu, targetType et targetId sont requis")

/-- The handler of DELETE /api/comments/:commentId where the recount of
line 3488 may fail. -/
def deleteCommentF (statsFails : Bool) (s : Store) (userId : Option Nat) (commentId : Nat)
    (now : Nat) : Store × Result String :=
  match findCommentById s.comments commentId with
  | none => (s, .error 404 "Commentaire non trouvé")
  | some comment =>
    if userId ≠ some comment.authorId then
      (s, .error 403 "Vous ne pouvez supprimer que vos propres commentaires")
    else
      let s1 := { s with comments := markDeleted s.comments commentId now }
      let s2 := updateContentStatsF statsFails s1 comment.targetType comment.targetId
      (s2, .ok 200 "Commentaire supprimé")

/-! ## Store accesses of the feed handlers -/

/-- A call of a handler into the store: an aggregation with the names of
its stages, a find (find, findOne, findById), a countDocuments, or a
writing method (create, save, findOneAndUpdate, findByIdAndUpdate,
findByIdAndDelete) on a model. -/
inductive Access where
  | aggregate (model : String) (stages : List String)
  | find (model : String)
  | countDocuments (model : String)
  | write (model : String) (method : String)
  deriving DecidableEq, Repr

/-- Whether an access only reads: an aggregation reads unless it has a
$out or $merge stage. -/
def Access.isRead : Access → Bool
  | .aggregate _ stages => !(stages.contains "$out" || stages.contains "$merge")
  | .find _ => true
  | .countDocuments _ => true
  | .write _ _ => false

/-- The store after a sequence of accesses, where effect is what a writing
access does to the store; a reading access leaves it as it is. -/
def runAccesses (effect : Access → Store → Store) (s : Store) (accesses : List Access) : Store :=
  accesses.foldl (fun st a => if a.isRead then st else effect a st) s

/-- The stages of the article pipeline of the social feed (lines
1992-2052). -/
def socialArticleStages : List String :=
  ["$lookup", "$unwind", "$match", "$lookup", "$project", "$sort", "$limit"]

/-- The stages of the media pipeline of the social feed (lines
2055-2113). -/
def socialMediaStages : List String :=
  ["$lookup", "$unwind", "$lookup", "$project", "$sort", "$limit"]

/-- The store accesses of GET /api/feed/social in order: the two
aggregations, one Like.findOne per item of the combined feed, the two
countDocuments. -/
def socialFeedAccesses (s : Store) (limitNum : Nat) : List Access :=
  [.aggregate "Article" socialArticleStages, .aggregate "Media" socialMediaStages] ++
    ((sortByCreatedAtDesc (socialArticles s limitNum ++ socialMedias s limitNum)).take
      limitNum).map (fun _ => Access.find "Like") ++
    [.countDocuments "Article", .countDocuments "Media"]

/-- The stages of the two pipelines of the unified feed (lines 2190-2246
and 2253-2315). -/
def unifiedStages : List String :=
  ["$match", "$lookup", "$unwind", "$lookup", "$lookup", "$project", "$sort", "$limit"]

/-- The store accesses of GET /api/feed/unified in order: an aggregation
per included kind, then a countDocuments per included kind. -/
def unifiedFeedAccesses (includeMedia includeArticles : String) : List Access :=
  (if includeArticles = "true" then [Access.aggregate "Article" unifiedStages] else []) ++
    (if includeMedia = "true" then [Access.aggregate "Media" unifiedStages] else []) ++
    (if includeArticles = "true" then [Access.countDocuments "Article"] else []) ++
    (if includeMedia = "true" then [Access.countDocuments "Media"] else [])

/-! ## PUT and DELETE /api/blog/articles/:id (server.js 1231-1301) -/

/-- The middleware permissionMiddleware for a permission name, the request
method and the authenticated user; hasPermission stands for the flag
req.user.permissions[dbPermission]. True means next(), false is the 403
answer. -/
def permissionMiddleware (permission method : String) (user : User)
    (hasPermission : String → Bool) : Bool :=
  if user.email = "nyundumathryme@gmail.com" || user.role = "admin" then true
  else
    match [("blog", "canCreateArticles"), ("media", "canAccessMedia"),
        ("employees", "canManageEmployees"), ("analytics", "canAccessAnalytics")].lookup
        permission with
    | none => false
    | some dbPermission =>
      if ["blog", "media"].contains permission then true
      else if permission = "employees" && method = "GET" then true
      else hasPermission dbPermission

/-- The body of PUT /api/blog/articles/:id. -/
structure ArticleUpdate where
  title : Option String
  content : Option String
  summary : Option String
  published : Option Bool
  tags : Option (List String)
  deriving DecidableEq, Repr

/-- The object updates of lines 1249-1254 applied to an article: title
and content when truthy, the other fields when defined. -/
def applyArticleUpdate (body : ArticleUpdate) (a : Article) : Article :=
  { a with
    title := match body.title with
      | some t => if t = "" then a.title else t
      | none => a.title,
    content := match body.content with
      | some t => if t = "" then a.content else t
      | none => a.content,
    summary := body.summary.getD a.summary,
    published := body.published.getD a.published,
    tags := body.tags.getD a.tags }

/-- The handler of PUT /api/blog/articles/:id after authMiddleware and
permissionMiddleware, for the authenticated user req.user. -/
def updateArticle (s : Store) (user : User) (id : Nat) (body : ArticleUpdate) :
    Store × Result (Option Article) :=
  match s.articles.find? (fun a => decide (a._id = id)) with
  | none => (s, .error 404 "Article non trouvé")
  | some article =>
    if article.authorId ≠ user._id then (s, .error 403 "Non autorisé à modifier cet article")
    else
      let articles := updateFirst (fun a => decide (a._id = id)) (applyArticleUpdate body)
        s.articles
      ({ s with articles := articles }, .ok 200 (articles.find? (fun a => decide (a._id = id))))

/-- Remove the first document that satisfies p (findByIdAndDelete). -/
def removeFirst {α : Type} (p : α → Bool) : List α → List α
  | [] => []
  | x :: xs => if p x then xs else x :: removeFirst p xs

/-- The handler of DELETE /api/blog/articles/:id after authMiddleware and
permissionMiddleware, for the authenticated user req.user. -/
def deleteArticle (s : Store) (user : User) (id : Nat) : Store × Result String :=
  match s.articles.find? (fun a => decide (a._id = id)) with
  | none => (s, .error 404 "Article non trouvé")
  | some article =>
    if article.authorId ≠ user._id then (s, .error 403 "Non autorisé à supprimer cet article")
    else
      ({ s with articles := removeFirst (fun a => decide (a._id = id)) s.articles },
        .ok 200 "Article supprimé avec succès")

/-! ## GET /api/public/feed (server.js 1436-1524) -/

/-- The user fields that populate selects (name email role). -/
structure PublicAuthor where
  _id : Nat
  name : String
  email : String
  role : String
  deriving DecidableEq, Repr

/-- An item of the public feed, without its payload fields. -/
structure PublicFeedItem where
  _id : Nat
  title : String
  createdAt : Nat
  feedType : String
  author : Option PublicAuthor
  deriving DecidableEq, Repr

/-- The call populate on a user reference: the user of that id, null when
there is none. -/
def populateUser (users : List User) (ref : Nat) : Option PublicAuthor :=
  (users.find? (fun u => decide (u._id = ref))).map
    (fun u => { _id := u._id, name := u.name, email := u.email, role := u.role })

/-- Whether the search filter applies: search is present and not blank
after trim. -/
def searchActive (search : Option String) : Bool :=
  match search with
  | none => false
  | some t => !(t.toList.all isJsBlank)

/-- The search filter of the public feed on an article: title, summary,
content and tags. -/
def publicArticleMatches (regexTest : String → String → Bool) (search : Option String)
    (a : Article) : Bool :=
  !(searchActive search) || regexTest (search.getD "") a.title ||
    regexTest (search.getD "") a.summary || regexTest (search.getD "") a.content ||
    a.tags.any (regexTest (search.getD ""))

/-- The search filter of the public feed on a media: title, description
and tags. -/
def publicMediaMatches (regexTest : String → String → Bool) (search : Option String)
    (m : Media) : Bool :=
  !(searchActive search) || regexTest (search.getD "") m.title ||
    regexTest (search.getD "") m.description || m.tags.any (regexTest (search.getD ""))

/-- The query method limit: a limit of 0 means no limit. -/
def queryLimit {α : Type} (n : Nat) (docs : List α) : List α :=
  if n = 0 then docs else docs.take n

/-- The method slice of a JavaScript array: a negative index counts from
the end, and both are clamped to the array. -/
def jsSlice {α : Type} (xs : List α) (start stop : Int) : List α :=
  let len : Int := Int.ofNat xs.length
  let first := if start < 0 then (len + start).toNat else min start.toNat xs.length
  let last := if stop < 0 then (len + stop).toNat else min stop.toNat xs.length
  (xs.drop first).take (last - first)

/-- Body of the response of GET /api/public/feed. -/
structure PublicFeedResponse where
  feed : List PublicFeedItem
  page : Int
  limit : Nat
  total : Nat
  pages : Nat
  hasMore : Bool
  statsArticles : Nat
  statsMedias : Nat
  statsTotal : Nat
  deriving DecidableEq, Repr

/-- The articles fetched by the public feed (lines 1458-1462): published,
matching the search, newest first, at most Math.ceil(limitNum * 0.6), the
ratio taken over the exact rationals. -/
def publicArticles (regexTest : String → String → Bool) (s : Store) (limitNum : Nat)
    (search : Option String) : List Article :=
  queryLimit (ceilDiv (3 * limitNum) 5)
    ((s.articles.filter
      (fun a => a.published && publicArticleMatches regexTest search a)).insertionSort
      (fun a b => b.createdAt ≤ a.createdAt))

/-- The medias fetched by the public feed (lines 1464-1468): public,
matching the search, newest first, at most Math.ceil(limitNum * 0.4). -/
def publicMedias (regexTest : String → String → Bool) (s : Store) (limitNum : Nat)
    (search : Option String) : List Media :=
  queryLimit (ceilDiv (2 * limitNum) 5)
    ((s.medias.filter
      (fun m => m.isPublic && publicMediaMatches regexTest search m)).insertionSort
      (fun a b => b.createdAt ≤ a.createdAt))

/-- The merged and sorted list feedItems of the public feed (lines
1471-1494). -/
def publicFeedItems (regexTest : String → String → Bool) (s : Store) (limitNum : Nat)
    (search : Option String) : List PublicFeedItem :=
  let feedItems :=
    (publicArticles regexTest s limitNum search).map
      (fun a => ({ _id := a._id, title := a.title, createdAt := a.createdAt,
                   feedType := "article",
                   author := populateUser s.users a.authorId } : PublicFeedItem)) ++
    (publicMedias regexTest s limitNum search).map
      (fun m => ({ _id := m._id, title := m.title, createdAt := m.createdAt,
                   feedType := "media",
                   author := populateUser s.users m.uploadedBy } : PublicFeedItem))
  feedItems.insertionSort (fun a b => b.createdAt ≤ a.createdAt)

/-- The handler of GET /api/public/feed for the parsed page and limit
(lines 1496-1516). -/
def publicFeed (regexTest : String → String → Bool) (s : Store) (pageNum : Int) (limitNum : Nat)
    (search : Option String) : PublicFeedResponse :=
  let feedItems := publicFeedItems regexTest s limitNum search
  let skip : Int := (pageNum - 1) * Int.ofNat limitNum
  let paginatedItems := jsSlice feedItems skip (skip + Int.ofNat limitNum)
  { feed := paginatedItems, page := pageNum, limit := limitNum, total := feedItems.length,
    pages := ceilDiv feedItems.length limitNum,
    hasMore := decide (pageNum * Int.ofNat limitNum < Int.ofNat feedItems.length),
    statsArticles := (publicArticles regexTest s limitNum search).length,
    statsMedias := (publicMedias regexTest s limitNum search).length,
    statsTotal := paginatedItems.length }

/-! ## Runs of like and comment calls, successful or not -/

/-- The store after a sequence of toggleLike, createComment and
deleteComment calls, whether they succeed or fail. -/
def runOps (s : Store) : List Op → Store
  | [] => s
  | op :: ops => runOps (op.apply s).1 ops

/-- The invariant of the Comment collection: ids are distinct, the parent
of a reply is a comment of the collection, and the repliesCount of a
comment is the number of records whose parentCommentId is its id. -/
def CommentsInv (comments : List Comment) : Prop :=
  (comments.map (fun c => c._id)).Nodup ∧
  (∀ c ∈ comments, ∀ p, c.parentCommentId = some p → p ∈ comments.map (fun d => d._id)) ∧
  (∀ c ∈ comments, c.repliesCount =
    comments.countP (fun d => decide (d.parentCommentId = some c._id)))

/-- An administrator who is not the author of the demo article. -/
def adminUser : User :=
  { _id := 9, name := "Root", email := "root@example.org", profilePhoto := "", role := "admin",
    status := "active", tokens := ["adm"] }

/-- The demo store with the administrator. -/
def adminStore : Store :=
  { demoStore with users := [demoUser, adminUser] }

/-- One request to the engagement routes: a like, a comment or a delete
with its bearer token and parameters, or a stats read that passed
authMiddleware, with the viewer id its like lookup is made for (the id
only sets isLiked). -/
inductive Call where
  | like (token : Option String) (targetType : Option String) (targetId : Option Nat)
  | comment (token : Option String) (content targetType : Option String)
      (targetId parentCommentId : Option Nat) (newId now : Nat)
  | remove (token : Option String) (commentId now : Nat)
  | stats (viewer : Nat) (targetType : String) (targetId : Nat)
  deriving DecidableEq, Repr

/-- The store after one request. -/
def Call.apply (jwtVerify : String → Option Nat) (s : Store) : Call → Store
  | .like token tt tid => (postLikes s jwtVerify token tt tid).1
  | .comment token content tt tid parent newId now =>
    (postComments s jwtVerify token content tt tid parent newId now).1
  | .remove token cid now => (deleteComments s jwtVerify token cid now).1
  | .stats viewer tt tid => (getStats s viewer tt tid).1

/-- The store after a sequence of requests to the engagement routes. -/
def runCalls (jwtVerify : String → Option Nat) (s : Store) : List Call → Store
  | [] => s
  | call :: calls => runCalls jwtVerify (call.apply jwtVerify s) calls

/-- The decoding of the bearer tokens of the worked examples: tok is the
token of user 7, adm the token of user 9. -/
def demoVerify (token : String) : Option Nat :=
  if token = "tok" then some 7 else if token = "adm" then some 9 else none

/-- Comments threaded one level deep: every comment with a parentCommentId
has a parent in the collection, and this parent is not itself a reply. -/
def OneLevel (comments : List Comment) : Prop :=
  ∀ c ∈ comments, c.parentCommentId ≠ none →
    ∃ d ∈ comments, c.parentCommentId = some d._id ∧ d.parentCommentId = none

/-- Every counter-cache entry is of a kind the schema allows (line 194). -/
def StatsKindsOk (cs : List ContentStats) : Prop :=
  ∀ e ∈ cs, e.contentType = "article" ∨ e.contentType = "media"

/-- The demo store with both users, the demo comment and its counter-cache
entry. -/
def twoUserStore : Store :=
  { commentedStore with users := [demoUser, adminUser] }

/-- The reply of user 9 to the demo comment. -/
def demoReply : Comment :=
  newComment 9 "reply" "article" 1 (some 100) 101 31

/-- A store with a one-level thread: the demo comment with repliesCount 1
and its reply. -/
def threadStore : Store :=
  { twoUserStore with
    comments := [{ demoComment with repliesCount := 1 }, demoReply],
    contentStats := [{ contentType := "article", contentId := 1, likesCount := 0,
                       commentsCount := 2, viewsCount := 0, sharesCount := 0 }] }

/-- The thread store after the soft deletion of the reply at time 32. -/
def replyDeletedStore : Store :=
  { twoUserStore with
    comments := [{ demoComment with repliesCount := 1 },
                 { demoReply with isDeleted := true, deletedAt := some 32 }],
    contentStats := [{ contentType := "article", contentId := 1, likesCount := 0,
                       commentsCount := 1, viewsCount := 0, sharesCount := 0 }] }

/-- The store with both users and the demo comment, holding an active Like
of user 9 on that comment. -/
def likedCommentStore : Store :=
  { twoUserStore with likes := [{ userId := 9, targetType := "comment", targetId := 100,
                                  isActive := true }] }

/-- Requests of user 7 to the four engagement routes. -/
def demoCalls : List Call :=
  [.like (some "tok") (some "comment") (some 100),
   .comment (some "tok") (some "reply") (some "article") (some 1) (some 100) 101 31,
   .remove (some "tok") 100 40,
   .stats 7 "media" 2,
   .stats 7 "comment" 100]

/-- The demo store with an active Like of user 7 on the article 1 and no
counter-cache entry. -/
def unsyncedStore : Store :=
  { demoStore with likes := [{ userId := 7, targetType := "article", targetId := 1,
                               isActive := true }] }

/-! # Theorems -/
/-! ## Lemmas on updateFirst -/

theorem map_updateFirst {α β : Type} (g : α → β) (p : α → Bool) (f : α → α) (l : List α)
    (h : ∀ x, g (f x) = g x) : (updateFirst p f l).map g = l.map g := by
  induction l with
  | nil => rfl
  | cons x xs ih =>
    by_cases hx : p x = true
    · simp [updateFirst, hx, h]
    · simp [updateFirst, hx, ih]

theorem length_updateFirst {α : Type} (p : α → Bool) (f : α → α) (l : List α) :
    (updateFirst p f l).length = l.length := by
  induction l with
  | nil => rfl
  | cons x xs ih =>
    by_cases hx : p x = true
    · simp [updateFirst, hx]
    · simp [updateFirst, hx, ih]

theorem mem_updateFirst {α : Type} {p : α → Bool} {f : α → α} {l : List α} {y : α}
    (h : y ∈ updateFirst p f l) : y ∈ l ∨ ∃ x ∈ l, p x = true ∧ y = f x := by
  induction l with
  | nil => simp [updateFirst] at h
  | cons x xs ih =>
    by_cases hx : p x = true
    · simp only [updateFirst, hx, if_true, List.mem_cons] at h
      rcases h with h | h
      · exact Or.inr ⟨x, List.mem_cons_self _ _, hx, h⟩
      · exact Or.inl (List.mem_cons_of_mem _ h)
    · have e : updateFirst p f (x :: xs) = x :: updateFirst p f xs := by
        simp [updateFirst, hx]
      rw [e, List.mem_cons] at h
      rcases h with h | h
      · exact Or.inl (h ▸ List.mem_cons_self _ _)
      · rcases ih h with h1 | ⟨z, hz, hpz, hy⟩
        · exact Or.inl (List.mem_cons_of_mem _ h1)
        · exact Or.inr ⟨z, List.mem_cons_of_mem _ hz, hpz, hy⟩

theorem find_mem_updateFirst {α : Type} {p : α → Bool} {f : α → α} {l : List α} {c : α}
    (h : l.find? p = some c) : c ∈ l ∧ p c = true ∧ f c ∈ updateFirst p f l := by
  induction l with
  | nil => simp at h
  | cons x xs ih =>
    by_cases hx : p x = true
    · simp only [List.find?, hx, Option.some.injEq] at h
      subst h
      simp [updateFirst, hx]
    · simp only [Bool.not_eq_true] at hx
      simp only [List.find?, hx] at h
      obtain ⟨h1, h2, h3⟩ := ih h
      refine ⟨List.mem_cons_of_mem _ h1, h2, ?_⟩
      simp [updateFirst, hx, h3]

theorem countP_updateFirst_of_find {α : Type} {p : α → Bool} {f : α → α} {l : List α} {c : α}
    (q : α → Bool) (h : l.find? p = some c) :
    (updateFirst p f l).countP q + (if q c = true then 1 else 0) =
      l.countP q + (if q (f c) = true then 1 else 0) := by
  induction l with
  | nil => simp at h
  | cons x xs ih =>
    by_cases hx : p x = true
    · simp only [List.find?, hx, Option.some.injEq] at h
      subst h
      simp only [updateFirst, hx, if_true, List.countP_cons]
      omega
    · simp only [Bool.not_eq_true] at hx
      simp only [List.find?, hx] at h
      have := ih h
      simp only [updateFirst, hx, List.countP_cons, Bool.false_eq_true, if_false]
      omega

theorem countP_updateFirst_of_preserved {α : Type} (p : α → Bool) (f : α → α) (l : List α)
    (q : α → Bool) (h : ∀ x, p x = true → q (f x) = q x) :
    (updateFirst p f l).countP q = l.countP q := by
  induction l with
  | nil => rfl
  | cons x xs ih =>
    by_cases hx : p x = true
    · simp [updateFirst, hx, List.countP_cons, h x hx]
    · simp [updateFirst, hx, List.countP_cons, ih]

/-! ## The counter cache after a recount -/

theorem statsMatches_iff (tt : String) (tid : Nat) (e : ContentStats) :
    statsMatches tt tid e = true ↔ statsKey e = (tt, tid) := by
  simp [statsMatches, statsKey, Prod.ext_iff]

theorem find_of_any {α : Type} {p : α → Bool} {l : List α} (h : l.any p = true) :
    ∃ x, l.find? p = some x := by
  have : (l.find? p).isSome = true := by
    rw [List.find?_isSome]
    simpa [List.any_eq_true] using h
  exact Option.isSome_iff_exists.mp this

theorem upsertStats_inv (cs : List ContentStats) (likes : List Like) (comments : List Comment)
    (tt : String) (tid : Nat) (hnd : (cs.map statsKey).Nodup)
    (hok : ∀ e ∈ cs, statsKey e ≠ (tt, tid) → StatsOkAt likes comments e) :
    ((upsertStats cs tt tid (countLikes likes tt tid) (countComments comments tt tid)).map
        statsKey).Nodup ∧
      (∀ e ∈ upsertStats cs tt tid (countLikes likes tt tid) (countComments comments tt tid),
        StatsOkAt likes comments e) ∧
      (∃ e ∈ upsertStats cs tt tid (countLikes likes tt tid) (countComments comments tt tid),
        statsKey e = (tt, tid)) ∧
      (∀ k, (∃ e ∈ cs, statsKey e = k) →
        ∃ e ∈ upsertStats cs tt tid (countLikes likes tt tid) (countComments comments tt tid),
          statsKey e = k) := by
  by_cases hany : cs.any (statsMatches tt tid) = true
  · obtain ⟨x, hx⟩ := find_of_any hany
    have hkeys : ∀ g : ContentStats → ContentStats, (∀ e, statsKey (g e) = statsKey e) →
        (updateFirst (statsMatches tt tid) g cs).map statsKey = cs.map statsKey :=
      fun g hg => map_updateFirst statsKey _ g cs hg
    simp only [upsertStats, hany, if_true]
    set g : ContentStats → ContentStats := fun e =>
      { e with likesCount := countLikes likes tt tid,
               commentsCount := countComments comments tt tid } with hg
    have hgk : ∀ e, statsKey (g e) = statsKey e := fun e => rfl
    have hmap := hkeys g hgk
    obtain ⟨hxmem, hxp, hgx⟩ := find_mem_updateFirst (f := g) hx
    have hxk : statsKey x = (tt, tid) := (statsMatches_iff tt tid x).mp hxp
    have hnd' : ((updateFirst (statsMatches tt tid) g cs).map statsKey).Nodup := by
      rw [hmap]; exact hnd
    refine ⟨hnd', ?_, ⟨g x, hgx, by rw [hgk, hxk]⟩, ?_⟩
    · intro e he
      by_cases hk : statsKey e = (tt, tid)
      · have : e = g x :=
          List.inj_on_of_nodup_map hnd' he hgx (by rw [hk, hgk, hxk])
        subst this
        have h1 : x.contentType = tt := by
          have := congrArg Prod.fst hxk; simpa [statsKey] using this
        have h2 : x.contentId = tid := by
          have := congrArg Prod.snd hxk; simpa [statsKey] using this
        simp [StatsOkAt, hg, h1, h2]
      · rcases mem_updateFirst he with h | ⟨z, _, hzp, hz⟩
        · exact hok e h hk
        · exfalso
          apply hk
          rw [hz, hgk]
          exact (statsMatches_iff tt tid z).mp hzp
    · rintro k ⟨e, he, hek⟩
      have : k ∈ (updateFirst (statsMatches tt tid) g cs).map statsKey := by
        rw [hmap]; exact List.mem_map.mpr ⟨e, he, hek⟩
      obtain ⟨e', he', hk'⟩ := List.mem_map.mp this
      exact ⟨e', he', hk'⟩
  · have hno : ∀ e ∈ cs, statsKey e ≠ (tt, tid) := by
      intro e he hk
      apply hany
      exact List.any_eq_true.mpr ⟨e, he, (statsMatches_iff tt tid e).mpr hk⟩
    simp only [upsertStats, hany, if_false, Bool.false_eq_true]
    refine ⟨?_, ?_, ?_, ?_⟩
    · rw [List.map_append, List.nodup_append]
      refine ⟨hnd, by simp, ?_⟩
      intro a ha hb
      simp only [List.map_cons, List.map_nil, List.mem_singleton] at hb
      obtain ⟨e, he, hek⟩ := List.mem_map.mp ha
      exact hno e he (by rw [hek, hb]; rfl)
    · intro e he
      rcases List.mem_append.mp he with h | h
      · exact hok e h (hno e h)
      · simp only [List.mem_singleton] at h
        subst h
        simp [StatsOkAt]
    · exact ⟨_, List.mem_append_right _ (List.mem_singleton_self _), rfl⟩
    · rintro k ⟨e, he, hek⟩
      exact ⟨e, List.mem_append_left _ he, hek⟩

/-! ## The handlers on a successful call -/

theorem updateContentStats_inv (s : Store) (tt : String) (tid : Nat)
    (hnd : (s.contentStats.map statsKey).Nodup)
    (hok : ∀ e ∈ s.contentStats, statsKey e ≠ (tt, tid) → StatsOkAt s.likes s.comments e) :
    StatsInv (updateContentStats s tt tid) ∧ HasEntry (updateContentStats s tt tid) (tt, tid) ∧
      ∀ k, HasEntry s k → HasEntry (updateContentStats s tt tid) k := by
  obtain ⟨h1, h2, h3, h4⟩ := upsertStats_inv s.contentStats s.likes s.comments tt tid hnd hok
  exact ⟨⟨h1, h2⟩, h3, h4⟩

theorem toggleLike_ok (s : Store) (userId : Option Nat) (tto : Option String)
    (tido : Option Nat) (h : (toggleLike s userId tto tido).2.isOk = true) :
    ∃ u tt tid, userId = some u ∧ tto = some tt ∧ tido = some tid ∧
      likeTargetExists s tt tid = true ∧
      toggleLike s userId tto tido =
        (updateContentStats { s with likes := (toggleLikeRecord s.likes u tt tid).1 } tt tid,
          .ok 200 { message := "Contenu " ++ (toggleLikeRecord s.likes u tt tid).2,
                    action := (toggleLikeRecord s.likes u tt tid).2,
                    likesCount := countLikes (toggleLikeRecord s.likes u tt tid).1 tt tid,
                    isLiked := decide ((toggleLikeRecord s.likes u tt tid).2 = "liked") }) := by
  cases tto with
  | none => simp [toggleLike, Result.isOk] at h
  | some tt =>
    cases tido with
    | none => simp [toggleLike, Result.isOk] at h
    | some tid =>
      cases userId with
      | none =>
        simp only [toggleLike] at h
        split_ifs at h <;> simp [Result.isOk] at h
      | some u =>
        refine ⟨u, tt, tid, rfl, rfl, rfl, ?_⟩
        simp only [toggleLike] at h ⊢
        split_ifs at h ⊢ with h1 h2 h3
        · simp [Result.isOk] at h
        · simp [Result.isOk] at h
        · simp [Result.isOk] at h
        · refine ⟨by simpa using h3, ?_⟩
          simp [updateContentStats]

theorem toggleLike_none (s : Store) (tto : Option String) (tido : Option Nat) :
    (toggleLike s none tto tido).2.isOk = false ∧ (toggleLike s none tto tido).1 = s := by
  cases tto with
  | none => exact ⟨rfl, rfl⟩
  | some tt =>
    cases tido with
    | none => exact ⟨rfl, rfl⟩
    | some tid =>
      simp only [toggleLike]
      split_ifs <;> exact ⟨rfl, rfl⟩

theorem createComment_ok (s : Store) (authorId : Option Nat) (content tto : Option String)
    (tido parent : Option Nat) (newId now : Nat)
    (h : (createComment s authorId content tto tido parent newId now).2.isOk = true) :
    ∃ a text tt tid, authorId = some a ∧ content = some text ∧ tto = some tt ∧
      tido = some tid ∧
      (tt = "article" ∨ tt = "media") ∧ text ≠ "" ∧ jsLength text ≤ 1000 ∧
      commentTargetExists s tt tid = true ∧
      (∀ pid, parent = some pid → ∃ p, findCommentById s.comments pid = some p) ∧
      (∀ c ∈ s.comments, c._id ≠ newId) ∧
      (createComment s authorId content tto tido parent newId now).1 =
        { updateContentStats
            { s with comments := s.comments ++ [newComment a text tt tid parent newId now] }
            tt tid with
          comments := bumpReplies
            (s.comments ++ [newComment a text tt tid parent newId now]) parent } := by
  cases content with
  | none => simp [createComment, Result.isOk] at h
  | some text =>
    cases tto with
    | none => simp [createComment, Result.isOk] at h
    | some tt =>
      cases tido with
      | none => simp [createComment, Result.isOk] at h
      | some tid =>
        cases authorId with
        | none =>
          simp only [createComment] at h
          split_ifs at h <;> simp [Result.isOk] at h
        | some a =>
          refine ⟨a, text, tt, tid, rfl, rfl, rfl, rfl, ?_⟩
          simp only [createComment] at h ⊢
          split_ifs at h ⊢ with h1 h2 h3 h4 h5 h6
          · simp [Result.isOk] at h
          · simp [Result.isOk] at h
          · simp [Result.isOk] at h
          · simp [Result.isOk] at h
          · simp [Result.isOk] at h
          · simp [Result.isOk] at h
          · refine ⟨?_, ?_, ?_, ?_, ?_, ?_, ?_⟩
            · have h2' : ¬tt = "article" → tt = "media" := by simpa using h2
              tauto
            · simp at h1; exact h1.1
            · omega
            · simpa using h4
            · intro pid hp
              subst hp
              simp only at h5
              exact Option.ne_none_iff_exists'.mp (by simpa using h5)
            · simpa using h6
            · simp [updateContentStats]

theorem createComment_none (s : Store) (content tto : Option String)
    (tido parent : Option Nat) (newId now : Nat) :
    (createComment s none content tto tido parent newId now).2.isOk = false ∧
    (createComment s none content tto tido parent newId now).1 = s := by
  cases content with
  | none => exact ⟨rfl, rfl⟩
  | some text =>
    cases tto with
    | none => exact ⟨rfl, rfl⟩
    | some tt =>
      cases tido with
      | none => exact ⟨rfl, rfl⟩
      | some tid =>
        simp only [createComment]
        split_ifs <;> exact ⟨rfl, rfl⟩

theorem deleteComment_ok (s : Store) (userId : Option Nat) (cid now : Nat)
    (h : (deleteComment s userId cid now).2.isOk = true) :
    ∃ c, findCommentById s.comments cid = some c ∧ userId = some c.authorId ∧
      (deleteComment s userId cid now).1 =
        updateContentStats { s with comments := markDeleted s.comments cid now }
          c.targetType c.targetId := by
  unfold deleteComment at h ⊢
  cases hc : findCommentById s.comments cid with
  | none => simp [hc, Result.isOk] at h
  | some c =>
    simp only [hc] at h ⊢
    split_ifs at h ⊢ with h1
    · simp [Result.isOk] at h
    · exact ⟨c, rfl, by simpa using h1, rfl⟩

theorem deleteComment_none (s : Store) (cid now : Nat) :
    (deleteComment s none cid now).2.isOk = false ∧ (deleteComment s none cid now).1 = s := by
  unfold deleteComment
  cases findCommentById s.comments cid with
  | none => exact ⟨rfl, rfl⟩
  | some c => exact ⟨rfl, rfl⟩

/-! ## Frame lemmas for the counts -/

theorem countLikes_toggle_other (likes : List Like) (u : Nat) (tt : String) (tid : Nat)
    (k : String) (i : Nat) (h : (k, i) ≠ (tt, tid)) :
    countLikes (toggleLikeRecord likes u tt tid).1 k i = countLikes likes k i := by
  have hne : ¬ (tt = k ∧ tid = i) := fun ⟨h1, h2⟩ => h (by rw [h1, h2])
  unfold toggleLikeRecord
  cases hf : likes.find? (likeMatches u tt tid) with
  | some l =>
    simp only [countLikes]
    apply countP_updateFirst_of_preserved
    intro x hx
    simp only [likeMatches, Bool.and_eq_true, decide_eq_true_eq] at hx
    have : ¬ (x.targetType = k ∧ x.targetId = i) := by
      rw [hx.1.2, hx.2]; exact hne
    by_cases h1 : x.targetType = k <;> by_cases h2 : x.targetId = i <;> simp_all
  | none =>
    simp only [countLikes, List.countP_append]
    by_cases h1 : tt = k <;> by_cases h2 : tid = i <;> simp_all

theorem countComments_append_other (comments : List Comment) (c : Comment) (k : String)
    (i : Nat) (h : (k, i) ≠ (c.targetType, c.targetId)) :
    countComments (comments ++ [c]) k i = countComments comments k i := by
  have hne : ¬ (c.targetType = k ∧ c.targetId = i) := fun ⟨h1, h2⟩ => h (by rw [h1, h2])
  simp only [countComments, List.countP_append]
  by_cases h1 : c.targetType = k <;> by_cases h2 : c.targetId = i <;> simp_all

theorem countComments_bumpReplies (comments : List Comment) (parent : Option Nat) (k : String)
    (i : Nat) : countComments (bumpReplies comments parent) k i = countComments comments k i := by
  cases parent with
  | none => rfl
  | some pid =>
    simp only [bumpReplies, countComments]
    apply countP_updateFirst_of_preserved
    intro x _
    rfl

theorem countComments_markDeleted_other (comments : List Comment) (cid now : Nat) (c : Comment)
    (hc : findCommentById comments cid = some c) (k : String) (i : Nat)
    (h : (k, i) ≠ (c.targetType, c.targetId)) :
    countComments (markDeleted comments cid now) k i = countComments comments k i := by
  have hne : ¬ (c.targetType = k ∧ c.targetId = i) := fun ⟨h1, h2⟩ => h (by rw [h1, h2])
  have := countP_updateFirst_of_find
    (f := fun c : Comment => { c with isDeleted := true, deletedAt := some now })
    (fun c : Comment => decide (c.targetType = k) && decide (c.targetId = i) && !c.isDeleted) hc
  simp only [markDeleted, countComments]
  by_cases h1 : c.targetType = k <;> by_cases h2 : c.targetId = i <;> simp_all

/-! ## The counter-cache invariant along a run -/

theorem toggleLike_error_unchanged (s : Store) (userId : Option Nat) (tto : Option String)
    (tido : Option Nat) (h : (toggleLike s userId tto tido).2.isOk = false) :
    (toggleLike s userId tto tido).1 = s := by
  cases userId with
  | none => exact (toggleLike_none s tto tido).2
  | some u =>
    cases tto with
    | none => rfl
    | some tt =>
      cases tido with
      | none => rfl
      | some tid =>
        simp only [toggleLike] at h ⊢
        split_ifs at h ⊢ <;> first | rfl | simp [Result.isOk] at h

theorem createComment_error_unchanged (s : Store) (authorId : Option Nat)
    (content tto : Option String) (tido parent : Option Nat) (newId now : Nat)
    (h : (createComment s authorId content tto tido parent newId now).2.isOk = false) :
    (createComment s authorId content tto tido parent newId now).1 = s := by
  cases authorId with
  | none => exact (createComment_none s content tto tido parent newId now).2
  | some a =>
    cases content with
    | none => rfl
    | some text =>
      cases tto with
      | none => rfl
      | some tt =>
        cases tido with
        | none => rfl
        | some tid =>
          simp only [createComment] at h ⊢
          split_ifs at h ⊢ <;> first | rfl | simp [Result.isOk] at h

theorem deleteComment_error_unchanged (s : Store) (userId : Option Nat) (cid now : Nat)
    (h : (deleteComment s userId cid now).2.isOk = false) :
    (deleteComment s userId cid now).1 = s := by
  unfold deleteComment at h ⊢
  cases hc : findCommentById s.comments cid with
  | none => rfl
  | some c =>
    simp only [hc] at h ⊢
    split_ifs at h ⊢ with h1
    · rfl
    · simp [Result.isOk] at h

theorem op_step (s : Store) (op : Op) (hinv : StatsInv s) (hok : (op.apply s).2 = true) :
    StatsInv (op.apply s).1 ∧ (∀ t, op.target s = some t → HasEntry (op.apply s).1 t) ∧
      (∀ k, HasEntry s k → HasEntry (op.apply s).1 k) := by
  obtain ⟨hnd, hall⟩ := hinv
  cases op with
  | like userId tto tido =>
    simp only [Op.apply] at hok ⊢
    obtain ⟨u, tt, tid, rfl, rfl, rfl, _, heq⟩ := toggleLike_ok s userId tto tido hok
    rw [heq]
    have := updateContentStats_inv
      { s with likes := (toggleLikeRecord s.likes u tt tid).1 } tt tid hnd (by
        intro e he hk
        have hk' : (e.contentType, e.contentId) ≠ (tt, tid) := hk
        exact ⟨by rw [countLikes_toggle_other _ _ _ _ _ _ hk']; exact (hall e he).1,
          (hall e he).2⟩)
    obtain ⟨h1, h2, h3⟩ := this
    refine ⟨h1, ?_, fun k hk => h3 k hk⟩
    intro t ht
    simp only [Op.target, Option.some.injEq] at ht
    subst ht
    exact h2
  | comment authorId content tto tido parent newId now =>
    simp only [Op.apply] at hok ⊢
    obtain ⟨a, text, tt, tid, rfl, rfl, rfl, rfl, _, _, _, _, _, _, heq⟩ :=
      createComment_ok s authorId content tto tido parent newId now hok
    rw [heq]
    have := updateContentStats_inv
      { s with comments := s.comments ++ [newComment a text tt tid parent newId now] } tt tid
      hnd (by
        intro e he hk
        have hk' : (e.contentType, e.contentId) ≠
            ((newComment a text tt tid parent newId now).targetType,
              (newComment a text tt tid parent newId now).targetId) := hk
        exact ⟨(hall e he).1, by
          show e.commentsCount = countComments (s.comments ++ [_]) _ _
          rw [countComments_append_other _ _ _ _ hk']; exact (hall e he).2⟩)
    obtain ⟨⟨h1a, h1b⟩, h2, h3⟩ := this
    refine ⟨⟨h1a, ?_⟩, ?_, fun k hk => h3 k hk⟩
    · intro e he
      have := h1b e he
      exact ⟨this.1, by
        show e.commentsCount = countComments (bumpReplies _ _) _ _
        rw [countComments_bumpReplies]; exact this.2⟩
    · intro t ht
      simp only [Op.target, Option.some.injEq] at ht
      subst ht
      exact h2
  | remove userId cid now =>
    simp only [Op.apply] at hok ⊢
    obtain ⟨c, hc, _, heq⟩ := deleteComment_ok s userId cid now hok
    rw [heq]
    have := updateContentStats_inv
      { s with comments := markDeleted s.comments cid now } c.targetType c.targetId hnd (by
        intro e he hk
        have hk' : (e.contentType, e.contentId) ≠ (c.targetType, c.targetId) := hk
        exact ⟨(hall e he).1, by
          show e.commentsCount = countComments (markDeleted _ _ _) _ _
          rw [countComments_markDeleted_other _ _ _ _ hc _ _ hk']; exact (hall e he).2⟩)
    obtain ⟨h1, h2, h3⟩ := this
    refine ⟨h1, ?_, fun k hk => h3 k hk⟩
    intro t ht
    simp only [Op.target, hc, Option.map_some', Option.some.injEq] at ht
    subst ht
    exact h2

theorem op_apply_failed (s : Store) (op : Op) (h : (op.apply s).2 = false) :
    (op.apply s).1 = s := by
  cases op with
  | like userId tto tido => exact toggleLike_error_unchanged s userId tto tido h
  | comment authorId content tto tido parent newId now =>
    exact createComment_error_unchanged s authorId content tto tido parent newId now h
  | remove userId cid now => exact deleteComment_error_unchanged s userId cid now h

theorem op_apply_none (s : Store) (op : Op) (h : op.userId = none) : op.apply s = (s, false) := by
  cases op with
  | like userId tto tido =>
    simp only [Op.userId] at h
    subst h
    exact Prod.ext (toggleLike_none s tto tido).2 (toggleLike_none s tto tido).1
  | comment authorId content tto tido parent newId now =>
    simp only [Op.userId] at h
    subst h
    exact Prod.ext (createComment_none s content tto tido parent newId now).2
      (createComment_none s content tto tido parent newId now).1
  | remove userId cid now =>
    simp only [Op.userId] at h
    subst h
    exact Prod.ext (deleteComment_none s cid now).2 (deleteComment_none s cid now).1

theorem run_inv (ops : List Op) : ∀ s : Store, StatsInv s →
    StatsInv (runTouched s ops).1 ∧ (∀ t ∈ (runTouched s ops).2, HasEntry (runTouched s ops).1 t) ∧
      (∀ k, HasEntry s k → HasEntry (runTouched s ops).1 k) := by
  induction ops with
  | nil =>
    intro s hinv
    exact ⟨hinv, by simp [runTouched], fun k hk => hk⟩
  | cons op ops ih =>
    intro s hinv
    by_cases hok : (op.apply s).2 = true
    · obtain ⟨i1, i2, i3⟩ := op_step s op hinv hok
      obtain ⟨j1, j2, j3⟩ := ih _ i1
      refine ⟨j1, ?_, fun k hk => j3 k (i3 k hk)⟩
      intro t ht
      simp only [runTouched, hok, if_true] at ht
      rcases List.mem_append.mp ht with h | h
      · exact j3 t (i2 t (by simpa using h))
      · exact j2 t h
    · have hfail : (op.apply s).2 = false := by simpa using hok
      have hs := op_apply_failed s op hfail
      have hrun : runTouched s (op :: ops) = runTouched s ops := by
        simp only [runTouched, hfail, hs, Bool.false_eq_true, if_false, List.nil_append]
      rw [hrun]
      exact ih s hinv

theorem runTouched_none (ops : List Op) : ∀ s : Store, (∀ op ∈ ops, op.userId = none) →
    runTouched s ops = (s, []) := by
  induction ops with
  | nil => intro s _; rfl
  | cons op ops ih =>
    intro s h
    have h1 := op_apply_none s op (h op (List.mem_cons_self _ _))
    have h2 := ih s (fun o ho => h o (List.mem_cons_of_mem _ ho))
    simp only [runTouched, h1, h2, Bool.false_eq_true, if_false, List.nil_append]

/-- C1 (counter correctness). From a store with empty Like, Comment and
ContentStats collections, after any sequence of toggleLike, createComment
and deleteComment calls, whatever req.userId holds in each, every target
touched by a call that succeeded has exactly one ContentStats entry, whose
likesCount is the number of active Like records of the target and whose
commentsCount is the number of non-deleted Comment records of the target;
every entry of the collection agrees with the direct recount. When
req.userId is undefined in every call, as authMiddleware leaves it, no call
succeeds and the store stays as it was. -/
theorem counter_correctness (s0 : Store) (ops : List Op) (h0 : s0.engagementEmpty) :
    (∀ t ∈ (runTouched s0 ops).2, ∃ e ∈ (runTouched s0 ops).1.contentStats,
      e.contentType = t.1 ∧ e.contentId = t.2 ∧
      e.likesCount = countLikes (runTouched s0 ops).1.likes t.1 t.2 ∧
      e.commentsCount = countComments (runTouched s0 ops).1.comments t.1 t.2 ∧
      ∀ e' ∈ (runTouched s0 ops).1.contentStats,
        e'.contentType = t.1 → e'.contentId = t.2 → e' = e) ∧
    (∀ e ∈ (runTouched s0 ops).1.contentStats,
      e.likesCount = countLikes (runTouched s0 ops).1.likes e.contentType e.contentId ∧
      e.commentsCount =
        countComments (runTouched s0 ops).1.comments e.contentType e.contentId) ∧
    ((∀ op ∈ ops, op.userId = none) → runTouched s0 ops = (s0, [])) := by
  have hinv0 : StatsInv s0 := by
    obtain ⟨_, _, h3⟩ := h0
    refine ⟨by rw [h3]; exact List.nodup_nil, ?_⟩
    intro e he
    rw [h3] at he
    simp at he
  obtain ⟨⟨hnd, hall⟩, hent, _⟩ := run_inv ops s0 hinv0
  refine ⟨?_, fun e he => hall e he, runTouched_none ops s0⟩
  intro t ht
  obtain ⟨e, he, hk⟩ := hent t ht
  have h1 : e.contentType = t.1 := congrArg Prod.fst hk
  have h2 : e.contentId = t.2 := congrArg Prod.snd hk
  refine ⟨e, he, h1, h2, ?_, ?_, ?_⟩
  · rw [← h1, ← h2]; exact (hall e he).1
  · rw [← h1, ← h2]; exact (hall e he).2
  · intro e' he' h1' h2'
    apply List.inj_on_of_nodup_map hnd he' he
    rw [hk]
    exact Prod.ext h1' h2'

theorem counter_correctness_witness :
    demoStore.engagementEmpty ∧
    runTouched demoStore demoOps = (demoStore, []) ∧
    ∀ e ∈ (runTouched demoStore demoOps).1.contentStats,
      e.likesCount =
        countLikes (runTouched demoStore demoOps).1.likes e.contentType e.contentId ∧
      e.commentsCount =
        countComments (runTouched demoStore demoOps).1.comments e.contentType e.contentId :=
  ⟨⟨rfl, rfl, rfl⟩,
    (counter_correctness demoStore demoOps ⟨rfl, rfl, rfl⟩).2.2 (by decide),
    (counter_correctness demoStore demoOps ⟨rfl, rfl, rfl⟩).2.1⟩

/-! ## The Like collection under toggleLike -/

theorem find_updateFirst {α : Type} {p : α → Bool} {f : α → α} {l : List α} {c : α}
    (h : l.find? p = some c) (hp : p (f c) = true) :
    (updateFirst p f l).find? p = some (f c) := by
  induction l with
  | nil => simp at h
  | cons x xs ih =>
    by_cases hx : p x = true
    · simp only [List.find?, hx, Option.some.injEq] at h
      subst h
      simp [updateFirst, hx, List.find?, hp]
    · simp only [Bool.not_eq_true] at hx
      simp only [List.find?, hx] at h
      simp [updateFirst, hx, List.find?, ih h]

theorem likeMatches_iff (u : Nat) (tt : String) (tid : Nat) (l : Like) :
    likeMatches u tt tid l = true ↔ likeKey l = (u, tt, tid) := by
  simp [likeMatches, likeKey, Prod.ext_iff, and_assoc]

theorem activeLikeMatches_eq (u : Nat) (tt : String) (tid : Nat) (l : Like) :
    activeLikeMatches u tt tid l = (likeMatches u tt tid l && l.isActive) := rfl

theorem toggleLikeRecord_cases (likes : List Like) (u : Nat) (tt : String) (tid : Nat) :
    (likes.find? (likeMatches u tt tid) = none ∧
      toggleLikeRecord likes u tt tid =
        (likes ++ [{ userId := u, targetType := tt, targetId := tid, isActive := true }],
          "liked")) ∨
    (∃ l, likes.find? (likeMatches u tt tid) = some l ∧
      toggleLikeRecord likes u tt tid =
        (updateFirst (likeMatches u tt tid) (fun l => { l with isActive := !l.isActive }) likes,
          if !l.isActive then "liked" else "unliked")) := by
  unfold toggleLikeRecord
  cases hf : likes.find? (likeMatches u tt tid) with
  | none => exact Or.inl ⟨rfl, rfl⟩
  | some l => exact Or.inr ⟨l, rfl, rfl⟩

theorem toggleLikeRecord_unique (likes : List Like) (u : Nat) (tt : String) (tid : Nat)
    (hu : LikeUnique likes) : LikeUnique (toggleLikeRecord likes u tt tid).1 := by
  rcases toggleLikeRecord_cases likes u tt tid with ⟨hf, heq⟩ | ⟨l, _, heq⟩
  · rw [heq]
    unfold LikeUnique at hu ⊢
    rw [List.map_append, List.nodup_append]
    refine ⟨hu, by simp, ?_⟩
    intro a ha hb
    simp only [List.map_cons, List.map_nil, List.mem_singleton] at hb
    obtain ⟨x, hx, hxa⟩ := List.mem_map.mp ha
    have := List.find?_eq_none.mp hf x hx
    apply this
    rw [likeMatches_iff, hxa, hb]
    rfl
  · rw [heq]
    unfold LikeUnique at hu ⊢
    show (List.map likeKey (updateFirst _ _ likes)).Nodup
    rw [map_updateFirst likeKey _ (fun l : Like => { l with isActive := !l.isActive }) _
      (fun _ => rfl)]
    exact hu

theorem isLikedBy_of_unique (likes : List Like) (u : Nat) (tt : String) (tid : Nat) (c : Like)
    (hu : LikeUnique likes) (hc : c ∈ likes) (hm : likeMatches u tt tid c = true) :
    isLikedBy likes u tt tid = c.isActive := by
  have hall : ∀ x ∈ likes, likeMatches u tt tid x = true → x = c := by
    intro x hx hxm
    apply List.inj_on_of_nodup_map hu hx hc
    rw [(likeMatches_iff u tt tid x).mp hxm, (likeMatches_iff u tt tid c).mp hm]
  cases hact : c.isActive with
  | true =>
    exact List.any_eq_true.mpr ⟨c, hc, by rw [activeLikeMatches_eq, hm, hact]; rfl⟩
  | false =>
    rw [isLikedBy, List.any_eq_false]
    intro x hx hxa
    rw [activeLikeMatches_eq, Bool.and_eq_true] at hxa
    have := hall x hx hxa.1
    rw [this, hact] at hxa
    exact Bool.false_ne_true hxa.2

theorem toggleLikeRecord_isLikedBy (likes : List Like) (u : Nat) (tt : String) (tid : Nat)
    (hu : LikeUnique likes) :
    isLikedBy (toggleLikeRecord likes u tt tid).1 u tt tid = !isLikedBy likes u tt tid := by
  have hu' := toggleLikeRecord_unique likes u tt tid hu
  rcases toggleLikeRecord_cases likes u tt tid with ⟨hf, heq⟩ | ⟨l, hf, heq⟩
  · rw [heq] at hu' ⊢
    have hold : isLikedBy likes u tt tid = false := by
      rw [isLikedBy, List.any_eq_false]
      intro x hx hxa
      rw [activeLikeMatches_eq, Bool.and_eq_true] at hxa
      exact List.find?_eq_none.mp hf x hx hxa.1
    rw [hold]
    exact isLikedBy_of_unique _ u tt tid _ hu' (List.mem_append_right _ (List.mem_singleton_self _))
      ((likeMatches_iff _ _ _ _).mpr rfl)
  · rw [heq] at hu' ⊢
    obtain ⟨hl, hlm, hfl⟩ :=
      find_mem_updateFirst (f := fun l : Like => { l with isActive := !l.isActive }) hf
    rw [isLikedBy_of_unique likes u tt tid l hu hl hlm]
    exact isLikedBy_of_unique _ u tt tid _ hu' hfl
      ((likeMatches_iff _ _ _ _).mpr ((likeMatches_iff _ _ _ _).mp hlm))

theorem toggleTimes_parity (n : Nat) : ∀ (s s' : Store) (U : Nat) (kind : String) (id : Nat),
    LikeUnique s.likes → toggleTimes s (some U) kind id n = some s' →
    isLikedBy s'.likes U kind id =
      (if n % 2 = 0 then isLikedBy s.likes U kind id else !isLikedBy s.likes U kind id) := by
  induction n with
  | zero =>
    intro s s' U kind id _ h
    simp only [toggleTimes, Option.some.injEq] at h
    subst h
    simp
  | succ n ih =>
    intro s s' U kind id hu h
    simp only [toggleTimes] at h
    by_cases hok : (toggleLike s (some U) (some kind) (some id)).2.isOk = true
    · simp only [hok, if_true] at h
      obtain ⟨u, tt, tid, hU, hk, hi, _, heq⟩ :=
        toggleLike_ok s (some U) (some kind) (some id) hok
      simp only [Option.some.injEq] at hU hk hi
      subst hU hk hi
      have hlikes : (toggleLike s (some U) (some kind) (some id)).1.likes =
          (toggleLikeRecord s.likes U kind id).1 := by rw [heq]; rfl
      have hu' : LikeUnique (toggleLike s (some U) (some kind) (some id)).1.likes := by
        rw [hlikes]; exact toggleLikeRecord_unique _ _ _ _ hu
      rw [ih _ s' U kind id hu' h, hlikes, toggleLikeRecord_isLikedBy _ _ _ _ hu]
      rcases Nat.mod_two_eq_zero_or_one n with hn | hn
      · have : (n + 1) % 2 = 1 := by omega
        simp [hn, this]
      · have : (n + 1) % 2 = 0 := by omega
        simp [hn, this]
    · simp [hok] at h

theorem runToggles_replicate_none (n : Nat) (s : Store) (tto : Option String)
    (tido : Option Nat) : runToggles s (List.replicate n (none, tto, tido)) = s := by
  induction n with
  | zero => rfl
  | succ n ih =>
    simp only [List.replicate_succ, runToggles, (toggleLike_none s tto tido).2]
    exact ih

/-- C2 (toggle symmetry). On a Like collection that respects its unique
index, whenever n consecutive toggleLike calls of user U on a target all
succeed, req.userId being undefined or the id of U, the effective like
state of U on the target is afterwards the initial one when n is even and
its negation when n is odd. With req.userId undefined, as authMiddleware
leaves it, no call succeeds: the store after n calls is the store before
them. -/
theorem toggle_symmetry (n : Nat) (s : Store) (U : Nat) (kind : String) (id : Nat)
    (hu : LikeUnique s.likes) :
    (∀ (userId : Option Nat) (s' : Store), (userId = none ∨ userId = some U) →
      toggleTimes s userId kind id n = some s' →
      isLikedBy s'.likes U kind id =
        (if n % 2 = 0 then isLikedBy s.likes U kind id else !isLikedBy s.likes U kind id)) ∧
    runToggles s (List.replicate n (none, some kind, some id)) = s ∧
    (0 < n → toggleTimes s none kind id n = none) := by
  refine ⟨?_, runToggles_replicate_none n s _ _, ?_⟩
  · intro userId s' huid h
    rcases huid with rfl | rfl
    · cases n with
      | zero =>
        simp only [toggleTimes, Option.some.injEq] at h
        subst h
        simp
      | succ n =>
        simp [toggleTimes, (toggleLike_none s (some kind) (some id)).1] at h
    · exact toggleTimes_parity n s s' U kind id hu h
  · intro hn
    cases n with
    | zero => omega
    | succ n => simp [toggleTimes, (toggleLike_none s (some kind) (some id)).1]

theorem toggle_symmetry_witness :
    LikeUnique demoStore.likes ∧
    runToggles demoStore (List.replicate 3 (none, some "article", some 1)) = demoStore ∧
    toggleTimes demoStore none "article" 1 3 = none :=
  ⟨List.nodup_nil, (toggle_symmetry 3 demoStore 7 "article" 1 List.nodup_nil).2.1,
    (toggle_symmetry 3 demoStore 7 "article" 1 List.nodup_nil).2.2 (by decide)⟩

theorem toggleLike_likes (s : Store) (userId : Option Nat) (tto : Option String)
    (tido : Option Nat) :
    (toggleLike s userId tto tido).1.likes = s.likes ∨
      ∃ u tt tid, userId = some u ∧ tto = some tt ∧ tido = some tid ∧
        (toggleLike s userId tto tido).1.likes = (toggleLikeRecord s.likes u tt tid).1 := by
  cases hok : (toggleLike s userId tto tido).2.isOk with
  | false => exact Or.inl (by rw [toggleLike_error_unchanged s userId tto tido hok])
  | true =>
    obtain ⟨u, tt, tid, h0, h1, h2, _, heq⟩ := toggleLike_ok s userId tto tido hok
    exact Or.inr ⟨u, tt, tid, h0, h1, h2, by rw [heq]; rfl⟩

theorem runToggles_unique (calls : List (Option Nat × Option String × Option Nat)) :
    ∀ s : Store, LikeUnique s.likes → LikeUnique (runToggles s calls).likes := by
  induction calls with
  | nil => intro s hu; exact hu
  | cons call calls ih =>
    intro s hu
    apply ih
    rcases toggleLike_likes s call.1 call.2.1 call.2.2 with h | ⟨u, tt, tid, _, _, _, h⟩
    · rw [h]; exact hu
    · rw [h]; exact toggleLikeRecord_unique _ _ _ _ hu

/-- C3 (like uniqueness). From a Like collection with at most one record
per (userId, targetType, targetId), any sequence of toggleLike calls,
successful or failing, whatever req.userId holds in each, leaves at most
one record per triple; and one call either leaves the collection as it is,
or appends one active record when no record of the triple exists, or flips
isActive on the record of the triple (the collection keeps its length and
its triples). -/
theorem like_uniqueness (s : Store) (hu : LikeUnique s.likes) :
    (∀ calls, LikeUnique (runToggles s calls).likes) ∧
    ∀ (userId : Option Nat) (tto : Option String) (tido : Option Nat),
      (toggleLike s userId tto tido).1.likes = s.likes ∨
      ∃ u tt tid, userId = some u ∧ tto = some tt ∧ tido = some tid ∧
        ((s.likes.find? (likeMatches u tt tid) = none ∧
            (toggleLike s userId tto tido).1.likes =
              s.likes ++ [{ userId := u, targetType := tt, targetId := tid, isActive := true }]) ∨
          (∃ l, s.likes.find? (likeMatches u tt tid) = some l ∧
            (toggleLike s userId tto tido).1.likes =
              updateFirst (likeMatches u tt tid) (fun l => { l with isActive := !l.isActive })
                s.likes ∧
            (toggleLike s userId tto tido).1.likes.length = s.likes.length ∧
            (toggleLike s userId tto tido).1.likes.map likeKey = s.likes.map likeKey)) := by
  refine ⟨fun calls => runToggles_unique calls s hu, ?_⟩
  intro userId tto tido
  rcases toggleLike_likes s userId tto tido with h | ⟨u, tt, tid, h0, h1, h2, h⟩
  · exact Or.inl h
  · refine Or.inr ⟨u, tt, tid, h0, h1, h2, ?_⟩
    rcases toggleLikeRecord_cases s.likes u tt tid with ⟨hf, heq⟩ | ⟨l, hf, heq⟩
    · exact Or.inl ⟨hf, by rw [h, heq]⟩
    · refine Or.inr ⟨l, hf, by rw [h, heq], ?_, ?_⟩
      · rw [h, heq]; exact length_updateFirst _ _ _
      · rw [h, heq]
        exact map_updateFirst likeKey _ (fun l : Like => { l with isActive := !l.isActive }) _
          (fun _ => rfl)

theorem like_uniqueness_witness :
    LikeUnique demoStore.likes ∧
    LikeUnique (runToggles demoStore
      [(none, some "article", some 1), (some 7, some "article", some 1),
        (some 7, some "article", some 1), (some 8, some "article", some 1),
        (some 7, some "video", some 1), (some 7, some "media", some 9),
        (some 7, none, some 1)]).likes :=
  ⟨List.nodup_nil, (like_uniqueness demoStore List.nodup_nil).1 _⟩

/-! ## The routes behind authMiddleware -/

theorem find_append_of_none {α : Type} (p : α → Bool) (l : List α) (x : α)
    (h : l.find? p = none) (hx : p x = true) : (l ++ [x]).find? p = some x := by
  rw [List.find?_append, h]
  simp [List.find?, hx]

theorem countLikes_eq_zero (likes : List Like) (tt : String) (tid : Nat)
    (h : ∀ l ∈ likes, ¬ (l.targetType = tt ∧ l.targetId = tid)) : countLikes likes tt tid = 0 := by
  rw [countLikes, List.countP_eq_zero]
  intro l hl hq
  simp only [Bool.and_eq_true, decide_eq_true_eq] at hq
  exact h l hl hq.1

theorem authMiddleware_userId (users : List User) (jwtVerify : String → Option Nat)
    (req req' : Request) (h : authMiddleware users jwtVerify req = .next req') :
    req'.userId = req.userId := by
  unfold authMiddleware at h
  cases ht : req.token with
  | none => simp [ht] at h
  | some tok =>
    simp only [ht] at h
    split_ifs at h with h1
    cases hv : jwtVerify tok with
    | none => simp [hv] at h
    | some decodedId =>
      simp only [hv] at h
      cases hf : users.find? (fun u => decide (u._id = decodedId)) with
      | none => simp [hf] at h
      | some user =>
        simp only [hf] at h
        split_ifs at h with h2 h3 h4
        simp only [MiddlewareResult.next.injEq] at h
        subst h
        rfl

theorem handlerUserId_of_next (users : List User) (jwtVerify : String → Option Nat)
    (token : Option String) (req : Request)
    (h : authMiddleware users jwtVerify (incomingRequest token) = .next req) :
    handlerUserId req = none := by
  have := authMiddleware_userId users jwtVerify _ req h
  simpa [handlerUserId, incomingRequest] using this

theorem postLikes_fails (s : Store) (jwtVerify : String → Option Nat) (token : Option String)
    (tto : Option String) (tido : Option Nat) :
    (postLikes s jwtVerify token tto tido).2.isOk = false ∧
    (postLikes s jwtVerify token tto tido).1 = s := by
  unfold postLikes
  cases h : authMiddleware s.users jwtVerify (incomingRequest token) with
  | respond status message => exact ⟨rfl, rfl⟩
  | next req =>
    simp only [handlerUserId_of_next _ _ _ _ h]
    exact toggleLike_none s tto tido

theorem postComments_fails (s : Store) (jwtVerify : String → Option Nat)
    (token : Option String) (content tto : Option String) (tido parent : Option Nat)
    (newId now : Nat) :
    (postComments s jwtVerify token content tto tido parent newId now).2.isOk = false ∧
    (postComments s jwtVerify token content tto tido parent newId now).1 = s := by
  unfold postComments
  cases h : authMiddleware s.users jwtVerify (incomingRequest token) with
  | respond status message => exact ⟨rfl, rfl⟩
  | next req =>
    simp only [handlerUserId_of_next _ _ _ _ h]
    exact createComment_none s content tto tido parent newId now

theorem deleteComments_fails (s : Store) (jwtVerify : String → Option Nat)
    (token : Option String) (cid now : Nat) :
    (deleteComments s jwtVerify token cid now).2.isOk = false ∧
    (deleteComments s jwtVerify token cid now).1 = s := by
  unfold deleteComments
  cases h : authMiddleware s.users jwtVerify (incomingRequest token) with
  | respond status message => exact ⟨rfl, rfl⟩
  | next req =>
    simp only [handlerUserId_of_next _ _ _ _ h]
    exact deleteComment_none s cid now

theorem toggleLike_none_of_exists (s : Store) (tt : String) (tid : Nat)
    (h : likeTargetExists s tt tid = true) :
    toggleLike s none (some tt) (some tid) =
      (s, .error 500 "Like validation failed: userId: Path userId is required.") := by
  have hv : tt = "article" ∨ tt = "media" ∨ tt = "comment" := by
    unfold likeTargetExists at h
    split_ifs at h with h1 h2 h3
    · exact Or.inl h1
    · exact Or.inr (Or.inl h2)
    · exact Or.inr (Or.inr h3)
  have hne : tt ≠ "" := by
    rcases hv with h1 | h1 | h1 <;> rw [h1] <;> decide
  have hc : ["article", "media", "comment"].contains tt = true := by
    rcases hv with h1 | h1 | h1 <;> rw [h1] <;> decide
  simp only [toggleLike, hne, if_false, hc, Bool.not_true, Bool.false_eq_true, h]

/-! ## The response of toggleLike -/

/-- C5 (toggleLike response). POST /api/likes never answers with its
success response: behind authMiddleware the handler reads an undefined
req.userId, so a request that passes the validation and names an existing
target ends in 500 and writes nothing. For user 7 and the article 1, with
no Like in the store, the first call and the second call both answer 500
and the store stays as it was; no response carries isLiked or
likesCount. -/
theorem like_route_always_fails :
    postLikes demoStore demoVerify (some "tok") (some "article") (some 1) =
      (demoStore, .error 500 "Like validation failed: userId: Path userId is required.") ∧
    postLikes (postLikes demoStore demoVerify (some "tok") (some "article") (some 1)).1
        demoVerify (some "tok") (some "article") (some 1) =
      (demoStore, .error 500 "Like validation failed: userId: Path userId is required.") ∧
    (∀ (s : Store) (jwtVerify : String → Option Nat) (token : Option String)
        (tto : Option String) (tido : Option Nat),
      (postLikes s jwtVerify token tto tido).2.isOk = false ∧
      (postLikes s jwtVerify token tto tido).1 = s) ∧
    (∀ (s : Store) (jwtVerify : String → Option Nat) (token : Option String) (req : Request)
        (tt : String) (tid : Nat),
      authMiddleware s.users jwtVerify (incomingRequest token) = .next req →
      likeTargetExists s tt tid = true →
      postLikes s jwtVerify token (some tt) (some tid) =
        (s, .error 500 "Like validation failed: userId: Path userId is required.")) := by
  refine ⟨by decide, by decide, postLikes_fails, ?_⟩
  intro s jwtVerify token req tt tid hauth hex
  simp only [postLikes, hauth, handlerUserId_of_next _ _ _ _ hauth]
  exact toggleLike_none_of_exists s tt tid hex

/-! ## The identity the handlers read -/

/-- C4 (viewer identity). For every request that passes authMiddleware,
the middleware has attached the user document as req.user and nothing as
req.userId, so the user id the core handlers read (req.userId) is
undefined instead of the id of the authenticated user. -/
theorem auth_userId_undefined (users : List User) (jwtVerify : String → Option Nat)
    (token : Option String) (req : Request)
    (h : authMiddleware users jwtVerify (incomingRequest token) = .next req) :
    (∃ u ∈ users, req.user = some u) ∧ handlerUserId req = none ∧
      ∀ u, req.user = some u → handlerUserId req ≠ some u._id := by
  unfold authMiddleware at h
  simp only [incomingRequest] at h
  cases token with
  | none => simp at h
  | some tok =>
    simp only at h
    split_ifs at h with h1
    cases hv : jwtVerify tok with
    | none => simp [hv] at h
    | some decodedId =>
      simp only [hv] at h
      cases hf : users.find? (fun u => decide (u._id = decodedId)) with
      | none => simp [hf] at h
      | some user =>
        simp only [hf] at h
        split_ifs at h with h2 h3 h4
        simp only [MiddlewareResult.next.injEq] at h
        subst h
        exact ⟨⟨user, List.mem_of_find?_eq_some hf, rfl⟩, rfl, fun _ _ => by simp [handlerUserId]⟩

theorem auth_userId_undefined_witness :
    authMiddleware [demoUser] (fun _ => some 7) (incomingRequest (some "tok")) =
      .next { token := some "tok", user := some demoUser, userId := none } ∧
    handlerUserId { token := some "tok", user := some demoUser, userId := none } = none :=
  ⟨by decide,
    (auth_userId_undefined [demoUser] (fun _ => some 7) (some "tok") _ (by decide)).2.1⟩

/-! ## The social feed on concrete stores -/

/-- C6 (isLiked of a feed item). User 7 has an active Like record on the
media 2, yet GET /api/feed/social for viewer 7 returns that media with
isLiked false: the loop reads the kind from item.type, which for a media
is its category (image), and so looks the like up under article. -/
theorem social_feed_media_isLiked_wrong :
    isLikedBy likedMediaStore.likes 7 "media" 2 = true ∧
    (feedOf (socialFeed likedMediaStore 7 1 2)).map
        (fun i => (i.toFeedDoc.kind, i._id, i.type, i.isLiked)) =
      [("media", 2, some "image", false), ("article", 1, some "article", false)] := by
  decide

/-- C7 (feed pagination). With one published article and no media, the
merged sequence has length 1, so page 2 of size 1 starts at its end; GET
/api/feed/social?page=2&limit=1 still returns the article, the same feed
as page 1: the handler never applies the skip it computes, and on every
store the feed of any page is the feed of page 1. -/
theorem social_feed_ignores_page :
    (socialArticles oneArticleStore 1 ++ socialMedias oneArticleStore 1).length = 1 ∧
    oneArticleStore.articles.length + oneArticleStore.medias.length = 1 ∧
    (feedOf (socialFeed oneArticleStore 7 2 1)).map (fun i => i._id) = [1] ∧
    ∀ (s : Store) (userId page limitNum : Nat),
      feedOf (socialFeed s userId page limitNum) = feedOf (socialFeed s userId 1 limitNum) := by
  refine ⟨by decide, by decide, by decide, ?_⟩
  intro s userId page limitNum
  unfold socialFeed
  split_ifs <;> rfl

/-- C8 (feed visibility). The only media of the store has isPublic false,
yet GET /api/feed/social and GET /api/feed/unified both return it: the
media pipelines have no isPublic filter. -/
theorem feeds_return_private_media :
    privateMediaStore.medias.map (fun m => (m._id, m.isPublic)) = [(3, false)] ∧
    (feedOf (socialFeed privateMediaStore 7 1 2)).map (fun i => (i.toFeedDoc.kind, i._id)) =
      [("media", 3), ("article", 1)] ∧
    (∀ regexValid regexTest, ∃ body,
      unifiedFeed regexValid regexTest privateMediaStore 7 (.finite 1) (.finite 2) "" "true"
        "true" = .ok 200 body ∧
      body.medias.map (fun i => (i.toFeedDoc.kind, i._id)) = [("media", 3)]) := by
  refine ⟨by decide, by decide, fun regexValid regexTest => ⟨_, rfl, rfl⟩⟩

/-! ## Where the items of the social feed come from -/

theorem mem_lookupUnwind {α : Type} (users : List User) (ref : α → Nat) (docs : List α)
    (d : α) (u : User) :
    (d, u) ∈ lookupUnwind users ref docs ↔ d ∈ docs ∧ u ∈ users ∧ u._id = ref d := by
  simp only [lookupUnwind, List.mem_flatMap, List.mem_map, List.mem_filter, decide_eq_true_eq,
    Prod.mk.injEq]
  constructor
  · rintro ⟨d', hd', u', ⟨hu', hid⟩, rfl, rfl⟩
    exact ⟨hd', hu', hid⟩
  · rintro ⟨hd, hu, hid⟩
    exact ⟨d, hd, u, ⟨hu, hid⟩, rfl, rfl⟩

theorem mem_sortByCreatedAtDesc (docs : List FeedDoc) (d : FeedDoc) :
    d ∈ sortByCreatedAtDesc docs ↔ d ∈ docs :=
  List.mem_insertionSort newerFirst

theorem mem_socialArticles (s : Store) (limitNum : Nat) (d : FeedDoc)
    (h : d ∈ socialArticles s limitNum) :
    ∃ a ∈ s.articles, ∃ u ∈ s.users, u._id = a.authorId ∧ a.published = true ∧
      d = projectSocialArticle s.contentStats a u := by
  unfold socialArticles at h
  have h1 := (mem_sortByCreatedAtDesc _ _).mp (List.mem_of_mem_take h)
  obtain ⟨p, hp, rfl⟩ := List.mem_map.mp h1
  obtain ⟨hp1, hp2⟩ := List.mem_filter.mp hp
  obtain ⟨ha, hu, hid⟩ := (mem_lookupUnwind _ _ _ p.1 p.2).mp hp1
  exact ⟨p.1, ha, p.2, hu, hid, hp2, rfl⟩

theorem mem_socialMedias (s : Store) (limitNum : Nat) (d : FeedDoc)
    (h : d ∈ socialMedias s limitNum) :
    ∃ m ∈ s.medias, ∃ u ∈ s.users, u._id = m.uploadedBy ∧
      d = projectSocialMedia s.contentStats m u := by
  unfold socialMedias at h
  have h1 := (mem_sortByCreatedAtDesc _ _).mp (List.mem_of_mem_take h)
  obtain ⟨p, hp, rfl⟩ := List.mem_map.mp h1
  obtain ⟨ha, hu, hid⟩ := (mem_lookupUnwind _ _ _ p.1 p.2).mp hp
  exact ⟨p.1, ha, p.2, hu, hid, rfl⟩

theorem feedOf_socialFeed (s : Store) (userId page limitNum : Nat) :
    feedOf (socialFeed s userId page limitNum) =
      if limitNum = 0 then []
      else ((sortByCreatedAtDesc (socialArticles s limitNum ++ socialMedias s limitNum)).take
        limitNum).map (annotateLiked s.likes userId) := by
  unfold socialFeed
  split_ifs <;> rfl

theorem mem_feedOf_socialFeed (s : Store) (userId page limitNum : Nat) (item : FeedItem)
    (h : item ∈ feedOf (socialFeed s userId page limitNum)) :
    ∃ d, item = annotateLiked s.likes userId d ∧
      (d ∈ socialArticles s limitNum ∨ d ∈ socialMedias s limitNum) := by
  rw [feedOf_socialFeed] at h
  split_ifs at h with h0
  · simp at h
  · obtain ⟨d, hd, rfl⟩ := List.mem_map.mp h
    have := (mem_sortByCreatedAtDesc _ _).mp (List.mem_of_mem_take hd)
    exact ⟨d, rfl, List.mem_append.mp this⟩

/-! ## Counters of the feed items -/

theorem lookupStats_head (cs : List ContentStats) (kind : String) (id : Nat)
    (f : ContentStats → Nat) :
    firstOrZero ((lookupStats cs kind id).map f) =
      match cs.find? (statsMatches kind id) with
      | some e => f e
      | none => 0 := by
  have hp : (fun e : ContentStats => decide (e.contentId = id) && decide (e.contentType = kind))
      = statsMatches kind id := by
    funext e
    simp only [statsMatches]
    exact Bool.and_comm _ _
  unfold lookupStats firstOrZero
  rw [hp, List.head?_map, List.filter_head?]
  cases cs.find? (statsMatches kind id) <;> rfl

theorem find_stats_of_unique (cs : List ContentStats) (kind : String) (id : Nat)
    (e : ContentStats) (hnd : (cs.map statsKey).Nodup) (he : e ∈ cs)
    (hk : statsKey e = (kind, id)) : cs.find? (statsMatches kind id) = some e := by
  obtain ⟨x, hx⟩ := find_of_any (List.any_eq_true.mpr ⟨e, he, (statsMatches_iff kind id e).mpr hk⟩)
  have hxm := List.mem_of_find?_eq_some hx
  have hxk := (statsMatches_iff kind id x).mp (List.find?_some hx)
  rw [hx, List.inj_on_of_nodup_map hnd hxm he (by rw [hxk, hk])]

/-- C10 (counters of a feed item). Every item of GET /api/feed/social
carries the likesCount, commentsCount and viewsCount of the ContentStats
entry found for (kind of the item, id of the item), and 0 for the three
when there is none; entries of the other kind are not looked at. When the
collection respects its unique index, this is every entry with that key. -/
theorem social_feed_counts (s : Store) (userId page limitNum : Nat) (item : FeedItem)
    (h : item ∈ feedOf (socialFeed s userId page limitNum)) :
    (match s.contentStats.find? (statsMatches item.toFeedDoc.kind item._id) with
      | some e => item.likesCount = e.likesCount ∧ item.commentsCount = e.commentsCount ∧
          item.viewsCount = e.viewsCount
      | none => item.likesCount = 0 ∧ item.commentsCount = 0 ∧ item.viewsCount = 0) ∧
    ((s.contentStats.map statsKey).Nodup → ∀ e ∈ s.contentStats,
      e.contentType = item.toFeedDoc.kind → e.contentId = item._id →
      item.likesCount = e.likesCount ∧ item.commentsCount = e.commentsCount ∧
        item.viewsCount = e.viewsCount) := by
  have key : match s.contentStats.find? (statsMatches item.toFeedDoc.kind item._id) with
      | some e => item.likesCount = e.likesCount ∧ item.commentsCount = e.commentsCount ∧
          item.viewsCount = e.viewsCount
      | none => item.likesCount = 0 ∧ item.commentsCount = 0 ∧ item.viewsCount = 0 := by
    obtain ⟨d, rfl, hd | hd⟩ := mem_feedOf_socialFeed s userId page limitNum item h
    · obtain ⟨a, _, u, _, _, _, rfl⟩ := mem_socialArticles s limitNum d hd
      have h1 := lookupStats_head s.contentStats "article" a._id (fun e => e.likesCount)
      have h2 := lookupStats_head s.contentStats "article" a._id (fun e => e.commentsCount)
      have h3 := lookupStats_head s.contentStats "article" a._id (fun e => e.viewsCount)
      show match s.contentStats.find? (statsMatches "article" a._id) with
        | some e => firstOrZero _ = e.likesCount ∧ firstOrZero _ = e.commentsCount ∧
            firstOrZero _ = e.viewsCount
        | none => firstOrZero _ = 0 ∧ firstOrZero _ = 0 ∧ firstOrZero _ = 0
      rw [h1, h2, h3]
      cases s.contentStats.find? (statsMatches "article" a._id) <;> exact ⟨rfl, rfl, rfl⟩
    · obtain ⟨m, _, u, _, _, rfl⟩ := mem_socialMedias s limitNum d hd
      have h1 := lookupStats_head s.contentStats "media" m._id (fun e => e.likesCount)
      have h2 := lookupStats_head s.contentStats "media" m._id (fun e => e.commentsCount)
      have h3 := lookupStats_head s.contentStats "media" m._id (fun e => e.viewsCount)
      show match s.contentStats.find? (statsMatches "media" m._id) with
        | some e => firstOrZero _ = e.likesCount ∧ firstOrZero _ = e.commentsCount ∧
            firstOrZero _ = e.viewsCount
        | none => firstOrZero _ = 0 ∧ firstOrZero _ = 0 ∧ firstOrZero _ = 0
      rw [h1, h2, h3]
      cases s.contentStats.find? (statsMatches "media" m._id) <;> exact ⟨rfl, rfl, rfl⟩
  refine ⟨key, ?_⟩
  intro hnd e he h1 h2
  have hk : statsKey e = (item.toFeedDoc.kind, item._id) := by
    show (e.contentType, e.contentId) = _
    rw [h1, h2]
  have hf := find_stats_of_unique s.contentStats item.toFeedDoc.kind item._id e hnd he hk
  rw [hf] at key
  exact key

theorem social_feed_counts_witness :
    statsFeedItem ∈ feedOf (socialFeed statsStore 7 1 2) ∧
    (statsFeedItem.likesCount = 1 ∧ statsFeedItem.commentsCount = 2 ∧
      statsFeedItem.viewsCount = 3) :=
  ⟨by decide, (social_feed_counts statsStore 7 1 2 statsFeedItem (by decide)).1⟩

/-! ## Order of the social feed -/

theorem users_filter_id (users : List User) (u : User)
    (hnd : (users.map (fun v => v._id)).Nodup) (hu : u ∈ users) :
    users.filter (fun v => decide (v._id = u._id)) = [u] := by
  induction users with
  | nil => simp at hu
  | cons v vs ih =>
    simp only [List.map_cons, List.nodup_cons, List.mem_map, not_exists, not_and] at hnd
    obtain ⟨hv, hvs⟩ := hnd
    rcases List.mem_cons.mp hu with h | h
    · subst h
      have : vs.filter (fun v => decide (v._id = u._id)) = [] := by
        rw [List.filter_eq_nil_iff]
        intro w hw hwid
        exact hv w hw (by simpa using hwid)
      simp [List.filter_cons, this]
    · have hne : ¬ v._id = u._id := fun e => hv u h e.symm
      simp [List.filter_cons, hne, ih hvs h]

theorem lookupUnwind_single {α : Type} (users : List User) (ref : α → Nat) (d : α) (u : User)
    (hnd : (users.map (fun v => v._id)).Nodup) (hu : u ∈ users) (hid : u._id = ref d) :
    lookupUnwind users ref [d] = [(d, u)] := by
  simp only [lookupUnwind, List.flatMap_cons, List.flatMap_nil, List.append_nil]
  rw [← hid, users_filter_id users u hnd hu]
  rfl

/-- C9 (feed order). The feed list of GET /api/feed/social is sorted by
non-increasing createdAt for every store, viewer, page and limit, and the
request succeeds for every limit of at least 1. With exactly one article
A, published at t1, and one media M, public and created at t2 after t1,
both of an existing user, and limit 2, the feed is [M, A]. -/
theorem social_feed_sorted :
    (∀ (s : Store) (userId page limitNum : Nat),
      List.Sorted (fun a b : FeedItem => b.createdAt ≤ a.createdAt)
        (feedOf (socialFeed s userId page limitNum))) ∧
    (∀ (s : Store) (userId page limitNum : Nat), 0 < limitNum →
      (socialFeed s userId page limitNum).isOk = true) ∧
    (∀ (s : Store) (userId page : Nat) (A : Article) (M : Media) (ua um : User),
      s.articles = [A] → s.medias = [M] → A.published = true → M.isPublic = true →
      A.createdAt < M.createdAt → (s.users.map (fun v => v._id)).Nodup →
      ua ∈ s.users → ua._id = A.authorId → um ∈ s.users → um._id = M.uploadedBy →
      (feedOf (socialFeed s userId page 2)).map
          (fun i => (i.toFeedDoc.kind, i._id, i.createdAt)) =
        [("media", M._id, M.createdAt), ("article", A._id, A.createdAt)]) := by
  refine ⟨?_, ?_, ?_⟩
  · intro s userId page limitNum
    rw [feedOf_socialFeed]
    split_ifs
    · exact List.sorted_nil
    · apply List.Pairwise.map (R := newerFirst)
      · intro a b hab
        exact hab
      · exact List.Pairwise.take (List.sorted_insertionSort newerFirst _)
  · intro s userId page limitNum hpos
    unfold socialFeed
    rw [if_neg (by omega)]
    rfl
  · intro s userId page A M ua um hA hM hpub _ hlt hnd hua huaid hum humid
    have hart : socialArticles s 2 = [projectSocialArticle s.contentStats A ua] := by
      unfold socialArticles
      rw [hA, lookupUnwind_single s.users _ A ua hnd hua huaid]
      simp [hpub, sortByCreatedAtDesc, ceilDiv]
    have hmed : socialMedias s 2 = [projectSocialMedia s.contentStats M um] := by
      unfold socialMedias
      rw [hM, lookupUnwind_single s.users _ M um hnd hum humid]
      simp [sortByCreatedAtDesc, ceilDiv]
    have hnot : ¬ newerFirst (projectSocialArticle s.contentStats A ua)
        (projectSocialMedia s.contentStats M um) := by
      show ¬ M.createdAt ≤ A.createdAt
      omega
    have hsort : sortByCreatedAtDesc ([projectSocialArticle s.contentStats A ua] ++
        [projectSocialMedia s.contentStats M um]) =
        [projectSocialMedia s.contentStats M um, projectSocialArticle s.contentStats A ua] := by
      simp [sortByCreatedAtDesc, List.insertionSort, List.orderedInsert, hnot]
    rw [feedOf_socialFeed, hart, hmed, hsort]
    simp [annotateLiked, FeedDoc.kind, projectSocialArticle, projectSocialMedia]

theorem social_feed_sorted_witness :
    (0 < 2 → (socialFeed demoStore 7 1 2).isOk = true) ∧
    (feedOf (socialFeed demoStore 7 1 2)).map
        (fun i => (i.toFeedDoc.kind, i._id, i.createdAt)) =
      [("media", demoMedia._id, demoMedia.createdAt),
        ("article", demoArticle._id, demoArticle.createdAt)] :=
  ⟨social_feed_sorted.2.1 demoStore 7 1 2,
    social_feed_sorted.2.2 demoStore 7 1 demoArticle demoMedia demoUser demoUser rfl rfl rfl rfl
      (by decide) (by decide) (by decide) rfl (by decide) rfl⟩

/-! ## Page and limit of the feed requests -/

theorem readInteger_example :
    readInteger "9007199254740993" = (false, some 9007199254740993) := by decide

theorem roundToDouble_example : roundToDouble 9007199254740993 = some 9007199254740992 := by
  decide

theorem parseInt_example : parseInt "9007199254740993" = .finite 9007199254740992 := by
  simp only [parseInt, readInteger_example, roundToDouble_example]
  rfl

theorem limitStage_invalid (num den : Nat) (limitNum : JsNumber)
    (h : limitNum.invalidLimit = true) : limitStage num den limitNum = none := by
  cases limitNum with
  | nan => rfl
  | infinity negative => rfl
  | finite v =>
    have hv : v ≤ 0 := by simpa [JsNumber.invalidLimit] using h
    have hn : ¬ (0 < v ∧ ceilDiv (num * v.toNat) den < 2 ^ 63) := fun hc => by omega
    simp only [limitStage, hn, if_false]

theorem socialFeedQuery_invalid (s : Store) (userId : Nat) (page limit : Option String)
    (h : (queryInt limit 10).invalidLimit = true) :
    (socialFeedQuery s userId page limit).status = 500 := by
  unfold socialFeedQuery
  cases hq : queryInt limit 10 with
  | nan => rfl
  | infinity negative => rfl
  | finite v =>
    rw [hq] at h
    simp only [limitStage_invalid 1 2 (.finite v) h, if_true]
    rfl

theorem socialFeedQuery_page (s : Store) (userId : Nat) (page limit : Option String) :
    (socialFeedQuery s userId page limit).status = (socialFeedQuery s userId none limit).status ∧
    (socialFeedQuery s userId page limit).isOk = (socialFeedQuery s userId none limit).isOk := by
  unfold socialFeedQuery
  cases queryInt limit 10 with
  | nan => exact ⟨rfl, rfl⟩
  | infinity negative => exact ⟨rfl, rfl⟩
  | finite v =>
    simp only
    split_ifs
    · exact ⟨rfl, rfl⟩
    · cases socialFeed s userId 1 v.toNat with
      | ok status body => exact ⟨rfl, rfl⟩
      | error status message => exact ⟨rfl, rfl⟩

theorem unifiedFeed_page (regexValid : String → Bool) (regexTest : String → String → Bool)
    (s : Store) (userId : Nat) (page page' limitNum : JsNumber)
    (search includeMedia includeArticles : String) :
    (unifiedFeed regexValid regexTest s userId page limitNum search includeMedia
      includeArticles).status =
    (unifiedFeed regexValid regexTest s userId page' limitNum search includeMedia
      includeArticles).status := by
  unfold unifiedFeed
  split_ifs <;> rfl

/-- C11, counterexample. GET /api/feed/social?page=1&limit=abc is answered
with 500 while page=1&limit=20 is answered with 200; the same holds for
limit=0 and limit=-5 and for GET /api/feed/unified; and with page=abc and
limit=1 the feed has one item while page=1&limit=20 returns two. -/
theorem feed_invalid_limit_rejected :
    (socialFeedQuery demoStore 7 (some "1") (some "abc")).status = 500 ∧
    (socialFeedQuery demoStore 7 (some "1") (some "0")).status = 500 ∧
    (socialFeedQuery demoStore 7 (some "1") (some "-5")).status = 500 ∧
    (unifiedFeedQuery (fun _ => true) (fun _ _ => false) demoStore 7 (some "1") (some "abc")
      none none none).status = 500 ∧
    (socialFeedQuery demoStore 7 (some "1") (some "20")).status = 200 ∧
    (unifiedFeedQuery (fun _ => true) (fun _ _ => false) demoStore 7 (some "1") (some "20")
      none none none).status = 200 ∧
    (match socialFeedQuery demoStore 7 (some "abc") (some "1") with
      | .ok _ body => body.feed.length
      | .error _ _ => 0) = 1 ∧
    (match socialFeedQuery demoStore 7 (some "1") (some "20") with
      | .ok _ body => body.feed.length
      | .error _ _ => 0) = 2 := by
  decide

/-- C11, amended. A limit that is non-numeric or non-positive, after the
default for an absent parameter and parseInt, is not replaced by a
default: GET /api/feed/social ends in an internal error (500), and so does
GET /api/feed/unified whenever includeArticles or includeMedia is true
(their default); with both flags set to another value no store query runs
and the answer is 200 with no item, provided search is empty or a valid
regular expression; a search that is not a valid regular expression ends
in 500 whatever the limit. The page never decides whether a request is served:
the status is the one of the same request without a page parameter. The
defaults are those of absent parameters: page 1, limit 10 for GET
/api/feed/social and limit 20 for GET /api/feed/unified. -/
theorem feed_query_limit (regexValid : String → Bool) (regexTest : String → String → Bool)
    (s : Store) (userId : Nat) (page limit search includeMedia includeArticles : Option String) :
    ((queryInt limit 10).invalidLimit = true →
      (socialFeedQuery s userId page limit).status = 500) ∧
    ((queryInt limit 20).invalidLimit = true →
      (includeArticles.getD "true" = "true" ∨ includeMedia.getD "true" = "true") →
      (unifiedFeedQuery regexValid regexTest s userId page limit search includeMedia
        includeArticles).status = 500) ∧
    ((queryInt limit 20).invalidLimit = true →
      includeArticles.getD "true" ≠ "true" → includeMedia.getD "true" ≠ "true" →
      (search.getD "" = "" ∨ regexValid (search.getD "") = true) →
      ∃ body, unifiedFeedQuery regexValid regexTest s userId page limit search includeMedia
          includeArticles = .ok 200 body ∧
        body.articles = [] ∧ body.medias = [] ∧ body.pagination.total = 0) ∧
    (search.getD "" ≠ "" → regexValid (search.getD "") = false →
      (unifiedFeedQuery regexValid regexTest s userId page limit search includeMedia
        includeArticles).status = 500) ∧
    (socialFeedQuery s userId page limit).status =
      (socialFeedQuery s userId none limit).status ∧
    (unifiedFeedQuery regexValid regexTest s userId page limit search includeMedia
        includeArticles).status =
      (unifiedFeedQuery regexValid regexTest s userId none limit search includeMedia
        includeArticles).status ∧
    socialFeedQuery s userId none none = socialFeedQuery s userId (some "1") (some "10") ∧
    unifiedFeedQuery regexValid regexTest s userId none none search includeMedia
        includeArticles =
      unifiedFeedQuery regexValid regexTest s userId (some "1") (some "20") search includeMedia
        includeArticles := by
  have p1 : parseInt "1" = .finite 1 := by decide
  have p10 : parseInt "10" = .finite 10 := by decide
  have p20 : parseInt "20" = .finite 20 := by decide
  refine ⟨socialFeedQuery_invalid s userId page limit, ?_, ?_, ?_,
    (socialFeedQuery_page s userId page limit).1, unifiedFeed_page _ _ _ _ _ _ _ _ _ _, ?_, ?_⟩
  · intro hinv hflag
    have h1 := limitStage_invalid 2 5 _ hinv
    have h2 := limitStage_invalid 1 2 _ hinv
    unfold unifiedFeedQuery unifiedFeed
    by_cases hs : search.getD "" ≠ "" ∧ regexValid (search.getD "") = false
    · rw [if_pos hs]; rfl
    · rw [if_neg hs]
      by_cases ha : includeArticles.getD "true" = "true"
      · rw [if_pos ⟨ha, h1⟩]; rfl
      · rw [if_neg (fun hc => ha hc.1)]
        have hm : includeMedia.getD "true" = "true" := by tauto
        rw [if_pos ⟨hm, h2⟩]; rfl
  · intro _ ha hm hs
    have hs' : ¬ (search.getD "" ≠ "" ∧ regexValid (search.getD "") = false) := by
      rintro ⟨h1, h2⟩
      rcases hs with h | h
      · exact h1 h
      · rw [h] at h2; exact Bool.noConfusion h2
    unfold unifiedFeedQuery unifiedFeed
    rw [if_neg hs', if_neg (fun hc => ha hc.1), if_neg (fun hc => hm hc.1)]
    simp only [ha, hm, if_false]
    exact ⟨_, rfl, rfl, rfl, rfl⟩
  · intro h1 h2
    unfold unifiedFeedQuery unifiedFeed
    rw [if_pos ⟨h1, h2⟩]
    rfl
  · simp [socialFeedQuery, queryInt, p1, p10]
  · simp [unifiedFeedQuery, queryInt, p1, p20]

/-- C11, witness. With limit=abc the parsed limit is invalid: GET
/api/feed/social is answered with 500, and GET /api/feed/unified with both
include flags set to false is answered with 200 and no item. -/
theorem feed_query_limit_witness :
    (queryInt (some "abc") 10).invalidLimit = true ∧
    (socialFeedQuery demoStore 7 (some "2") (some "abc")).status = 500 ∧
    (queryInt (some "abc") 20).invalidLimit = true ∧
    (∃ body, unifiedFeedQuery (fun _ => true) (fun _ _ => false) demoStore 7 (some "2")
        (some "abc") none (some "false") (some "false") = .ok 200 body ∧
      body.articles = [] ∧ body.medias = [] ∧ body.pagination.total = 0) :=
  ⟨by decide,
   (feed_query_limit (fun _ => true) (fun _ _ => false) demoStore 7 (some "2") (some "abc") none
      (some "false") (some "false")).1 (by decide),
   by decide,
   (feed_query_limit (fun _ => true) (fun _ _ => false) demoStore 7 (some "2") (some "abc") none
      (some "false") (some "false")).2.2.1 (by decide) (by decide) (by decide)
      (Or.inl rfl)⟩

/-! ## Validation and existence check of toggleLike -/

/-- C12 (toggleLike validation). Whatever req.userId holds, toggleLike
answers 400 exactly when targetType or targetId is absent (or empty) or
targetType is not one of article, media, comment; with one of these three
kinds and a targetId the answer is never 400. -/
theorem toggleLike_validation (s : Store) (u : Option Nat) (tto : Option String)
    (tido : Option Nat) :
    ((toggleLike s u tto tido).2.status = 400 ↔
      (tto = none ∨ tido = none ∨
        ∃ tt, tto = some tt ∧ ¬ (tt = "article" ∨ tt = "media" ∨ tt = "comment"))) ∧
    (∀ tid, (toggleLike s u (some "article") (some tid)).2.status ≠ 400 ∧
      (toggleLike s u (some "media") (some tid)).2.status ≠ 400 ∧
      (toggleLike s u (some "comment") (some tid)).2.status ≠ 400) := by
  have main : ∀ (tto : Option String) (tido : Option Nat),
      (toggleLike s u tto tido).2.status = 400 ↔
      (tto = none ∨ tido = none ∨
        ∃ tt, tto = some tt ∧ ¬ (tt = "article" ∨ tt = "media" ∨ tt = "comment")) := by
    intro tto tido
    cases tto with
    | none => simp [toggleLike, Result.status]
    | some tt =>
      cases tido with
      | none => simp [toggleLike, Result.status]
      | some tid =>
        simp only [toggleLike]
        by_cases hv : tt = "article" ∨ tt = "media" ∨ tt = "comment"
        · have hne : tt ≠ "" := by
            rcases hv with h | h | h <;> rw [h] <;> decide
          have hc : ["article", "media", "comment"].contains tt = true := by
            rcases hv with h | h | h <;> rw [h] <;> decide
          simp only [hne, if_false, hc, Bool.not_true, Bool.false_eq_true]
          cases u <;> split_ifs <;> simp [Result.status] <;> tauto
        · have hc : ["article", "media", "comment"].contains tt = false := by
            simp only [not_or] at hv
            simp [hv.1, hv.2.1, hv.2.2]
          split_ifs <;> simp_all [Result.status]
  refine ⟨main tto tido, fun tid => ⟨?_, ?_, ?_⟩⟩
  · rw [Ne, main]; simp
  · rw [Ne, main]; simp
  · rw [Ne, main]; simp

/-- C13 (toggleLike not found, no partial mutation). Whatever req.userId
holds, with a kind among article, media, comment and a target id that the
collection of that kind does not hold, toggleLike answers 404; and
whenever toggleLike answers with an error, the whole store, Like and
ContentStats collections included, is the one before the call, and the
status is 400 or 404, or 500 when req.userId is undefined. -/
theorem toggleLike_not_found (s : Store) (u : Option Nat) :
    (∀ (tt : String) (tid : Nat), (tt = "article" ∨ tt = "media" ∨ tt = "comment") →
      likeTargetExists s tt tid = false →
      toggleLike s u (some tt) (some tid) = (s, .error 404 "Contenu non trouvé")) ∧
    (∀ (tto : Option String) (tido : Option Nat), (toggleLike s u tto tido).2.isOk = false →
      ((toggleLike s u tto tido).2.status = 400 ∨ (toggleLike s u tto tido).2.status = 404 ∨
        (u = none ∧ (toggleLike s u tto tido).2.status = 500)) ∧
      (toggleLike s u tto tido).1 = s ∧
      (toggleLike s u tto tido).1.likes = s.likes ∧
      (toggleLike s u tto tido).1.contentStats = s.contentStats) := by
  constructor
  · intro tt tid hv hex
    have hne : tt ≠ "" := by
      rcases hv with h | h | h <;> rw [h] <;> decide
    have hc : ["article", "media", "comment"].contains tt = true := by
      rcases hv with h | h | h <;> rw [h] <;> decide
    simp only [toggleLike, hne, if_false, hc, Bool.not_true, Bool.false_eq_true, hex,
      Bool.not_false, if_true]
  · intro tto tido hfail
    have hs := toggleLike_error_unchanged s u tto tido hfail
    refine ⟨?_, hs, by rw [hs], by rw [hs]⟩
    cases tto with
    | none => exact Or.inl rfl
    | some tt =>
      cases tido with
      | none => exact Or.inl rfl
      | some tid =>
        cases u with
        | none =>
          simp only [toggleLike]
          split_ifs
          · exact Or.inl rfl
          · exact Or.inl rfl
          · exact Or.inr (Or.inl rfl)
          · exact Or.inr (Or.inr ⟨trivial, rfl⟩)
        | some uid =>
          simp only [toggleLike] at hfail ⊢
          split_ifs at hfail ⊢
          · exact Or.inl rfl
          · exact Or.inl rfl
          · exact Or.inr (Or.inl rfl)
          · simp [Result.isOk] at hfail

theorem toggleLike_not_found_witness :
    toggleLike demoStore none (some "media") (some 99) =
      (demoStore, .error 404 "Contenu non trouvé") ∧
    (toggleLike demoStore none (some "video") (some 1)).1 = demoStore :=
  ⟨(toggleLike_not_found demoStore none).1 "media" 99 (by decide) (by decide),
    ((toggleLike_not_found demoStore none).2 (some "video") (some 1) (by decide)).2.1⟩

/-! ## Validation of createComment -/

theorem createComment_none_of_valid (s : Store) (text tt : String) (tid : Nat)
    (parent : Option Nat) (newId now : Nat) (ht : text ≠ "") (hl : jsLength text ≤ 1000)
    (hv : tt = "article" ∨ tt = "media") (hex : commentTargetExists s tt tid = true)
    (hp : ∀ pid, parent = some pid → ∃ p, findCommentById s.comments pid = some p) :
    createComment s none (some text) (some tt) (some tid) parent newId now =
      (s, .error 500 "Comment validation failed: authorId: Path authorId is required.") := by
  have hne : tt ≠ "" := by
    rcases hv with h | h <;> rw [h] <;> decide
  have hc : ["article", "media"].contains tt = true := by
    rcases hv with h | h <;> rw [h] <;> decide
  have hlen : ¬ jsLength text > 1000 := by omega
  cases parent with
  | none =>
    simp only [createComment, ht, hne, hc, hlen, hex, decide_False, Bool.or_self,
      Bool.false_eq_true, if_false, Bool.not_true]
  | some pid =>
    obtain ⟨p, hp'⟩ := hp pid rfl
    simp only [createComment, ht, hne, hc, hlen, hex, hp', Option.isNone_some,
      decide_False, Bool.or_self, Bool.false_eq_true, if_false, Bool.not_true]

theorem jsLength_replicate (n : Nat) :
    jsLength (String.mk (List.replicate n (Char.ofNat 97))) = n := by
  have hc : (Char.ofNat 97).toNat < 65536 := by decide
  simp [jsLength, String.toList, List.map_replicate, List.sum_replicate, hc]

theorem createComment_invalid (s : Store) (authorId : Option Nat) (content tto : Option String)
    (tido parent : Option Nat) (newId now : Nat)
    (hbad : content = none ∨ content = some "" ∨ (∃ t, content = some t ∧ jsLength t > 1000) ∨
      (∀ tt, tto = some tt → ¬ (tt = "article" ∨ tt = "media"))) :
    (createComment s authorId content tto tido parent newId now).2.status = 400 ∧
    (createComment s authorId content tto tido parent newId now).1 = s := by
  have hst : (createComment s authorId content tto tido parent newId now).2.status = 400 := by
    cases content with
    | none => rfl
    | some text =>
      cases tto with
      | none => rfl
      | some tt =>
        cases tido with
        | none => rfl
        | some tid =>
          simp only [createComment]
          split_ifs with h1 h2 h3 h4 h5
          · rfl
          · rfl
          · rfl
          all_goals
            exfalso
            rcases hbad with h | h | ⟨t, h, hlen⟩ | h
            · simp at h
            · simp only [Option.some.injEq] at h
              simp [h] at h1
            · simp only [Option.some.injEq] at h
              subst h
              exact h3 hlen
            · have hc : ¬ (tt = "article" ∨ tt = "media") := h tt rfl
              simp only [not_or] at hc
              simp [hc.1, hc.2] at h2
  refine ⟨hst, createComment_error_unchanged s authorId content tto tido parent newId now ?_⟩
  cases hr : (createComment s authorId content tto tido parent newId now).2 with
  | ok status body =>
    rw [hr] at hst
    have hok : (createComment s authorId content tto tido parent newId now).2.isOk = true := by
      rw [hr]; rfl
    obtain ⟨a, text, tt, tid, rfl, rfl, rfl, rfl, hv, hne, hlen, _, _, _, _⟩ :=
      createComment_ok s authorId content tto tido parent newId now hok
    rcases hbad with h | h | ⟨t, h, hl⟩ | h
    · simp at h
    · simp only [Option.some.injEq] at h
      exact absurd h hne
    · simp only [Option.some.injEq] at h
      subst h
      omega
    · exact absurd hv (h tt rfl)
  | error status message => rfl

/-- C14 (createComment validation). Whatever req.userId holds,
createComment answers 400 and leaves the store as it is whenever the
content is absent or empty, the content is longer than 1000 characters
(UTF-16 code units, as content.length counts them), or targetType is not
article or media. A content of exactly 1000 characters is not accepted by
POST /api/comments: sent by user 7 on the existing article 1 it is
answered with 500 and no Comment record is created, because the handler
reads an undefined req.userId behind authMiddleware; the route never
answers with its success response and never changes the store. -/
theorem comment_route_always_fails :
    (∀ (s : Store) (authorId : Option Nat) (content tto : Option String)
        (tido parent : Option Nat) (newId now : Nat),
      (content = none ∨ content = some "" ∨ (∃ t, content = some t ∧ jsLength t > 1000) ∨
        (∀ tt, tto = some tt → ¬ (tt = "article" ∨ tt = "media"))) →
      (createComment s authorId content tto tido parent newId now).2.status = 400 ∧
      (createComment s authorId content tto tido parent newId now).1 = s) ∧
    jsLength thousandChars = 1000 ∧
    postComments demoStore demoVerify (some "tok") (some thousandChars) (some "article")
        (some 1) none 100 30 =
      (demoStore,
        .error 500 "Comment validation failed: authorId: Path authorId is required.") ∧
    (∀ (s : Store) (jwtVerify : String → Option Nat) (token : Option String)
        (content tto : Option String) (tido parent : Option Nat) (newId now : Nat),
      (postComments s jwtVerify token content tto tido parent newId now).2.isOk = false ∧
      (postComments s jwtVerify token content tto tido parent newId now).1 = s) := by
  have hlen : jsLength thousandChars = 1000 := jsLength_replicate 1000
  refine ⟨createComment_invalid, hlen, ?_, postComments_fails⟩
  have hauth : authMiddleware demoStore.users demoVerify (incomingRequest (some "tok")) =
      .next { token := some "tok", user := some demoUser, userId := none } := by decide
  have hne : thousandChars ≠ "" := by
    intro h
    rw [h] at hlen
    simp [jsLength] at hlen
  simp only [postComments, hauth, handlerUserId]
  exact createComment_none_of_valid demoStore thousandChars "article" 1 none 100 30 hne
    (by omega) (Or.inl rfl) (by decide) (fun pid hp => by simp at hp)

/-- C15 (missing parent). Whatever req.userId holds, createComment with a
parentCommentId that names no Comment never succeeds and leaves the whole store as it is (no Comment
record, no repliesCount and no ContentStats entry changes); when the body
passes validation (content non-empty and at most 1000 characters,
targetType article or media, targetId present) the answer is 404. -/
theorem createComment_missing_parent (s : Store) (a : Option Nat) (content tto : Option String)
    (tido : Option Nat) (pid newId now : Nat) (h : findCommentById s.comments pid = none) :
    (createComment s a content tto tido (some pid) newId now).2.isOk = false ∧
    (createComment s a content tto tido (some pid) newId now).1 = s ∧
    ((createComment s a content tto tido (some pid) newId now).2.status = 400 ∨
      (createComment s a content tto tido (some pid) newId now).2.status = 404) ∧
    (∀ (text tt : String) (tid : Nat), content = some text → tto = some tt → tido = some tid →
      text ≠ "" → jsLength text ≤ 1000 → (tt = "article" ∨ tt = "media") →
      (createComment s a content tto tido (some pid) newId now).2.status = 404) := by
  have hfail : (createComment s a content tto tido (some pid) newId now).2.isOk = false := by
    cases hok : (createComment s a content tto tido (some pid) newId now).2.isOk with
    | false => rfl
    | true =>
      obtain ⟨_, _, _, _, _, _, _, _, _, _, _, _, hp, _⟩ :=
        createComment_ok s a content tto tido (some pid) newId now hok
      obtain ⟨p, hp'⟩ := hp pid rfl
      rw [h] at hp'
      simp at hp'
  have hstat : ∀ (text tt : String) (tid : Nat),
      ((createComment s a (some text) (some tt) (some tid) (some pid) newId now).2.status = 400 ∨
        (createComment s a (some text) (some tt) (some tid) (some pid) newId now).2.status =
          404) ∧
      (text ≠ "" → jsLength text ≤ 1000 → (tt = "article" ∨ tt = "media") →
        (createComment s a (some text) (some tt) (some tid) (some pid) newId now).2.status =
          404) := by
    intro text tt tid
    simp only [createComment, h, Option.isNone_none, if_true]
    split_ifs with h1 h2 h3 h4
    · refine ⟨Or.inl rfl, ?_⟩
      intro ht _ hv
      exfalso
      have hne : tt ≠ "" := by
        rcases hv with e | e <;> rw [e] <;> decide
      simp [ht, hne] at h1
    · refine ⟨Or.inl rfl, ?_⟩
      intro _ _ hv
      exfalso
      rcases hv with e | e <;> simp [e] at h2
    · refine ⟨Or.inl rfl, ?_⟩
      intro _ hl _
      omega
    · exact ⟨Or.inr rfl, fun _ _ _ => rfl⟩
    · exact ⟨Or.inr rfl, fun _ _ _ => rfl⟩
  refine ⟨hfail, createComment_error_unchanged _ _ _ _ _ _ _ _ hfail, ?_, ?_⟩
  · cases content with
    | none => exact Or.inl rfl
    | some text =>
      cases tto with
      | none => exact Or.inl rfl
      | some tt =>
        cases tido with
        | none => exact Or.inl rfl
        | some tid => exact (hstat text tt tid).1
  · intro text tt tid h1 h2 h3 ht hl hv
    subst h1 h2 h3
    exact (hstat text tt tid).2 ht hl hv

theorem createComment_missing_parent_witness :
    findCommentById demoStore.comments 55 = none ∧
    (createComment demoStore none (some "reply") (some "article") (some 1) (some 55) 100
      30).2.status = 404 ∧
    (createComment demoStore none (some "reply") (some "article") (some 1) (some 55) 100
      30).1 = demoStore :=
  have h := createComment_missing_parent demoStore none (some "reply") (some "article")
    (some 1) 55 100 30 rfl
  ⟨rfl, h.2.2.2 "reply" "article" 1 rfl rfl rfl (by decide) (by decide) (Or.inl rfl), h.2.1⟩

/-! ## Records other than the one rewritten -/

theorem find_updateFirst_of_disjoint {α : Type} (p q : α → Bool) (f : α → α) (l : List α)
    (hd : ∀ x, p x = true → q x = false ∧ q (f x) = false) :
    (updateFirst p f l).find? q = l.find? q := by
  induction l with
  | nil => rfl
  | cons x xs ih =>
    by_cases hx : p x = true
    · obtain ⟨h1, h2⟩ := hd x hx
      simp [updateFirst, hx, List.find?, h1, h2]
    · by_cases hq : q x = true
      · simp [updateFirst, hx, List.find?, hq]
      · simp [updateFirst, hx, List.find?, hq, ih]

theorem mem_updateFirst_of_not {α : Type} (p : α → Bool) (f : α → α) (l : List α) (d : α)
    (hd : d ∈ l) (hp : p d = false) : d ∈ updateFirst p f l := by
  induction l with
  | nil => simp at hd
  | cons x xs ih =>
    by_cases hx : p x = true
    · rcases List.mem_cons.mp hd with h | h
      · subst h
        rw [hp] at hx
        exact absurd hx Bool.false_ne_true
      · simp [updateFirst, hx, h]
    · rcases List.mem_cons.mp hd with h | h
      · subst h
        simp [updateFirst, hx]
      · simp [updateFirst, hx, ih h]

theorem upsertStats_find (cs : List ContentStats) (tt : String) (tid : Nat) (lc cc : Nat) :
    ∃ e, (upsertStats cs tt tid lc cc).find? (statsMatches tt tid) = some e ∧
      e.contentType = tt ∧ e.contentId = tid ∧ e.likesCount = lc ∧ e.commentsCount = cc := by
  unfold upsertStats
  by_cases hany : cs.any (statsMatches tt tid) = true
  · obtain ⟨x, hx⟩ := find_of_any hany
    have hxm := List.find?_some hx
    have hk := (statsMatches_iff tt tid x).mp hxm
    simp only [statsKey, Prod.mk.injEq] at hk
    rw [if_pos hany]
    refine ⟨_, find_updateFirst hx ?_, hk.1, hk.2, rfl, rfl⟩
    exact (statsMatches_iff tt tid _).mpr ((statsMatches_iff tt tid x).mp hxm)
  · rw [if_neg hany]
    have hnone : cs.find? (statsMatches tt tid) = none := by
      rw [List.find?_eq_none]
      intro x hx hm
      exact hany (List.any_eq_true.mpr ⟨x, hx, hm⟩)
    exact ⟨_, find_append_of_none _ _ _ hnone ((statsMatches_iff tt tid _).mpr rfl), rfl, rfl,
      rfl, rfl⟩

/-! ## repliesCount -/

/-- C16 (repliesCount). POST /api/comments never creates a comment, so no
repliesCount is ever incremented. From a store without comments, the
comment of user 7 on the article 1 is answered with 500 and the reply of
user 9 to it with 404, the parent not being there; and on a store that
holds the comment 100 of user 7, the reply of user 9 is answered with 500:
the repliesCount of the parent stays 0 and the commentsCount of the
article stays 1, where a reply would make them 1 and 2. -/
theorem reply_route_always_fails :
    postComments adminStore demoVerify (some "tok") (some "hello") (some "article") (some 1)
        none 100 30 =
      (adminStore,
        .error 500 "Comment validation failed: authorId: Path authorId is required.") ∧
    postComments adminStore demoVerify (some "adm") (some "reply") (some "article") (some 1)
        (some 100) 101 31 =
      (adminStore, .error 404 "Commentaire parent non trouvé") ∧
    postComments twoUserStore demoVerify (some "adm") (some "reply") (some "article") (some 1)
        (some 100) 101 31 =
      (twoUserStore,
        .error 500 "Comment validation failed: authorId: Path authorId is required.") ∧
    (findCommentById twoUserStore.comments 100).map (fun c => c.repliesCount) = some 0 ∧
    (twoUserStore.contentStats.find? (statsMatches "article" 1)).map
        (fun e => e.commentsCount) = some 1 ∧
    (∀ (s : Store) (jwtVerify : String → Option Nat) (token : Option String)
        (content tto : Option String) (tido parent : Option Nat) (newId now : Nat),
      (postComments s jwtVerify token content tto tido parent newId now).2.isOk = false ∧
      (postComments s jwtVerify token content tto tido parent newId now).1 = s) := by
  refine ⟨by decide, by decide, by decide, by decide, by decide, postComments_fails⟩

/-! ## Soft delete -/

theorem deleteComment_none_of_found (s : Store) (cid now : Nat) (c : Comment)
    (hc : findCommentById s.comments cid = some c) :
    deleteComment s none cid now =
      (s, .error 403 "Vous ne pouvez supprimer que vos propres commentaires") := by
  simp [deleteComment, hc]

theorem findCommentById_markDeleted (comments : List Comment) (cid now : Nat) (c : Comment)
    (hc : findCommentById comments cid = some c) :
    findCommentById (markDeleted comments cid now) cid =
      some { c with isDeleted := true, deletedAt := some now } := by
  simp only [markDeleted, findCommentById]
  exact find_updateFirst hc (by simpa using List.find?_some hc)

theorem findCommentById_markDeleted_other (comments : List Comment) (cid now q : Nat)
    (hq : q ≠ cid) :
    findCommentById (markDeleted comments cid now) q = findCommentById comments q := by
  simp only [markDeleted, findCommentById]
  apply find_updateFirst_of_disjoint
  intro x hx
  have hxp : x._id = cid := by simpa using hx
  constructor
  · simp [hxp, Ne.symm hq]
  · simp [hxp, Ne.symm hq]

/-- C17 (soft delete). Whatever req.userId holds, a deleteComment call that
succeeds is a soft delete: the Comment record of that id is still there,
with isDeleted true, deletedAt set to the time of the call and every other
field (content, authorId, targetType, targetId, parentCommentId among
them) as before. Every call, successful or not, keeps the length of the
collection and the id, content, authorId, targetType, targetId and
parentCommentId of each record in place and leaves every record of
another id unchanged; a call that fails leaves the whole store as it is.
With req.userId undefined, as authMiddleware leaves it, the call
fails. -/
theorem deleteComment_soft (s : Store) (userId : Option Nat) (cid now : Nat) :
    ((deleteComment s userId cid now).2.isOk = true →
      ∃ c, findCommentById s.comments cid = some c ∧
        (∃ c', findCommentById (deleteComment s userId cid now).1.comments cid = some c' ∧
          c' = { c with isDeleted := true, deletedAt := some now } ∧
          c'.isDeleted = true ∧ c'.deletedAt = some now ∧ c'.content = c.content ∧
          c'.authorId = c.authorId ∧ c'.targetType = c.targetType ∧
          c'.targetId = c.targetId ∧ c'.parentCommentId = c.parentCommentId)) ∧
    ((deleteComment s userId cid now).2.isOk = false → (deleteComment s userId cid now).1 = s) ∧
    (deleteComment s userId cid now).1.comments.length = s.comments.length ∧
    (deleteComment s userId cid now).1.comments.map
        (fun d => (d._id, d.content, d.authorId, d.targetType, d.targetId,
          d.parentCommentId)) =
      s.comments.map
        (fun d => (d._id, d.content, d.authorId, d.targetType, d.targetId,
          d.parentCommentId)) ∧
    (∀ q d, q ≠ cid → findCommentById s.comments q = some d →
      findCommentById (deleteComment s userId cid now).1.comments q = some d) ∧
    (∀ d ∈ s.comments, d._id ≠ cid → d ∈ (deleteComment s userId cid now).1.comments) ∧
    ((deleteComment s none cid now).2.isOk = false ∧ (deleteComment s none cid now).1 = s) := by
  cases hok : (deleteComment s userId cid now).2.isOk with
  | false =>
    have hs := deleteComment_error_unchanged s userId cid now hok
    rw [hs]
    exact ⟨fun h => by simp at h, fun _ => rfl, rfl, rfl, fun q d _ hd => hd,
      fun d hd _ => hd, deleteComment_none s cid now⟩
  | true =>
    obtain ⟨c, hc, _, heq⟩ := deleteComment_ok s userId cid now hok
    have hcomments : (deleteComment s userId cid now).1.comments =
        markDeleted s.comments cid now := by
      rw [heq]; rfl
    rw [hcomments]
    refine ⟨fun _ => ⟨c, hc, _, findCommentById_markDeleted _ _ _ _ hc, rfl, rfl, rfl, rfl,
      rfl, rfl, rfl, rfl⟩, fun h => by simp at h, ?_, ?_, ?_, ?_, deleteComment_none s cid now⟩
    · exact length_updateFirst _ _ _
    · exact map_updateFirst
        (fun d : Comment => (d._id, d.content, d.authorId, d.targetType, d.targetId,
          d.parentCommentId)) _
        (fun c : Comment => { c with isDeleted := true, deletedAt := some now }) _
        (fun _ => rfl)
    · intro q d hq hd
      rw [findCommentById_markDeleted_other _ _ _ _ hq]
      exact hd
    · intro d hd hne
      apply mem_updateFirst_of_not _ _ _ _ hd
      simpa using hne

theorem deleteComment_soft_witness :
    (deleteComment commentedStore none 100 40).1.comments.length =
      commentedStore.comments.length ∧
    (deleteComment commentedStore none 100 40).2.isOk = false ∧
    (deleteComment commentedStore none 100 40).1 = commentedStore :=
  ⟨(deleteComment_soft commentedStore none 100 40).2.2.1,
    (deleteComment_soft commentedStore none 100 40).2.2.2.2.2.2⟩

/-- C18 (ownership of deleteComment). DELETE /api/comments/:commentId
answers 403 for every existing comment, also when the requester is its
author: behind authMiddleware the handler compares the author id with an
undefined req.userId. User 7, the author of the comment 100, gets 403 and
the comment is not deleted; the route never answers with its success
response and never changes the store. -/
theorem author_delete_forbidden :
    (demoComment.authorId = 7 ∧
      authMiddleware commentedStore.users demoVerify (incomingRequest (some "tok")) =
        .next { token := some "tok", user := some demoUser, userId := none } ∧
      findCommentById commentedStore.comments 100 = some demoComment ∧
      deleteComments commentedStore demoVerify (some "tok") 100 40 =
        (commentedStore,
          .error 403 "Vous ne pouvez supprimer que vos propres commentaires")) ∧
    (∀ (s : Store) (jwtVerify : String → Option Nat) (token : Option String) (req : Request)
        (cid now : Nat) (c : Comment),
      authMiddleware s.users jwtVerify (incomingRequest token) = .next req →
      findCommentById s.comments cid = some c →
      deleteComments s jwtVerify token cid now =
        (s, .error 403 "Vous ne pouvez supprimer que vos propres commentaires")) ∧
    (∀ (s : Store) (jwtVerify : String → Option Nat) (token : Option String) (cid now : Nat),
      (deleteComments s jwtVerify token cid now).2.isOk = false ∧
      (deleteComments s jwtVerify token cid now).1 = s) := by
  refine ⟨by decide, ?_, deleteComments_fails⟩
  intro s jwtVerify token req cid now c hauth hc
  simp only [deleteComments, hauth, handlerUserId_of_next _ _ _ _ hauth]
  exact deleteComment_none_of_found s cid now c hc

/-! ## Soft-deleted comments in counts and listings -/

theorem commentMatches_deleted (k : String) (i : Nat) (parentId : Option Nat) (c : Comment)
    (h : c.isDeleted = true) : commentMatches k i parentId c = false := by
  simp [commentMatches, h]

theorem countComments_deleted (l1 l2 : List Comment) (c : Comment) (k : String) (i : Nat)
    (h : c.isDeleted = true) :
    countComments (l1 ++ c :: l2) k i = countComments (l1 ++ l2) k i := by
  simp [countComments, List.countP_append, List.countP_cons, h]

theorem getComments_deleted (s : Store) (userId : Nat) (k : String) (i : Nat)
    (page limit : Option String) (parentId : Option Nat) (l1 l2 : List Comment) (c : Comment)
    (hs : s.comments = l1 ++ c :: l2) (h : c.isDeleted = true) :
    getComments s userId k i page limit parentId =
      getComments { s with comments := l1 ++ l2 } userId k i page limit parentId := by
  have hm := commentMatches_deleted k i parentId c h
  have hne : ¬ commentMatches k i parentId c = true := by rw [hm]; exact Bool.false_ne_true
  have hf : s.comments.filter (commentMatches k i parentId) =
      (l1 ++ l2).filter (commentMatches k i parentId) := by
    rw [hs, List.filter_append, List.filter_append, List.filter_cons_of_neg hne]
  have hcnt : s.comments.countP (commentMatches k i parentId) =
      (l1 ++ l2).countP (commentMatches k i parentId) := by
    rw [List.countP_eq_length_filter, List.countP_eq_length_filter, hf]
  unfold getComments
  simp only [hf, hcnt]

theorem mem_getComments (s : Store) (userId : Nat) (k : String) (i : Nat)
    (page limit : Option String) (parentId : Option Nat) (status : Nat)
    (body : CommentsResponse)
    (h : getComments s userId k i page limit parentId = .ok status body) :
    (∀ item ∈ body.comments, ∃ c ∈ s.comments, c._id = item._id ∧ c.isDeleted = false ∧
      c.targetType = k ∧ c.targetId = i ∧ item.content = c.content) ∧
    body.totalComments = (s.comments.filter (fun c => decide (c.targetType = k) &&
      decide (c.targetId = i) && decide (c.parentCommentId = parentId) &&
      decide (c.isDeleted = false))).length := by
  unfold getComments at h
  cases hp : queryInt page 1 with
  | nan => simp [hp] at h
  | infinity negative => simp [hp] at h
  | finite pageNum =>
    cases hl : queryInt limit 20 with
    | nan => simp [hp, hl] at h
    | infinity negative => simp [hp, hl] at h
    | finite limitNum =>
      simp only [hp, hl] at h
      split_ifs at h with h1 h2
      simp only [Result.ok.injEq] at h
      obtain ⟨_, hb⟩ := h
      subst hb
      constructor
      · intro item hitem
        have h3 := List.mem_of_mem_take hitem
        have h4 := List.mem_of_mem_drop h3
        have h5 := (List.mem_insertionSort _).mp h4
        obtain ⟨p, hp1, rfl⟩ := List.mem_map.mp h5
        obtain ⟨hc, _, _⟩ := (mem_lookupUnwind _ _ _ p.1 p.2).mp hp1
        obtain ⟨hmem, hmatch⟩ := List.mem_filter.mp hc
        simp only [commentMatches, Bool.and_eq_true, decide_eq_true_eq, Bool.not_eq_true'] at hmatch
        exact ⟨p.1, hmem, rfl, hmatch.1.2, hmatch.1.1.1, hmatch.1.1.2, rfl⟩
      · show List.countP _ _ = _
        rw [List.countP_eq_length_filter]
        congr 1
        apply List.filter_congr
        intro c _
        simp only [commentMatches]
        cases c.isDeleted <;> simp

theorem getStats_first_read (s : Store) (u : Nat) (k : String) (i : Nat)
    (hnone : s.contentStats.find? (statsMatches k i) = none) (hk : k = "article" ∨ k = "media") :
    ∃ e, (getStats s u k i).1.contentStats.find? (statsMatches k i) = some e ∧
      (getStats s u k i).1.contentStats = s.contentStats ++ [e] ∧
      e.likesCount = countLikes s.likes k i ∧
      e.commentsCount = countComments s.comments k i ∧ e.viewsCount = 0 ∧ e.sharesCount = 0 := by
  have hc : ["article", "media"].contains k = true := by
    rcases hk with h | h <;> rw [h] <;> decide
  simp only [getStats, hnone, hc, Bool.not_true, Bool.false_eq_true, if_false]
  exact ⟨_, find_append_of_none _ _ _ hnone ((statsMatches_iff k i _).mpr rfl), rfl, rfl, rfl,
    rfl, rfl⟩

/-- C19 (soft-delete exclusion). A Comment record with isDeleted true has
no part in the counts and listings: the commentsCount that
updateContentStats writes for a target, and the one the first stats read
writes, is the count of the collection without that record; the response
of GET /api/comments/:targetType/:targetId, list and totalComments, is the
one of the collection without that record, for every page, limit and
parentId; every item listed comes from a record with isDeleted false and
totalComments counts such records only. -/
theorem soft_delete_exclusion (s : Store) (l1 l2 : List Comment) (c : Comment)
    (hs : s.comments = l1 ++ c :: l2) (hdel : c.isDeleted = true) :
    (∀ k i, ∃ e, (updateContentStats s k i).contentStats.find? (statsMatches k i) = some e ∧
      e.commentsCount = countComments (l1 ++ l2) k i) ∧
    (∀ u k i, s.contentStats.find? (statsMatches k i) = none → (k = "article" ∨ k = "media") →
      ∃ e, (getStats s u k i).1.contentStats.find? (statsMatches k i) = some e ∧
        e.commentsCount = countComments (l1 ++ l2) k i) ∧
    (∀ u k i page limit parentId,
      getComments s u k i page limit parentId =
        getComments { s with comments := l1 ++ l2 } u k i page limit parentId) ∧
    (∀ u k i page limit parentId status body,
      getComments s u k i page limit parentId = .ok status body →
      (∀ item ∈ body.comments, ∃ d ∈ s.comments, d._id = item._id ∧ d.isDeleted = false ∧
        d.targetType = k ∧ d.targetId = i ∧ item.content = d.content) ∧
      body.totalComments = (s.comments.filter (fun d => decide (d.targetType = k) &&
        decide (d.targetId = i) && decide (d.parentCommentId = parentId) &&
        decide (d.isDeleted = false))).length) := by
  refine ⟨?_, ?_, ?_, ?_⟩
  · intro k i
    obtain ⟨e, he, _, _, _, hcc⟩ := upsertStats_find s.contentStats k i (countLikes s.likes k i)
      (countComments s.comments k i)
    refine ⟨e, he, ?_⟩
    rw [hcc, hs, countComments_deleted _ _ _ _ _ hdel]
  · intro u k i hnone hk
    obtain ⟨e, he, _, _, hcc, _⟩ := getStats_first_read s u k i hnone hk
    refine ⟨e, he, ?_⟩
    rw [hcc, hs, countComments_deleted _ _ _ _ _ hdel]
  · intro u k i page limit parentId
    exact getComments_deleted s u k i page limit parentId l1 l2 c hs hdel
  · intro u k i page limit parentId status body h
    exact mem_getComments s u k i page limit parentId status body h

theorem soft_delete_exclusion_witness :
    deletedCommentStore.comments = [] ++ deletedComment :: [] ∧ deletedComment.isDeleted = true ∧
    (∃ e, (updateContentStats deletedCommentStore "article" 1).contentStats.find?
        (statsMatches "article" 1) = some e ∧
      e.commentsCount = countComments ([] ++ []) "article" 1) ∧
    getComments deletedCommentStore 7 "article" 1 none none none =
      getComments { deletedCommentStore with comments := [] ++ [] } 7 "article" 1 none none
        none :=
  have h := soft_delete_exclusion deletedCommentStore [] [] deletedComment rfl rfl
  ⟨rfl, rfl, h.1 "article" 1, h.2.2.1 7 "article" 1 none none none⟩

/-! ## Liking a soft-deleted comment -/

/-- C20 (liking a soft-deleted comment). For every comment c of the store,
soft-deleted or not, and every requester, POST /api/likes on (comment, c)
does not succeed and leaves the store, its Like collection included, as it
is: no Like record is created and none is activated. When the request
passes authMiddleware the answer is 500, the handler reading an undefined
req.userId. -/
theorem deleted_comment_not_liked (s : Store) (jwtVerify : String → Option Nat)
    (token : Option String) (c : Comment) (hc : c ∈ s.comments) :
    (postLikes s jwtVerify token (some "comment") (some c._id)).2.isOk = false ∧
    (postLikes s jwtVerify token (some "comment") (some c._id)).1 = s ∧
    (postLikes s jwtVerify token (some "comment") (some c._id)).1.likes = s.likes ∧
    (∀ req, authMiddleware s.users jwtVerify (incomingRequest token) = .next req →
      postLikes s jwtVerify token (some "comment") (some c._id) =
        (s, .error 500 "Like validation failed: userId: Path userId is required.")) := by
  have h := postLikes_fails s jwtVerify token (some "comment") (some c._id)
  refine ⟨h.1, h.2, by rw [h.2], ?_⟩
  intro req hauth
  have hex : likeTargetExists s "comment" c._id = true := by
    have h1 : ¬ ("comment" = "article") := by decide
    have h2 : ¬ ("comment" = "media") := by decide
    simp only [likeTargetExists, h1, h2, if_false, if_true]
    exact List.any_eq_true.mpr ⟨c, hc, by simp⟩
  simp only [postLikes, hauth, handlerUserId_of_next _ _ _ _ hauth]
  exact toggleLike_none_of_exists s "comment" c._id hex

theorem deleted_comment_not_liked_witness :
    deletedComment ∈ deletedCommentStore.comments ∧ deletedComment.isDeleted = true ∧
    postLikes deletedCommentStore demoVerify (some "tok") (some "comment")
        (some deletedComment._id) =
      (deletedCommentStore,
        .error 500 "Like validation failed: userId: Path userId is required.") :=
  ⟨by decide, rfl,
    (deleted_comment_not_liked deletedCommentStore demoVerify (some "tok") deletedComment
      (by decide)).2.2.2 { token := some "tok", user := some demoUser, userId := none }
      (by decide)⟩

/-! ## The stats read -/

/-- C21, counterexample. The comment 100 exists and (comment, 100) has no
ContentStats entry, yet the stats read answers 500 instead of a zero
entry; and for the article 1, which has an active Like of user 7 and no
entry, the stats read returns likesCount 1, not 0. -/
theorem stats_read_not_zero :
    commentedStore.contentStats.find? (statsMatches "comment" 100) = none ∧
    (getStats commentedStore 7 "comment" 100).2.status = 500 ∧
    unsyncedStore.likes =
      [{ userId := 7, targetType := "article", targetId := 1, isActive := true }] ∧
    unsyncedStore.contentStats.find? (statsMatches "article" 1) = none ∧
    (match (getStats unsyncedStore 7 "article" 1).2 with
      | .ok _ body => body.stats.likesCount
      | .error _ _ => 0) = 1 := by
  decide

/-- C21, amended. For a target of kind article or media without a
ContentStats entry, the stats read answers 200 with a new entry, which it
stores: its likesCount and commentsCount are the direct recount of the
active Likes and non-deleted Comments of the target (0 when the target has
none), its viewsCount and sharesCount are 0. For any other kind without an
entry it answers 500 and stores nothing. For a target that has an entry it
returns that entry unchanged and leaves the store as it is. -/
theorem stats_read (s : Store) (u : Nat) (k : String) (i : Nat) :
    (∀ e, s.contentStats.find? (statsMatches k i) = some e →
      getStats s u k i =
        (s, .ok 200 { stats := e,
                      isLiked := (s.likes.find? (activeLikeMatches u k i)).isSome })) ∧
    (s.contentStats.find? (statsMatches k i) = none → (k = "article" ∨ k = "media") →
      getStats s u k i =
        ({ s with contentStats := s.contentStats ++
            [{ contentType := k, contentId := i, likesCount := countLikes s.likes k i,
               commentsCount := countComments s.comments k i, viewsCount := 0,
               sharesCount := 0 }] },
          .ok 200 { stats := { contentType := k, contentId := i,
                               likesCount := countLikes s.likes k i,
                               commentsCount := countComments s.comments k i, viewsCount := 0,
                               sharesCount := 0 },
                    isLiked := (s.likes.find? (activeLikeMatches u k i)).isSome })) ∧
    (s.contentStats.find? (statsMatches k i) = none → ¬ (k = "article" ∨ k = "media") →
      (getStats s u k i).2.status = 500 ∧ (getStats s u k i).1 = s) ∧
    ((∀ l ∈ s.likes, ¬ (l.targetType = k ∧ l.targetId = i)) →
      (∀ c ∈ s.comments, ¬ (c.targetType = k ∧ c.targetId = i)) →
      countLikes s.likes k i = 0 ∧ countComments s.comments k i = 0) := by
  refine ⟨?_, ?_, ?_, ?_⟩
  · intro e he
    simp only [getStats, he]
  · intro hnone hk
    have hc : ["article", "media"].contains k = true := by
      rcases hk with h | h <;> rw [h] <;> decide
    simp only [getStats, hnone, hc, Bool.not_true, Bool.false_eq_true, if_false]
  · intro hnone hk
    have hc : ["article", "media"].contains k = false := by
      simp only [not_or] at hk
      simp [hk.1, hk.2]
    simp only [getStats, hnone, hc, Bool.not_false, if_true]
    exact ⟨rfl, trivial⟩
  · intro hl hcm
    refine ⟨countLikes_eq_zero s.likes k i hl, ?_⟩
    rw [countComments, List.countP_eq_zero]
    intro c hc hq
    simp only [Bool.and_eq_true, decide_eq_true_eq] at hq
    exact hcm c hc hq.1

theorem stats_read_witness :
    statsStore.contentStats.find? (statsMatches "article" 1) =
      some { contentType := "article", contentId := 1, likesCount := 1, commentsCount := 2,
             viewsCount := 3, sharesCount := 0 } ∧
    getStats statsStore 7 "article" 1 =
      (statsStore, .ok 200 { stats := { contentType := "article", contentId := 1,
                                        likesCount := 1, commentsCount := 2, viewsCount := 3,
                                        sharesCount := 0 },
                             isLiked := (statsStore.likes.find?
                               (activeLikeMatches 7 "article" 1)).isSome }) ∧
    (getStats commentedStore 7 "comment" 100).2.status = 500 ∧
    getStats demoStore 7 "media" 2 =
      ({ demoStore with contentStats := demoStore.contentStats ++
          [{ contentType := "media", contentId := 2,
             likesCount := countLikes demoStore.likes "media" 2,
             commentsCount := countComments demoStore.comments "media" 2, viewsCount := 0,
             sharesCount := 0 }] },
        .ok 200 { stats := { contentType := "media", contentId := 2,
                             likesCount := countLikes demoStore.likes "media" 2,
                             commentsCount := countComments demoStore.comments "media" 2,
                             viewsCount := 0, sharesCount := 0 },
                  isLiked := (demoStore.likes.find?
                    (activeLikeMatches 7 "media" 2)).isSome }) :=
  ⟨by decide, (stats_read statsStore 7 "article" 1).1 _ (by decide),
    ((stats_read commentedStore 7 "comment" 100).2.2.1 (by decide) (by decide)).1,
    (stats_read demoStore 7 "media" 2).2.1 (by decide) (Or.inr rfl)⟩

/-! ## A failing recount -/

/-- C22 (recompute failure). When a store call fails inside
updateContentStats the function returns without raising and writes
nothing; whatever req.userId holds, toggleLike, createComment and
deleteComment then give the same response as without the failure and the
same store except for the ContentStats collection, which keeps its state
from before the call: the Like or Comment write stays. -/
theorem recompute_failure_swallowed :
    (∀ (s : Store) (tt : String) (tid : Nat), updateContentStatsF true s tt tid = s) ∧
    (∀ (s : Store) (u : Option Nat) (tto : Option String) (tido : Option Nat),
      (toggleLikeF true s u tto tido).2 = (toggleLike s u tto tido).2 ∧
      (toggleLikeF true s u tto tido).1 =
        { (toggleLike s u tto tido).1 with contentStats := s.contentStats }) ∧
    (∀ (s : Store) (a : Option Nat) (content tto : Option String) (tido parent : Option Nat)
        (newId now : Nat),
      (createCommentF true s a content tto tido parent newId now).2 =
        (createComment s a content tto tido parent newId now).2 ∧
      (createCommentF true s a content tto tido parent newId now).1 =
        { (createComment s a content tto tido parent newId now).1 with
          contentStats := s.contentStats }) ∧
    (∀ (s : Store) (u : Option Nat) (cid now : Nat),
      (deleteCommentF true s u cid now).2 = (deleteComment s u cid now).2 ∧
      (deleteCommentF true s u cid now).1 =
        { (deleteComment s u cid now).1 with contentStats := s.contentStats }) ∧
    (∀ (s : Store) (u : Option Nat) (tto : Option String) (tido : Option Nat),
      toggleLikeF false s u tto tido = toggleLike s u tto tido) ∧
    (∀ (s : Store) (a : Option Nat) (content tto : Option String) (tido parent : Option Nat)
        (newId now : Nat),
      createCommentF false s a content tto tido parent newId now =
        createComment s a content tto tido parent newId now) ∧
    (∀ (s : Store) (u : Option Nat) (cid now : Nat),
      deleteCommentF false s u cid now = deleteComment s u cid now) := by
  refine ⟨fun _ _ _ => rfl, ?_, ?_, ?_, ?_, ?_, ?_⟩
  · intro s u tto tido
    cases tto with
    | none => exact ⟨rfl, rfl⟩
    | some tt =>
      cases tido with
      | none => exact ⟨rfl, rfl⟩
      | some tid =>
        cases u <;>
          simp only [toggleLikeF, toggleLike, updateContentStatsF, updateContentStats, if_true] <;>
          split_ifs <;> constructor <;> first | rfl | trivial
  · intro s a content tto tido parent newId now
    cases content with
    | none => exact ⟨rfl, rfl⟩
    | some text =>
      cases tto with
      | none => exact ⟨rfl, rfl⟩
      | some tt =>
        cases tido with
        | none => exact ⟨rfl, rfl⟩
        | some tid =>
          cases a <;>
            simp only [createCommentF, createComment, updateContentStatsF, updateContentStats,
              if_true] <;>
            split_ifs <;> constructor <;> first | rfl | trivial
  · intro s u cid now
    simp only [deleteCommentF, deleteComment, updateContentStatsF, updateContentStats, if_true]
    cases findCommentById s.comments cid with
    | none => exact ⟨rfl, rfl⟩
    | some c =>
      simp only
      split_ifs <;> exact ⟨rfl, rfl⟩
  · intro s u tto tido
    cases tto with
    | none => rfl
    | some tt =>
      cases tido with
      | none => rfl
      | some tid =>
        simp [toggleLikeF, toggleLike, updateContentStatsF]
  · intro s a content tto tido parent newId now
    cases content with
    | none => rfl
    | some text =>
      cases tto with
      | none => rfl
      | some tt =>
        cases tido with
        | none => rfl
        | some tid =>
          simp [createCommentF, createComment, updateContentStatsF]
  · intro s u cid now
    simp [deleteCommentF, deleteComment, updateContentStatsF]

/-! ## The feeds only read -/

theorem runAccesses_of_reads (effect : Access → Store → Store) (accesses : List Access) :
    ∀ s : Store, (∀ a ∈ accesses, a.isRead = true) → runAccesses effect s accesses = s := by
  induction accesses with
  | nil => intro s _; rfl
  | cons a rest ih =>
    intro s h
    have ha : a.isRead = true := h a (List.mem_cons_self _ _)
    simp only [runAccesses, List.foldl_cons, ha, if_true]
    exact ih s (fun b hb => h b (List.mem_cons_of_mem _ hb))

theorem socialFeedAccesses_reads (s : Store) (limitNum : Nat) :
    ∀ a ∈ socialFeedAccesses s limitNum, a.isRead = true := by
  intro a ha
  simp only [socialFeedAccesses, List.mem_append, List.mem_cons, List.mem_map,
    List.mem_singleton, List.not_mem_nil, or_false] at ha
  rcases ha with ((h | h) | ⟨_, _, h⟩) | (h | h)
  · rw [h]; decide
  · rw [h]; decide
  · rw [← h]; rfl
  · rw [h]; rfl
  · rw [h]; rfl

theorem unifiedFeedAccesses_reads (includeMedia includeArticles : String) :
    ∀ a ∈ unifiedFeedAccesses includeMedia includeArticles, a.isRead = true := by
  intro a ha
  simp only [unifiedFeedAccesses, List.mem_append] at ha
  rcases ha with ((h | h) | h) | h <;> split_ifs at h <;>
    simp only [List.mem_singleton, List.not_mem_nil] at h <;> rw [h] <;> decide

/-- C23 (feeds are read-only). Every store access of GET /api/feed/social
and of GET /api/feed/unified is an aggregation without a writing stage, a
findOne or a countDocuments, so whatever a writing access would do, the
store after the request (Article, Media, Like, Comment and ContentStats
collections) is the store before it, for every request. -/
theorem feeds_read_only (effect : Access → Store → Store) (s : Store) (limitNum : Nat)
    (includeMedia includeArticles : String) :
    (∀ a ∈ socialFeedAccesses s limitNum, a.isRead = true) ∧
    (∀ a ∈ unifiedFeedAccesses includeMedia includeArticles, a.isRead = true) ∧
    runAccesses effect s (socialFeedAccesses s limitNum) = s ∧
    runAccesses effect s (unifiedFeedAccesses includeMedia includeArticles) = s ∧
    (runAccesses effect s (socialFeedAccesses s limitNum)).contentStats = s.contentStats := by
  have h1 := socialFeedAccesses_reads s limitNum
  have h2 := unifiedFeedAccesses_reads includeMedia includeArticles
  have h3 := runAccesses_of_reads effect _ s h1
  exact ⟨h1, h2, h3, runAccesses_of_reads effect _ s h2, by rw [h3]⟩

/-! ## The Comment collection along a run -/

theorem updateFirst_eq_map {α : Type} (key : α → Nat) (k : Nat) (f : α → α) (l : List α)
    (hnd : (l.map key).Nodup) :
    updateFirst (fun x => decide (key x = k)) f l =
      l.map (fun x => if key x = k then f x else x) := by
  induction l with
  | nil => rfl
  | cons x xs ih =>
    simp only [List.map_cons, List.nodup_cons, List.mem_map, not_exists, not_and] at hnd
    obtain ⟨hx, hxs⟩ := hnd
    by_cases hk : key x = k
    · have hrest : xs.map (fun y => if key y = k then f y else y) = xs := by
        conv_rhs => rw [← List.map_id xs]
        apply List.map_congr_left
        intro y hy
        have : ¬ key y = k := fun e => hx y hy (by rw [e, hk])
        simp [this]
      simp [updateFirst, hk, hrest]
    · simp [updateFirst, hk, ih hxs]

theorem commentsInv_map (l : List Comment) (h : Comment → Comment)
    (hid : ∀ x, (h x)._id = x._id) (hpar : ∀ x, (h x).parentCommentId = x.parentCommentId)
    (hnd : (l.map (fun c => c._id)).Nodup)
    (hparents : ∀ c ∈ l, ∀ p, c.parentCommentId = some p → p ∈ l.map (fun d => d._id))
    (hcount : ∀ x ∈ l, (h x).repliesCount =
      l.countP (fun d => decide (d.parentCommentId = some x._id))) :
    CommentsInv (l.map h) := by
  have hids : (l.map h).map (fun c => c._id) = l.map (fun c => c._id) := by
    rw [List.map_map]
    apply List.map_congr_left
    intro x _
    exact hid x
  refine ⟨by rw [hids]; exact hnd, ?_, ?_⟩
  · intro c hc p hp
    obtain ⟨x, hx, rfl⟩ := List.mem_map.mp hc
    rw [hids]
    exact hparents x hx p (by rw [← hpar x]; exact hp)
  · intro c hc
    obtain ⟨x, hx, rfl⟩ := List.mem_map.mp hc
    rw [hcount x hx, List.countP_map]
    apply List.countP_congr
    intro d _
    simp [Function.comp, hpar d, hid x]

theorem bumpReplies_eq_map (l : List Comment) (parent : Option Nat)
    (hnd : (l.map (fun c => c._id)).Nodup) :
    bumpReplies l parent =
      l.map (fun x => if parent = some x._id
        then { x with repliesCount := x.repliesCount + 1 } else x) := by
  cases parent with
  | none =>
    simp [bumpReplies]
  | some p =>
    simp only [bumpReplies]
    rw [updateFirst_eq_map (fun c : Comment => c._id) p _ l hnd]
    apply List.map_congr_left
    intro x _
    by_cases hx : x._id = p
    · simp [hx]
    · have : ¬ p = x._id := fun e => hx e.symm
      simp [hx, this]

theorem markDeleted_eq_map (l : List Comment) (cid now : Nat)
    (hnd : (l.map (fun c => c._id)).Nodup) :
    markDeleted l cid now =
      l.map (fun x => if x._id = cid
        then { x with isDeleted := true, deletedAt := some now } else x) := by
  simp only [markDeleted]
  exact updateFirst_eq_map (fun c : Comment => c._id) cid _ l hnd

theorem toggleLike_comments (s : Store) (u : Option Nat) (tto : Option String)
    (tido : Option Nat) : (toggleLike s u tto tido).1.comments = s.comments := by
  cases hok : (toggleLike s u tto tido).2.isOk with
  | false => rw [toggleLike_error_unchanged s u tto tido hok]
  | true =>
    obtain ⟨_, tt, tid, _, _, _, _, heq⟩ := toggleLike_ok s u tto tido hok
    rw [heq]
    rfl

theorem createComment_inv (s : Store) (authorId : Option Nat) (content tto : Option String)
    (tido parent : Option Nat) (newId now : Nat) (hinv : CommentsInv s.comments) :
    CommentsInv (createComment s authorId content tto tido parent newId now).1.comments := by
  cases hok : (createComment s authorId content tto tido parent newId now).2.isOk with
  | false =>
    rw [createComment_error_unchanged s authorId content tto tido parent newId now hok]
    exact hinv
  | true =>
    obtain ⟨a, text, tt, tid, rfl, rfl, rfl, rfl, _, _, _, _, hp, hfresh, heq⟩ :=
      createComment_ok s authorId content tto tido parent newId now hok
    obtain ⟨hnd, hparents, hcount⟩ := hinv
    have hcomments :
        (createComment s (some a) (some text) (some tt) (some tid) parent newId
          now).1.comments =
        bumpReplies (s.comments ++ [newComment a text tt tid parent newId now]) parent := by
      rw [heq]
    have hnew : newId ∉ s.comments.map (fun c => c._id) := by
      intro hmem
      obtain ⟨c, hc, hcid⟩ := List.mem_map.mp hmem
      exact hfresh c hc hcid
    have hnd' : ((s.comments ++ [newComment a text tt tid parent newId now]).map
        (fun c => c._id)).Nodup := by
      rw [List.map_append, List.nodup_append]
      refine ⟨hnd, by simp, ?_⟩
      intro x hx hx'
      simp only [List.map_cons, List.map_nil, List.mem_singleton] at hx'
      apply hnew
      rw [hx'] at hx
      exact hx
    have hparentIn : ∀ p, parent = some p → p ∈ s.comments.map (fun c => c._id) := by
      intro p hpar
      obtain ⟨c, hc⟩ := hp p hpar
      exact List.mem_map.mpr ⟨c, List.mem_of_find?_eq_some hc, by
        simpa using List.find?_some hc⟩
    have hparentNe : parent ≠ some newId := fun e => hnew (hparentIn newId e)
    have hnoChild : s.comments.countP (fun d => decide (d.parentCommentId = some newId)) = 0 := by
      rw [List.countP_eq_zero]
      intro d hd hq
      exact hnew (hparents d hd newId (by simpa using hq))
    rw [hcomments, bumpReplies_eq_map _ _ hnd']
    apply commentsInv_map _ _ _ _ hnd'
    · intro c hc p hpar
      rw [List.map_append]
      apply List.mem_append_left
      rcases List.mem_append.mp hc with h | h
      · exact hparents c h p hpar
      · simp only [List.mem_singleton] at h
        subst h
        exact hparentIn p hpar
    · intro x hx
      rw [List.countP_append]
      rcases List.mem_append.mp hx with h | h
      · by_cases hpx : parent = some x._id
        · simp [hpx, hcount x h, List.countP_cons, newComment]
        · simp [hpx, hcount x h, List.countP_cons, newComment]
      · simp only [List.mem_singleton] at h
        subst h
        have hid : (newComment a text tt tid parent newId now)._id = newId := rfl
        rw [hid]
        simp [hparentNe, hnoChild, List.countP_cons, newComment]
    · intro x
      by_cases hpx : parent = some x._id <;> simp [hpx]
    · intro x
      by_cases hpx : parent = some x._id <;> simp [hpx]

theorem deleteComment_inv (s : Store) (u : Option Nat) (cid now : Nat)
    (hinv : CommentsInv s.comments) :
    CommentsInv (deleteComment s u cid now).1.comments := by
  cases hok : (deleteComment s u cid now).2.isOk with
  | false =>
    rw [deleteComment_error_unchanged s u cid now hok]
    exact hinv
  | true =>
    obtain ⟨c, _, _, heq⟩ := deleteComment_ok s u cid now hok
    obtain ⟨hnd, hparents, hcount⟩ := hinv
    have hcomments : (deleteComment s u cid now).1.comments = markDeleted s.comments cid now := by
      rw [heq]; rfl
    rw [hcomments, markDeleted_eq_map _ _ _ hnd]
    apply commentsInv_map _ _ _ _ hnd hparents
    · intro x hx
      by_cases hpx : x._id = cid <;> simp [hpx, hcount x hx]
    · intro x
      by_cases hpx : x._id = cid <;> simp [hpx]
    · intro x
      by_cases hpx : x._id = cid <;> simp [hpx]

theorem runOps_inv (ops : List Op) :
    ∀ s : Store, CommentsInv s.comments → CommentsInv (runOps s ops).comments := by
  induction ops with
  | nil => intro s h; exact h
  | cons op ops ih =>
    intro s h
    apply ih
    cases op with
    | like u tto tido =>
      show CommentsInv (toggleLike s u tto tido).1.comments
      rw [toggleLike_comments]
      exact h
    | comment a content tto tido parent newId now =>
      exact createComment_inv s a content tto tido parent newId now h
    | remove u cid now =>
      exact deleteComment_inv s u cid now h

theorem commentsInv_nil : CommentsInv [] :=
  ⟨List.nodup_nil, by simp, by simp⟩

/-! ## Runs of requests to the engagement routes -/

theorem getStats_frame (s : Store) (u : Nat) (k : String) (i : Nat) :
    (getStats s u k i).1.likes = s.likes ∧ (getStats s u k i).1.comments = s.comments := by
  unfold getStats
  cases s.contentStats.find? (statsMatches k i) with
  | some e => exact ⟨rfl, rfl⟩
  | none =>
    simp only
    split_ifs <;> exact ⟨rfl, rfl⟩

theorem call_apply_frame (jwtVerify : String → Option Nat) (s : Store) (call : Call) :
    (call.apply jwtVerify s).likes = s.likes ∧ (call.apply jwtVerify s).comments = s.comments := by
  cases call with
  | like token tt tid =>
    simp only [Call.apply, (postLikes_fails s jwtVerify token tt tid).2, and_self]
  | comment token content tt tid parent newId now =>
    simp only [Call.apply,
      (postComments_fails s jwtVerify token content tt tid parent newId now).2, and_self]
  | remove token cid now =>
    simp only [Call.apply, (deleteComments_fails s jwtVerify token cid now).2, and_self]
  | stats viewer tt tid => exact getStats_frame s viewer tt tid

theorem runCalls_frame (jwtVerify : String → Option Nat) (calls : List Call) :
    ∀ s : Store, (runCalls jwtVerify s calls).likes = s.likes ∧
      (runCalls jwtVerify s calls).comments = s.comments := by
  induction calls with
  | nil => intro s; exact ⟨rfl, rfl⟩
  | cons call calls ih =>
    intro s
    have h1 := ih (call.apply jwtVerify s)
    have h2 := call_apply_frame jwtVerify s call
    exact ⟨by rw [runCalls, h1.1, h2.1], by rw [runCalls, h1.2, h2.2]⟩

theorem getStats_kinds (s : Store) (u : Nat) (k : String) (i : Nat)
    (hk : StatsKindsOk s.contentStats) (hnd : (s.contentStats.map statsKey).Nodup) :
    StatsKindsOk (getStats s u k i).1.contentStats ∧
    ((getStats s u k i).1.contentStats.map statsKey).Nodup := by
  unfold getStats
  cases hf : s.contentStats.find? (statsMatches k i) with
  | some e => exact ⟨hk, hnd⟩
  | none =>
    simp only
    by_cases hc : ["article", "media"].contains k = true
    · have hkind : k = "article" ∨ k = "media" := by simpa using hc
      simp only [hc, Bool.not_true, Bool.false_eq_true, if_false]
      constructor
      · intro e he
        rcases List.mem_append.mp he with h | h
        · exact hk e h
        · simp only [List.mem_singleton] at h
          rw [h]
          exact hkind
      · rw [List.map_append, List.nodup_append]
        refine ⟨hnd, by simp, ?_⟩
        intro a ha hb
        simp only [List.map_cons, List.map_nil, List.mem_singleton] at hb
        obtain ⟨e, he, hek⟩ := List.mem_map.mp ha
        have := List.find?_eq_none.mp hf e he
        apply this
        rw [statsMatches_iff, hek, hb]
        rfl
    · simp only [hc, Bool.not_false, if_true]
      exact ⟨hk, hnd⟩

theorem call_apply_kinds (jwtVerify : String → Option Nat) (s : Store) (call : Call)
    (hk : StatsKindsOk s.contentStats) (hnd : (s.contentStats.map statsKey).Nodup) :
    StatsKindsOk (call.apply jwtVerify s).contentStats ∧
    ((call.apply jwtVerify s).contentStats.map statsKey).Nodup := by
  cases call with
  | like token tt tid =>
    simp only [Call.apply, (postLikes_fails s jwtVerify token tt tid).2]
    exact ⟨hk, hnd⟩
  | comment token content tt tid parent newId now =>
    simp only [Call.apply,
      (postComments_fails s jwtVerify token content tt tid parent newId now).2]
    exact ⟨hk, hnd⟩
  | remove token cid now =>
    simp only [Call.apply, (deleteComments_fails s jwtVerify token cid now).2]
    exact ⟨hk, hnd⟩
  | stats viewer tt tid => exact getStats_kinds s viewer tt tid hk hnd

theorem runCalls_kinds (jwtVerify : String → Option Nat) (calls : List Call) :
    ∀ s : Store, StatsKindsOk s.contentStats → (s.contentStats.map statsKey).Nodup →
      StatsKindsOk (runCalls jwtVerify s calls).contentStats ∧
      ((runCalls jwtVerify s calls).contentStats.map statsKey).Nodup := by
  induction calls with
  | nil => intro s hk hnd; exact ⟨hk, hnd⟩
  | cons call calls ih =>
    intro s hk hnd
    obtain ⟨h1, h2⟩ := call_apply_kinds jwtVerify s call hk hnd
    exact ih _ h1 h2

/-! ## Threading depth -/

/-- C24 (threading depth). No request to the engagement routes changes the
Comment collection: POST /api/comments never creates a comment, the
handler reading an undefined req.userId behind authMiddleware. So from a
collection threaded at most one level deep, every sequence of requests
leaves every Comment with a non-null parentCommentId with a parent whose
own parentCommentId is null: a reply to a reply is never created. -/
theorem one_level_threading (jwtVerify : String → Option Nat) (s : Store) (calls : List Call)
    (h : OneLevel s.comments) :
    (runCalls jwtVerify s calls).comments = s.comments ∧
    OneLevel (runCalls jwtVerify s calls).comments ∧
    (∀ (token : Option String) (content tto : Option String) (tido parent : Option Nat)
        (newId now : Nat),
      (postComments s jwtVerify token content tto tido parent newId now).2.isOk = false ∧
      (postComments s jwtVerify token content tto tido parent newId now).1 = s) := by
  have hc := (runCalls_frame jwtVerify calls s).2
  exact ⟨hc, by rw [hc]; exact h, postComments_fails s jwtVerify⟩

theorem oneLevel_threadStore : OneLevel threadStore.comments := by
  unfold OneLevel
  decide

theorem one_level_threading_witness :
    OneLevel threadStore.comments ∧
    (threadStore.comments.map (fun c => (c._id, c.parentCommentId)) =
      [(100, none), (101, some 100)]) ∧
    (runCalls demoVerify threadStore
      [.comment (some "tok") (some "reply to the reply") (some "article") (some 1) (some 101)
        102 32]).comments = threadStore.comments :=
  ⟨oneLevel_threadStore, by decide,
    (one_level_threading demoVerify threadStore
      [.comment (some "tok") (some "reply to the reply") (some "article") (some 1) (some 101)
        102 32] oneLevel_threadStore).1⟩

/-! ## repliesCount along a run -/

/-- C29 (repliesCount counts every reply). In every state reached from an
empty Comment collection by createComment and deleteComment calls (and
toggleLike calls), whatever req.userId holds in each, the repliesCount of
each comment is the number of Comment records, deleted or not, whose
parentCommentId is that comment. deleteComment changes no id, parent or
repliesCount, so the repliesCount of the parent of a deleted reply stays.
The listing leaves deleted replies out: on a store where the comment 100
has repliesCount 1 and its only reply is soft-deleted, the listing of the
replies of 100 is empty. -/
theorem repliesCount_counts_all :
    (∀ (s : Store) (ops : List Op), s.comments = [] →
      ∀ c ∈ (runOps s ops).comments, c.repliesCount =
        (runOps s ops).comments.countP (fun d => decide (d.parentCommentId = some c._id))) ∧
    (∀ (s : Store) (u : Option Nat) (cid now : Nat),
      (deleteComment s u cid now).1.comments.map
          (fun c => (c._id, c.parentCommentId, c.repliesCount)) =
        s.comments.map (fun c => (c._id, c.parentCommentId, c.repliesCount))) ∧
    replyDeletedStore.comments.map
        (fun c => (c._id, c.parentCommentId, c.repliesCount, c.isDeleted)) =
      [(100, none, 1, false), (101, some 100, 0, true)] ∧
    (match getComments replyDeletedStore 7 "article" 1 none none (some 100) with
      | .ok _ body => (body.comments.length, body.totalComments)
      | .error _ _ => (1, 1)) = (0, 0) := by
  refine ⟨?_, ?_, by decide, by decide⟩
  · intro s ops h0 c hc
    exact (runOps_inv ops s (by rw [h0]; exact commentsInv_nil)).2.2 c hc
  · intro s u cid now
    cases hok : (deleteComment s u cid now).2.isOk with
    | false => rw [deleteComment_error_unchanged s u cid now hok]
    | true =>
      obtain ⟨c, _, _, heq⟩ := deleteComment_ok s u cid now hok
      rw [heq]
      exact map_updateFirst (fun c : Comment => (c._id, c.parentCommentId, c.repliesCount)) _
        (fun c : Comment => { c with isDeleted := true, deletedAt := some now }) _
        (fun _ => rfl)

theorem repliesCount_counts_all_witness :
    demoStore.comments = [] ∧
    ∀ c ∈ (runOps demoStore demoOps).comments, c.repliesCount =
      (runOps demoStore demoOps).comments.countP
        (fun d => decide (d.parentCommentId = some c._id)) :=
  ⟨rfl, repliesCount_counts_all.1 demoStore demoOps rfl⟩

/-! ## The likesCount field of a comment -/

/-- C25 (likesCount of a comment). No handler writes the likesCount of a
comment: toggleLike leaves the Comment collection as it is whatever
req.userId holds, and so does every request to the engagement routes. On
a store where user 9 has an active Like on the comment 100, the comment
has one like while its stored likesCount, which GET /api/comments returns,
is 0, and it stays so after any sequence of requests. -/
theorem comment_likesCount_not_maintained :
    countLikes likedCommentStore.likes "comment" 100 = 1 ∧
    (findCommentById likedCommentStore.comments 100).map (fun c => c.likesCount) = some 0 ∧
    (match getComments likedCommentStore 9 "article" 1 none none none with
      | .ok _ body => body.comments.map (fun i => (i._id, i.likesCount))
      | .error _ _ => []) = [(100, 0)] ∧
    (∀ (s : Store) (u : Option Nat) (tto : Option String) (tido : Option Nat),
      (toggleLike s u tto tido).1.comments = s.comments) ∧
    (∀ (jwtVerify : String → Option Nat) (calls : List Call),
      countLikes (runCalls jwtVerify likedCommentStore calls).likes "comment" 100 = 1 ∧
      (findCommentById (runCalls jwtVerify likedCommentStore calls).comments 100).map
        (fun c => c.likesCount) = some 0) := by
  refine ⟨by decide, by decide, by decide, toggleLike_comments, ?_⟩
  intro jwtVerify calls
  obtain ⟨h1, h2⟩ := runCalls_frame jwtVerify calls likedCommentStore
  rw [h1, h2]
  exact ⟨by decide, by decide⟩

/-! ## Who may change an article -/

/-- C26 (article ownership). An administrator who is not the author passes
permissionMiddleware for blog, yet PUT and DELETE /api/blog/articles/:id
on the article 1 of user 7 answer 403: for an existing article the
handlers answer 403 exactly when the requester is not the author, whatever
the role. -/
theorem article_admin_forbidden :
    (adminUser.role = "admin" ∧
      permissionMiddleware "blog" "PUT" adminUser (fun _ => false) = true ∧
      (updateArticle adminStore adminUser 1
        { title := some "edited", content := none, summary := none, published := none,
          tags := none }).2.status = 403 ∧
      (deleteArticle adminStore adminUser 1).2.status = 403) ∧
    (∀ (s : Store) (user : User) (id : Nat) (body : ArticleUpdate) (a : Article),
      s.articles.find? (fun x => decide (x._id = id)) = some a →
      ((updateArticle s user id body).2.status = 403 ↔ a.authorId ≠ user._id) ∧
      ((deleteArticle s user id).2.status = 403 ↔ a.authorId ≠ user._id)) := by
  refine ⟨by decide, ?_⟩
  intro s user id body a ha
  constructor
  · by_cases h : a.authorId = user._id
    · simp [updateArticle, ha, h, Result.status]
    · simp [updateArticle, ha, h, Result.status]
  · by_cases h : a.authorId = user._id
    · simp [deleteArticle, ha, h, Result.status]
    · simp [deleteArticle, ha, h, Result.status]

theorem article_admin_forbidden_witness :
    adminStore.articles.find? (fun x => decide (x._id = 1)) = some demoArticle ∧
    demoArticle.authorId ≠ adminUser._id ∧
    (deleteArticle adminStore adminUser 1).2.status = 403 :=
  ⟨rfl, by decide,
    ((article_admin_forbidden.2 adminStore adminUser 1
      { title := none, content := none, summary := none, published := none, tags := none }
      demoArticle rfl).2).mpr (by decide)⟩

/-! ## Size of the social feed -/

theorem lookupUnwind_fst {α : Type} (users : List User) (ref : α → Nat) (docs : List α)
    (hnd : (users.map (fun v => v._id)).Nodup)
    (hex : ∀ d ∈ docs, ∃ u ∈ users, u._id = ref d) :
    (lookupUnwind users ref docs).map Prod.fst = docs := by
  induction docs with
  | nil => rfl
  | cons d ds ih =>
    obtain ⟨u, hu, hid⟩ := hex d (List.mem_cons_self _ _)
    have hrest := ih (fun x hx => hex x (List.mem_cons_of_mem _ hx))
    have hsplit : lookupUnwind users ref (d :: ds) =
        lookupUnwind users ref [d] ++ lookupUnwind users ref ds := by
      simp [lookupUnwind]
    rw [hsplit, lookupUnwind_single users ref d u hnd hu hid, List.map_append, hrest]
    rfl

theorem length_sortByCreatedAtDesc (docs : List FeedDoc) :
    (sortByCreatedAtDesc docs).length = docs.length :=
  List.length_insertionSort newerFirst docs

theorem lookupUnwind_filter {α : Type} (users : List User) (ref : α → Nat) (q : α → Bool)
    (docs : List α) :
    (lookupUnwind users ref docs).filter (fun p => q p.1) =
      lookupUnwind users ref (docs.filter q) := by
  induction docs with
  | nil => rfl
  | cons d ds ih =>
    have hsplit : ∀ l : List α, lookupUnwind users ref (d :: l) =
        (users.filter (fun u => decide (u._id = ref d))).map (fun u => (d, u)) ++
          lookupUnwind users ref l := by
      intro l
      simp [lookupUnwind]
    rw [hsplit, List.filter_append, ih]
    by_cases hq : q d = true
    · have hkeep : ((users.filter (fun u => decide (u._id = ref d))).map
          (fun u => (d, u))).filter (fun p => q p.1) =
          (users.filter (fun u => decide (u._id = ref d))).map (fun u => (d, u)) := by
        rw [List.filter_eq_self]
        intro p hp
        obtain ⟨u, _, rfl⟩ := List.mem_map.mp hp
        exact hq
      rw [hkeep, List.filter_cons_of_pos hq, hsplit]
    · have hdrop : ((users.filter (fun u => decide (u._id = ref d))).map
          (fun u => (d, u))).filter (fun p => q p.1) = [] := by
        rw [List.filter_eq_nil_iff]
        intro p hp
        obtain ⟨u, _, rfl⟩ := List.mem_map.mp hp
        exact hq
      rw [hdrop, List.filter_cons_of_neg hq, List.nil_append]

theorem length_socialArticles (s : Store) (limitNum : Nat)
    (hnd : (s.users.map (fun v => v._id)).Nodup)
    (hex : ∀ a ∈ s.articles, a.published = true → ∃ u ∈ s.users, u._id = a.authorId) :
    (socialArticles s limitNum).length =
      min (ceilDiv limitNum 2) (s.articles.countP (fun a => a.published)) := by
  have hfst := lookupUnwind_fst s.users (fun a : Article => a.authorId)
    (s.articles.filter (fun a => a.published)) hnd (by
      intro a ha
      obtain ⟨hmem, hpub⟩ := List.mem_filter.mp ha
      exact hex a hmem hpub)
  have hcount : ((lookupUnwind s.users (fun a : Article => a.authorId) s.articles).filter
      (fun p => p.1.published)).length = s.articles.countP (fun a => a.published) := by
    rw [lookupUnwind_filter s.users (fun a : Article => a.authorId) (fun a => a.published),
      List.countP_eq_length_filter]
    conv_rhs => rw [← hfst, List.length_map]
  simp only [socialArticles, List.length_take, length_sortByCreatedAtDesc, List.length_map,
    hcount]

theorem length_socialMedias (s : Store) (limitNum : Nat)
    (hnd : (s.users.map (fun v => v._id)).Nodup)
    (hex : ∀ m ∈ s.medias, ∃ u ∈ s.users, u._id = m.uploadedBy) :
    (socialMedias s limitNum).length = min (ceilDiv limitNum 2) s.medias.length := by
  have hfst := lookupUnwind_fst s.users (fun m : Media => m.uploadedBy) s.medias hnd hex
  have hlen : (lookupUnwind s.users (fun m : Media => m.uploadedBy) s.medias).length =
      s.medias.length := by
    conv_rhs => rw [← hfst, List.length_map]
  simp only [socialMedias, List.length_take, length_sortByCreatedAtDesc, List.length_map, hlen]

/-- C27 (size of the social feed). For a limit L of at least 1, with A
published articles and M medias, every published article and every media
having an existing author among users of distinct ids, GET /api/feed/social returns
exactly min(L, min(ceil(L/2), A) + min(ceil(L/2), M)) items: never more
than L, exactly L when each kind has at least ceil(L/2) candidates, and at
most ceil(L/2) when one kind is empty. -/
theorem social_feed_length (s : Store) (userId page L : Nat) (hL : 1 ≤ L)
    (hnd : (s.users.map (fun v => v._id)).Nodup)
    (hA : ∀ a ∈ s.articles, a.published = true → ∃ u ∈ s.users, u._id = a.authorId)
    (hM : ∀ m ∈ s.medias, ∃ u ∈ s.users, u._id = m.uploadedBy) :
    (feedOf (socialFeed s userId page L)).length =
      min L (min (ceilDiv L 2) (s.articles.countP (fun a => a.published)) +
        min (ceilDiv L 2) s.medias.length) ∧
    (feedOf (socialFeed s userId page L)).length ≤ L ∧
    (ceilDiv L 2 ≤ s.articles.countP (fun a => a.published) → ceilDiv L 2 ≤ s.medias.length →
      (feedOf (socialFeed s userId page L)).length = L) ∧
    (s.articles.countP (fun a => a.published) = 0 ∨ s.medias.length = 0 →
      (feedOf (socialFeed s userId page L)).length ≤ ceilDiv L 2) := by
  have hlen : (feedOf (socialFeed s userId page L)).length =
      min L (min (ceilDiv L 2) (s.articles.countP (fun a => a.published)) +
        min (ceilDiv L 2) s.medias.length) := by
    rw [feedOf_socialFeed, if_neg (by omega)]
    simp only [List.length_map, List.length_take, length_sortByCreatedAtDesc,
      List.length_append, length_socialArticles s L hnd hA, length_socialMedias s L hnd hM]
  have hceil : ceilDiv L 2 = (L + 1) / 2 := by
    simp [ceilDiv]
  rw [hlen, hceil]
  refine ⟨rfl, by omega, ?_, ?_⟩
  · intro h1 h2
    omega
  · intro h
    omega

theorem social_feed_length_witness :
    (1 ≤ 3) ∧ (feedOf (socialFeed demoStore 7 1 3)).length =
      min 3 (min (ceilDiv 3 2) (demoStore.articles.countP (fun a => a.published)) +
        min (ceilDiv 3 2) demoStore.medias.length) :=
  ⟨by decide,
    (social_feed_length demoStore 7 1 3 (by decide) (by decide)
      (fun a ha _ => ⟨demoUser, by decide, by
        have : a = demoArticle := by simpa [demoStore] using ha
        rw [this]; rfl⟩)
      (fun m hm => ⟨demoUser, by decide, by
        have : m = demoMedia := by simpa [demoStore] using hm
        rw [this]; rfl⟩)).1⟩

/-! ## Kinds of the counter-cache entries -/

/-- C28 (ContentStats kinds). From a ContentStats collection whose entries
are of kind article or media with at most one entry per (contentType,
contentId), every sequence of requests to the like, comment, delete and
stats routes leaves it so: the three mutation routes never reach the
recount, the handlers reading an undefined req.userId behind
authMiddleware, and the stats read creates an entry only for a kind
article or media that has none. A like request on a comment never
succeeds and creates no ContentStats entry. -/
theorem stats_kinds (jwtVerify : String → Option Nat) (s : Store) (calls : List Call)
    (hk : StatsKindsOk s.contentStats) (hnd : (s.contentStats.map statsKey).Nodup) :
    StatsKindsOk (runCalls jwtVerify s calls).contentStats ∧
    ((runCalls jwtVerify s calls).contentStats.map statsKey).Nodup ∧
    (∀ (token : Option String) (tid : Nat),
      (postLikes s jwtVerify token (some "comment") (some tid)).2.isOk = false ∧
      (postLikes s jwtVerify token (some "comment") (some tid)).1.contentStats =
        s.contentStats) := by
  obtain ⟨h1, h2⟩ := runCalls_kinds jwtVerify calls s hk hnd
  refine ⟨h1, h2, ?_⟩
  intro token tid
  have h := postLikes_fails s jwtVerify token (some "comment") (some tid)
  exact ⟨h.1, by rw [h.2]⟩

theorem statsKindsOk_commentedStore : StatsKindsOk commentedStore.contentStats := by
  unfold StatsKindsOk
  decide

theorem stats_kinds_witness :
    StatsKindsOk commentedStore.contentStats ∧
    (commentedStore.contentStats.map statsKey).Nodup ∧
    (runCalls demoVerify commentedStore demoCalls).contentStats.map statsKey =
      [("article", 1), ("media", 2)] ∧
    StatsKindsOk (runCalls demoVerify commentedStore demoCalls).contentStats :=
  ⟨statsKindsOk_commentedStore, by decide, by decide,
    (stats_kinds demoVerify commentedStore demoCalls statsKindsOk_commentedStore
      (by decide)).1⟩

/-! ## Size of the public feed -/

theorem length_queryLimit_le {α : Type} (n : Nat) (docs : List α) (hn : 1 ≤ n) :
    (queryLimit n docs).length ≤ n := by
  unfold queryLimit
  rw [if_neg (by omega), List.length_take]
  omega

theorem length_publicFeedItems (regexTest : String → String → Bool) (s : Store) (limitNum : Nat)
    (search : Option String) :
    (publicFeedItems regexTest s limitNum search).length =
      (publicArticles regexTest s limitNum search).length +
        (publicMedias regexTest s limitNum search).length := by
  simp only [publicFeedItems, List.length_insertionSort, List.length_append, List.length_map]

theorem jsSlice_length_le {α : Type} (xs : List α) (start stop : Int) (h0 : 0 ≤ start) :
    (jsSlice xs start stop).length ≤ xs.length - start.toNat := by
  unfold jsSlice
  have hs : ¬ start < 0 := by omega
  simp only [hs, if_false, List.length_take, List.length_drop]
  omega

theorem jsSlice_eq_nil {α : Type} (xs : List α) (start stop : Int)
    (h : Int.ofNat xs.length ≤ start) : jsSlice xs start stop = [] := by
  have hlen := jsSlice_length_le xs start stop (by
    have : (0 : Int) ≤ Int.ofNat xs.length := Int.ofNat_nonneg _
    omega)
  have hzero : xs.length - start.toNat = 0 := by
    simp only [Int.ofNat_eq_coe] at h
    omega
  rw [hzero] at hlen
  exact List.eq_nil_of_length_eq_zero (by omega)

/-- C30 (size of the public feed). For GET /api/public/feed with a limit L
of at least 1, the merged list that is paginated holds at most
ceil(3L/5) + ceil(2L/5) items, which is at most L + 1, so pagination.total
is at most L + 1 whatever the store holds; page 2 returns at most one item
and every page from 3 on returns an empty feed. -/
theorem public_feed_bounds (regexTest : String → String → Bool) (s : Store) (pageNum : Int)
    (L : Nat) (search : Option String) (hL : 1 ≤ L) :
    ceilDiv (3 * L) 5 + ceilDiv (2 * L) 5 ≤ L + 1 ∧
    (publicFeed regexTest s pageNum L search).total ≤ ceilDiv (3 * L) 5 + ceilDiv (2 * L) 5 ∧
    (publicFeed regexTest s pageNum L search).total ≤ L + 1 ∧
    (pageNum = 2 → (publicFeed regexTest s pageNum L search).feed.length ≤ 1) ∧
    (3 ≤ pageNum → (publicFeed regexTest s pageNum L search).feed = []) := by
  have hc3 : ceilDiv (3 * L) 5 = (3 * L + 4) / 5 := by simp [ceilDiv]
  have hc2 : ceilDiv (2 * L) 5 = (2 * L + 4) / 5 := by simp [ceilDiv]
  have hsum : ceilDiv (3 * L) 5 + ceilDiv (2 * L) 5 ≤ L + 1 := by
    rw [hc3, hc2]; omega
  have ha : (publicArticles regexTest s L search).length ≤ ceilDiv (3 * L) 5 :=
    length_queryLimit_le _ _ (by rw [hc3]; omega)
  have hm : (publicMedias regexTest s L search).length ≤ ceilDiv (2 * L) 5 :=
    length_queryLimit_le _ _ (by rw [hc2]; omega)
  have htotal : (publicFeedItems regexTest s L search).length ≤
      ceilDiv (3 * L) 5 + ceilDiv (2 * L) 5 := by
    rw [length_publicFeedItems]; omega
  refine ⟨hsum, htotal, by
    show (publicFeedItems regexTest s L search).length ≤ L + 1
    omega, ?_, ?_⟩
  · intro hp
    subst hp
    show (jsSlice (publicFeedItems regexTest s L search) ((2 - 1) * Int.ofNat L)
      ((2 - 1) * Int.ofNat L + Int.ofNat L)).length ≤ 1
    have h := jsSlice_length_le (publicFeedItems regexTest s L search) ((2 - 1) * Int.ofNat L)
      ((2 - 1) * Int.ofNat L + Int.ofNat L) (by simp [Int.ofNat_eq_coe])
    have ht : ((2 - 1) * Int.ofNat L : Int).toNat = L := by simp [Int.ofNat_eq_coe]
    rw [ht] at h
    omega
  · intro hp
    show jsSlice (publicFeedItems regexTest s L search) ((pageNum - 1) * Int.ofNat L)
      ((pageNum - 1) * Int.ofNat L + Int.ofNat L) = []
    apply jsSlice_eq_nil
    have h1 : (2 : Int) * Int.ofNat L ≤ (pageNum - 1) * Int.ofNat L :=
      Int.mul_le_mul_of_nonneg_right (by omega) (Int.ofNat_nonneg _)
    have h2 : Int.ofNat (publicFeedItems regexTest s L search).length ≤ Int.ofNat (L + 1) :=
      Int.ofNat_le.mpr (by omega)
    simp only [Int.ofNat_eq_coe] at h1 h2 ⊢
    omega

theorem public_feed_bounds_witness :
    (1 ≤ 3) ∧ (publicFeed (fun _ _ => false) demoStore 2 3 none).total ≤ 3 + 1 ∧
    (publicFeed (fun _ _ => false) demoStore 3 1 none).feed = [] :=
  ⟨by decide, (public_feed_bounds (fun _ _ => false) demoStore 2 3 none (by decide)).2.2.1,
    (public_feed_bounds (fun _ _ => false) demoStore 3 1 none (by decide)).2.2.2.2
      (by decide)⟩

end FlutterGestP
